import Mathlib

/-!
# Form validation of the storefront pages

A shallow embedding of the client-side validation logic of the pages
`Login.jsx`, `Register.jsx`, `Account.jsx`, `Checkout.jsx` and `Profile.jsx`.

* JavaScript strings are sequences of UTF-16 code units (`JS.Str`).
* JavaScript objects used as maps (`errors`, `touched`, `formData`) are
  insertion-ordered association lists keyed by property name (`JS.Obj`).
* Regular-expression literals are terms of `JS.Regex`, run by a backtracking
  matcher (`JS.Regex.run`) and queried through `JS.Regex.test`.
* A React event handler reads the state captured by the render it was created
  in; every `setX(value)` call of the handler replaces the pending value, and
  the last call wins when the batch is flushed.  Handlers are therefore
  functions from the rendered state to the next rendered state.
-/

set_option autoImplicit false

namespace JS

/-! ## Strings -/

/-- A JavaScript string, as the list of its UTF-16 code units. -/
abbrev Str := List Nat

/-- The UTF-16 code units of one Unicode scalar value. -/
def encodeChar (c : Char) : List Nat :=
  if c.toNat < 0x10000 then [c.toNat]
  else [0xD800 + (c.toNat - 0x10000) / 0x400, 0xDC00 + (c.toNat - 0x10000) % 0x400]

/-- The JavaScript string denoted by a string literal. -/
def lit (s : String) : Str := s.toList.flatMap encodeChar

/-- The class `\s` (and the characters removed by `String.prototype.trim`):
ECMAScript WhiteSpace and LineTerminator code units. -/
def isSpace (c : Nat) : Bool :=
  c == 0x09 || c == 0x0A || c == 0x0B || c == 0x0C || c == 0x0D || c == 0x20 ||
  c == 0xA0 || c == 0x1680 || (0x2000 ≤ c && c ≤ 0x200A) || c == 0x2028 ||
  c == 0x2029 || c == 0x202F || c == 0x205F || c == 0x3000 || c == 0xFEFF

/-- The class `\d`, the same as `[0-9]`. -/
def isDigit (c : Nat) : Bool := 48 ≤ c && c ≤ 57

/-- The class `[a-z]`. -/
def isLower (c : Nat) : Bool := 97 ≤ c && c ≤ 122

/-- The class `[A-Z]`. -/
def isUpper (c : Nat) : Bool := 65 ≤ c && c ≤ 90

/-- The class `[a-zA-Z]`. -/
def isLetter (c : Nat) : Bool := isLower c || isUpper c

/-- ECMAScript LineTerminator code units, the ones `.` does not match. -/
def isLineTerminator (c : Nat) : Bool :=
  c == 0x0A || c == 0x0D || c == 0x2028 || c == 0x2029

/-- The class `.` (without the `s` flag). -/
def isDot (c : Nat) : Bool := !isLineTerminator c

/-- A class listing its members, such as `[@$!%*?&]`. -/
def oneOf (members : String) (c : Nat) : Bool := (lit members).contains c

/-- The method `String.prototype.trimStart`. -/
def trimStart (s : Str) : Str := s.dropWhile isSpace

/-- The method `String.prototype.trimEnd`. -/
def trimEnd (s : Str) : Str := (s.reverse.dropWhile isSpace).reverse

/-- The method `String.prototype.trim`. -/
def trim (s : Str) : Str := trimEnd (trimStart s)

/-- The call `s.replace(/\s+/g, "")`: every run of whitespace is removed. -/
def stripSpaces (s : Str) : Str := s.filter (fun c => !isSpace c)

/-! ## Objects used as maps -/

/-- A JavaScript object used as a map from property names to values, in
insertion order. -/
abbrev Obj (α : Type) := List (String × α)

namespace Obj

variable {α : Type}

/-- The property read `o[k]`, `none` standing for `undefined`. -/
def get (o : Obj α) (k : String) : Option α := (o.find? (fun e => e.1 == k)).map (·.2)

/-- Whether `k` is an own property of `o`. -/
def has (o : Obj α) (k : String) : Bool := o.any (fun e => e.1 == k)

/-- The assignment `o[k] = v`: an existing property keeps its position, a new
one is appended. -/
def set (o : Obj α) (k : String) (v : α) : Obj α :=
  if o.has k then o.map (fun e => if e.1 == k then (k, v) else e) else o ++ [(k, v)]

/-- The statement `delete o[k]`. -/
def erase (o : Obj α) (k : String) : Obj α := o.filter (fun e => !(e.1 == k))

/-- The call `Object.keys(o)`. -/
def keys (o : Obj α) : List String := o.map (·.1)

end Obj

/-! ## Regular expressions -/

/-- The regular-expression constructs used by the pages. -/
inductive Regex where
  /-- The empty pattern. -/
  | eps : Regex
  /-- One code unit of a character class. -/
  | cls (p : Nat → Bool) : Regex
  /-- Concatenation. -/
  | seq (a b : Regex) : Regex
  /-- Alternation, also used for the optional forms. -/
  | alt (a b : Regex) : Regex
  /-- The quantifier `*`. -/
  | star (a : Regex) : Regex
  /-- The positive lookahead `(?=a)`. -/
  | look (a : Regex) : Regex
  /-- The assertion `^` (no `m` flag): the start of the input. -/
  | bos : Regex
  /-- The assertion `$` (no `m` flag): the end of the input. -/
  | eos : Regex

namespace Regex

/-- A single literal code unit. -/
def chr (c : Char) : Regex := cls (fun x => x == c.toNat)

/-- The terms of a pattern, in sequence. -/
def seqs : List Regex → Regex
  | [] => eps
  | a :: rest => seq a (seqs rest)

/-- The quantifier `+`. -/
def plus (a : Regex) : Regex := seq a (star a)

/-- The quantifier `?`. -/
def opt (a : Regex) : Regex := alt a eps

/-- The quantifier `{n}`. -/
def times (a : Regex) : Nat → Regex
  | 0 => eps
  | n + 1 => seq a (times a n)

/-- The quantifier `{0,n}`. -/
def upto (a : Regex) : Nat → Regex
  | 0 => eps
  | n + 1 => opt (seq a (upto a n))

/-- The quantifier `{lo,hi}`. -/
def range (a : Regex) (lo hi : Nat) : Regex := seq (times a lo) (upto a (hi - lo))

/-- The quantifier `{lo,}`. -/
def atLeast (a : Regex) (lo : Nat) : Regex := seq (times a lo) (star a)

/-- The iteration of a starred pattern: `step` runs the body once, and an
iteration has to consume input, as an empty iteration of `*` is rejected. -/
def starLoop (step : Str → (Str → Bool) → Bool) : Nat → Str → (Str → Bool) → Bool
  | 0, s, k => k s
  | n + 1, s, k =>
    step s (fun t => decide (t.length < s.length) && starLoop step n t k) || k s

/-- The backtracking matcher: `run n r s k` tries to match `r` at the front of
the remaining input `s` of an input of length `n`, and hands what is left to the
continuation `k`. -/
def run (n : Nat) : Regex → Str → (Str → Bool) → Bool
  | eps, s, k => k s
  | cls p, s, k =>
    match s with
    | [] => false
    | c :: t => p c && k t
  | seq a b, s, k => run n a s (fun t => run n b t k)
  | alt a b, s, k => run n a s k || run n b s k
  | star a, s, k => starLoop (run n a) s.length s k
  | look a, s, k => run n a s (fun _ => true) && k s
  | bos, s, k => (s.length == n) && k s
  | eos, s, k => s.isEmpty && k s

/-- The search of `RegExp.prototype.test` over the start positions, from the
current one to the end of the input. -/
def searchFrom (n : Nat) (r : Regex) : Str → Bool
  | [] => run n r [] (fun _ => true)
  | c :: t => run n r (c :: t) (fun _ => true) || searchFrom n r t

/-- The method `RegExp.prototype.test` (no flags). -/
def test (r : Regex) (s : Str) : Bool := searchFrom s.length r s

/-- The input `s` splits into a front part satisfying `P` and a rest accepted by `k`. -/
def Splits (s : Str) (P : Str → Prop) (k : Str → Bool) : Prop :=
  ∃ pre post, s = pre ++ post ∧ P pre ∧ k post = true

/-- The pattern `r` consumes exactly the words of `P`, whatever the context. -/
def Recognises (r : Regex) (P : Str → Prop) : Prop :=
  ∀ n s k, run n r s k = true ↔ Splits s P k

/-- Run to the end of the match with nothing left to check, the pattern `r`
succeeds on exactly the remaining inputs of `P`. -/
def Ends (r : Regex) (P : Str → Prop) : Prop :=
  ∀ n s, run n r s (fun _ => true) = true ↔ P s

end Regex

/-- Truthiness of a property read `touched[k]` of a map of flags. -/
def truthy (b : Option Bool) : Bool := b == some true

end JS

open JS JS.Regex

/-! ## Login.jsx -/

namespace Login

/-- The pattern `/^[^\s@]+@[^\s@]+\.[^\s@]+$/`. -/
def emailRegex : Regex :=
  seqs [bos, plus (cls fun c => !(isSpace c || c == 64)), chr '@',
    plus (cls fun c => !(isSpace c || c == 64)), chr '.',
    plus (cls fun c => !(isSpace c || c == 64)), eos]

/-- The function `validateField(name, value)`, closed over the rendered `errors`:
the map handed to `setErrors` and the returned flag. -/
def validateField (errors : Obj String) (name : String) (value : Str) : Obj String × Bool :=
  let newErrors : Obj String :=
    match name with
    | "email" =>
      if trim value = [] then errors.set "email" "Email is required"
      else if !emailRegex.test value then errors.set "email" "Please enter a valid email address"
      else errors.erase "email"
    | "password" =>
      if value = [] then errors.set "password" "Password is required"
      else if value.length < 6 then errors.set "password" "Password must be at least 6 characters"
      else errors.erase "password"
    | _ => errors
  (newErrors, newErrors.keys.length == 0)

/-- The state of the component. -/
structure State where
  /-- The field values. -/
  formData : Obj Str
  /-- The error map. -/
  errors : Obj String
  /-- The touched map. -/
  touched : Obj Bool
  /-- The submitting flag. -/
  isLoading : Bool
  deriving DecidableEq

/-- The state the component mounts with. -/
def initial : State :=
  { formData := [("email", []), ("password", [])], errors := [], touched := [], isLoading := false }

/-- The handler `handleChange` for an input named `name` receiving `value`. -/
def handleChange (s : State) (name : String) (value : Str) : State :=
  { s with
    formData := s.formData.set name value
    errors := if truthy (s.touched.get name) then (validateField s.errors name value).1 else s.errors }

/-- The handler `handleBlur` for an input named `name` holding `value`. -/
def handleBlur (s : State) (name : String) (value : Str) : State :=
  { s with
    touched := s.touched.set name true
    errors := (validateField s.errors name value).1 }

/-- What `handleSubmit` has done when it returns or reaches its `await`: the
next rendered state and the payload of the `loginUser` call, if it was made. -/
structure Submitted where
  /-- The state after the batched updates. -/
  state : State
  /-- The argument of the backend call, `none` when there was no call. -/
  request : Option (Obj Str)
  deriving DecidableEq

/-- The loop `Object.keys(formData).forEach(...)` of `handleSubmit`: the pending
error map (each `validateField` call replaces it) and the flag `isValid`. -/
def validateAll (s : State) : Obj String × Bool :=
  (Obj.keys s.formData).foldl
    (fun acc key =>
      let r := validateField s.errors key ((s.formData.get key).getD [])
      (r.1, if !r.2 then false else acc.2))
    (s.errors, true)

/-- The handler `handleSubmit`, up to the `await`. -/
def handleSubmit (s : State) : Submitted :=
  let allTouched : Obj Bool := (Obj.keys s.formData).foldl (fun acc key => acc.set key true) []
  let r := validateAll s
  if !r.2 then ⟨{ s with touched := allTouched, errors := r.1 }, none⟩
  else ⟨{ s with touched := allTouched, errors := r.1, isLoading := true }, some s.formData⟩

end Login

/-! ## Register.jsx -/

namespace Register

/-- The pattern `/^[^\s@]+@[^\s@]+\.[^\s@]+$/`. -/
def emailRegex : Regex :=
  seqs [bos, plus (cls fun c => !(isSpace c || c == 64)), chr '@',
    plus (cls fun c => !(isSpace c || c == 64)), chr '.',
    plus (cls fun c => !(isSpace c || c == 64)), eos]

/-- The pattern `/^[\+]?[1-9][\d]{0,15}$/`. -/
def phoneRegex : Regex :=
  seqs [bos, opt (chr '+'), cls (fun c => 49 ≤ c && c ≤ 57), range (cls isDigit) 0 15, eos]

/-- The pattern `/^[a-zA-Z\s]{2,50}$/`. -/
def nameRegex : Regex :=
  seqs [bos, range (cls fun c => isLower c || isUpper c || isSpace c) 2 50, eos]

/-- The pattern `/^(?=.*[a-z])(?=.*[A-Z])(?=.*\d)[a-zA-Z\d@$!%*?&]{8,}$/`. -/
def passwordRegex : Regex :=
  seqs [bos, look (seqs [star (cls isDot), cls isLower]),
    look (seqs [star (cls isDot), cls isUpper]), look (seqs [star (cls isDot), cls isDigit]),
    atLeast (cls fun c => isLower c || isUpper c || isDigit c || oneOf "@$!%*?&" c) 8, eos]

/-- The function `validateField(name, value)`, closed over the rendered `errors`:
the map handed to `setErrors` and the returned flag. -/
def validateField (errors : Obj String) (name : String) (value : Str) : Obj String × Bool :=
  let newErrors : Obj String :=
    match name with
    | "name" =>
      if trim value = [] then errors.set "name" "Name is required"
      else if (trim value).length < 2 then errors.set "name" "Name must be at least 2 characters"
      else if !nameRegex.test (trim value) then
        errors.set "name" "Name can only contain letters and spaces"
      else errors.erase "name"
    | "email" =>
      if trim value = [] then errors.set "email" "Email is required"
      else if !emailRegex.test value then errors.set "email" "Please enter a valid email address"
      else errors.erase "email"
    | "phone" =>
      if trim value = [] then errors.set "phone" "Phone number is required"
      else if !phoneRegex.test (stripSpaces value) then
        errors.set "phone" "Please enter a valid phone number"
      else errors.erase "phone"
    | "password" =>
      if value = [] then errors.set "password" "Password is required"
      else if value.length < 8 then
        errors.set "password" "Password must be at least 8 characters"
      else if !passwordRegex.test value then
        errors.set "password" "Password must contain uppercase, lowercase, and number"
      else errors.erase "password"
    | _ => errors
  (newErrors, newErrors.keys.length == 0)

/-- The state of the component. -/
structure State where
  /-- The field values. -/
  formData : Obj Str
  /-- The error map. -/
  errors : Obj String
  /-- The touched map. -/
  touched : Obj Bool
  /-- The submitting flag. -/
  isLoading : Bool
  deriving DecidableEq

/-- The state the component mounts with. -/
def initial : State :=
  { formData := [("name", []), ("email", []), ("phone", []), ("password", [])],
    errors := [], touched := [], isLoading := false }

/-- What `handleSubmit` has done when it returns or reaches its `await`: the
next rendered state and the payload of the `registerUser` call, if it was made. -/
structure Submitted where
  /-- The state after the batched updates. -/
  state : State
  /-- The argument of the backend call, `none` when there was no call. -/
  request : Option (Obj Str)
  deriving DecidableEq

/-- The loop `Object.keys(formData).forEach(...)` of `handleSubmit`: the pending
error map (each `validateField` call replaces it) and the flag `isValid`. -/
def validateAll (s : State) : Obj String × Bool :=
  (Obj.keys s.formData).foldl
    (fun acc key =>
      let r := validateField s.errors key ((s.formData.get key).getD [])
      (r.1, if !r.2 then false else acc.2))
    (s.errors, true)

/-- The handler `handleSubmit`, up to the `await`. -/
def handleSubmit (s : State) : Submitted :=
  let allTouched : Obj Bool := (Obj.keys s.formData).foldl (fun acc key => acc.set key true) []
  let r := validateAll s
  if !r.2 then ⟨{ s with touched := allTouched, errors := r.1 }, none⟩
  else ⟨{ s with touched := allTouched, errors := r.1, isLoading := true }, some s.formData⟩

/-- Whether `value` fails the rule chain that `validateField` applies to the
field `name`. -/
def failsRules (name : String) (value : Str) : Bool :=
  match name with
  | "name" => trim value = [] || (trim value).length < 2 || !nameRegex.test (trim value)
  | "email" => trim value = [] || !emailRegex.test value
  | "phone" => trim value = [] || !phoneRegex.test (stripSpaces value)
  | "password" => value = [] || value.length < 8 || !passwordRegex.test value
  | _ => false

end Register

/-! ## Account.jsx -/

namespace Account

/-- The pattern `/^(?=.*[a-z])(?=.*[A-Z])(?=.*\d)[a-zA-Z\d@$!%*?&]{8,}$/`. -/
def passwordRegex : Regex :=
  seqs [bos, look (seqs [star (cls isDot), cls isLower]),
    look (seqs [star (cls isDot), cls isUpper]), look (seqs [star (cls isDot), cls isDigit]),
    atLeast (cls fun c => isLower c || isUpper c || isDigit c || oneOf "@$!%*?&" c) 8, eos]

/-- The function `validatePasswordField(name, value)`, closed over the rendered
`passwordData` and `passwordErrors`: the map handed to `setPasswordErrors` and
the returned flag. -/
def validatePasswordField (passwordData : Obj Str) (passwordErrors : Obj String)
    (name : String) (value : Str) : Obj String × Bool :=
  let newErrors : Obj String :=
    match name with
    | "currentPassword" =>
      if value = [] then passwordErrors.set "currentPassword" "Current password is required"
      else passwordErrors.erase "currentPassword"
    | "newPassword" =>
      if value = [] then passwordErrors.set "newPassword" "New password is required"
      else if value.length < 8 then
        passwordErrors.set "newPassword" "Password must be at least 8 characters"
      else if !passwordRegex.test value then
        passwordErrors.set "newPassword" "Password must contain uppercase, lowercase, and number"
      else if passwordData.get "currentPassword" = some value then
        passwordErrors.set "newPassword" "New password must be different from current password"
      else passwordErrors.erase "newPassword"
    | "confirmPassword" =>
      if value = [] then passwordErrors.set "confirmPassword" "Please confirm your password"
      else if passwordData.get "newPassword" ≠ some value then
        passwordErrors.set "confirmPassword" "Passwords don't match"
      else passwordErrors.erase "confirmPassword"
    | _ => passwordErrors
  (newErrors, newErrors.keys.length == 0)

/-- The state of the change-password form. -/
structure State where
  /-- The field values. -/
  passwordData : Obj Str
  /-- The error map. -/
  passwordErrors : Obj String
  /-- The touched map. -/
  touchedPassword : Obj Bool
  /-- The submitting flag. -/
  changingPassword : Bool
  deriving DecidableEq

/-- The state the component mounts with. -/
def initial : State :=
  { passwordData := [("currentPassword", []), ("newPassword", []), ("confirmPassword", [])],
    passwordErrors := [], touchedPassword := [], changingPassword := false }

/-- The handler `handlePasswordInputChange` for an input named `name` receiving
`value`.  Both `validatePasswordField` calls read the rendered `passwordData`
and `passwordErrors`; the second `setPasswordErrors` replaces the first. -/
def handlePasswordInputChange (s : State) (name : String) (value : Str) : State :=
  let pending : Obj String :=
    if truthy (s.touchedPassword.get name) then
      (validatePasswordField s.passwordData s.passwordErrors name value).1
    else s.passwordErrors
  let pending : Obj String :=
    if name = "newPassword" ∧ truthy (s.touchedPassword.get "confirmPassword") then
      (validatePasswordField s.passwordData s.passwordErrors "confirmPassword"
        ((s.passwordData.get "confirmPassword").getD [])).1
    else pending
  { s with passwordData := s.passwordData.set name value, passwordErrors := pending }

/-- The handler `handlePasswordBlur` for an input named `name` holding `value`. -/
def handlePasswordBlur (s : State) (name : String) (value : Str) : State :=
  { s with
    touchedPassword := s.touchedPassword.set name true
    passwordErrors := (validatePasswordField s.passwordData s.passwordErrors name value).1 }

end Account

/-! ## Checkout.jsx -/

namespace Checkout

/-- The pattern `/^[a-zA-Z\s]{2,50}$/`. -/
def nameRegex : Regex :=
  seqs [bos, range (cls fun c => isLower c || isUpper c || isSpace c) 2 50, eos]

/-- The pattern `/^(\+?20)?(01)[0125][0-9]{8}$/`. -/
def phoneRegex : Regex :=
  seqs [bos, opt (seqs [opt (chr '+'), chr '2', chr '0']), seqs [chr '0', chr '1'],
    cls (oneOf "0125"), times (cls isDigit) 8, eos]

/-- The pattern `/^[0-9]{5}(-[0-9]{4})?$/`. -/
def zipRegex : Regex :=
  seqs [bos, times (cls isDigit) 5, opt (seqs [chr '-', times (cls isDigit) 4]), eos]

/-- The function `validateField(name, value)`, closed over the rendered `errors`:
the map handed to `setErrors` and the returned flag. -/
def validateField (errors : Obj String) (name : String) (value : Str) : Obj String × Bool :=
  let newErrors : Obj String :=
    match name with
    | "name" =>
      if trim value = [] then errors.set "name" "Full name is required"
      else if !nameRegex.test (trim value) then errors.set "name" "Please enter a valid name"
      else errors.erase "name"
    | "phone" =>
      if trim value = [] then errors.set "phone" "Phone number is required"
      else if !phoneRegex.test (stripSpaces value) then
        errors.set "phone" "Please enter a valid phone number"
      else errors.erase "phone"
    | "street" =>
      if trim value = [] then errors.set "street" "Street address is required"
      else if (trim value).length < 5 then errors.set "street" "Please enter a complete address"
      else errors.erase "street"
    | "city" =>
      if trim value = [] then errors.set "city" "City is required"
      else if (trim value).length < 2 then errors.set "city" "Please enter a valid city"
      else errors.erase "city"
    | "state" =>
      if trim value = [] then errors.set "state" "State is required"
      else if (trim value).length < 2 then errors.set "state" "Please enter a valid state"
      else errors.erase "state"
    | "zipCode" =>
      if trim value = [] then errors.set "zipCode" "ZIP code is required"
      else if !zipRegex.test (trim value) then
        errors.set "zipCode" "Please enter a valid ZIP code (12345 or 12345-6789)"
      else errors.erase "zipCode"
    | "country" =>
      if value = [] then errors.set "country" "Country is required"
      else errors.erase "country"
    | _ => errors
  (newErrors, newErrors.keys.length == 0)

end Checkout

/-! ## Profile.jsx -/

namespace Profile

/-- The pattern `/^[a-zA-Z\s]{2,50}$/`. -/
def nameRegex : Regex :=
  seqs [bos, range (cls fun c => isLower c || isUpper c || isSpace c) 2 50, eos]

/-- The pattern `/^[^\s@]+@[^\s@]+\.[^\s@]+$/`. -/
def emailRegex : Regex :=
  seqs [bos, plus (cls fun c => !(isSpace c || c == 64)), chr '@',
    plus (cls fun c => !(isSpace c || c == 64)), chr '.',
    plus (cls fun c => !(isSpace c || c == 64)), eos]

/-- The pattern `/^(\+?20)?(01)[0125][0-9]{8}$/`. -/
def phoneRegex : Regex :=
  seqs [bos, opt (seqs [opt (chr '+'), chr '2', chr '0']), seqs [chr '0', chr '1'],
    cls (oneOf "0125"), times (cls isDigit) 8, eos]

/-- The pattern `/^[a-zA-Z0-9\s,.-]{5,100}$/`. -/
def addressRegex : Regex :=
  seqs [bos, range (cls fun c => isLower c || isUpper c || isDigit c || isSpace c ||
    oneOf ",.-" c) 5 100, eos]

/-- The pattern `/^[a-zA-Z\s]{2,50}$/`. -/
def cityRegex : Regex :=
  seqs [bos, range (cls fun c => isLower c || isUpper c || isSpace c) 2 50, eos]

/-- The pattern `/^[a-zA-Z\s]{2,50}$/`. -/
def stateRegex : Regex :=
  seqs [bos, range (cls fun c => isLower c || isUpper c || isSpace c) 2 50, eos]

/-- The pattern `/^[0-9]{5}(-[0-9]{4})?$/`. -/
def zipCodeRegex : Regex :=
  seqs [bos, times (cls isDigit) 5, opt (seqs [chr '-', times (cls isDigit) 4]), eos]

/-- The function `validateField(name, value)`, closed over the rendered `errors`:
the map handed to `setErrors` and the returned flag. -/
def validateField (errors : Obj String) (name : String) (value : Str) : Obj String × Bool :=
  let newErrors : Obj String :=
    match name with
    | "name" =>
      if trim value = [] then errors.set "name" "Name is required"
      else if (trim value).length < 2 then errors.set "name" "Name must be at least 2 characters"
      else if !nameRegex.test (trim value) then
        errors.set "name" "Name can only contain letters and spaces"
      else errors.erase "name"
    | "email" =>
      if trim value = [] then errors.set "email" "Email is required"
      else if !emailRegex.test value then errors.set "email" "Please enter a valid email address"
      else errors.erase "email"
    | "phone" =>
      if trim value = [] then errors.set "phone" "Phone number is required"
      else if !phoneRegex.test (stripSpaces value) then
        errors.set "phone" "Please enter a valid phone number"
      else errors.erase "phone"
    | "address.street" =>
      if trim value = [] then errors.set "address.street" "Street address is required"
      else if (trim value).length < 5 then
        errors.set "address.street" "Please enter a complete address"
      else if !addressRegex.test (trim value) then
        errors.set "address.street" "Please enter a valid address"
      else errors.erase "address.street"
    | "address.city" =>
      if trim value = [] then errors.set "address.city" "City is required"
      else if !cityRegex.test (trim value) then
        errors.set "address.city" "Please enter a valid city name"
      else errors.erase "address.city"
    | "address.state" =>
      if trim value = [] then errors.set "address.state" "State is required"
      else if !stateRegex.test (trim value) then
        errors.set "address.state" "Please enter a valid state"
      else errors.erase "address.state"
    | "address.zipCode" =>
      if trim value = [] then errors.set "address.zipCode" "ZIP code is required"
      else if !zipCodeRegex.test (trim value) then
        errors.set "address.zipCode" "Please enter a valid ZIP code (12345 or 12345-6789)"
      else errors.erase "address.zipCode"
    | "address.country" =>
      if value = [] then errors.set "address.country" "Country is required"
      else errors.erase "address.country"
    | _ => errors
  (newErrors, newErrors.keys.length == 0)

end Profile

/-! ## The shapes the validators accept -/

namespace Shape

/-- A code unit that is neither whitespace nor `@`. -/
def plain (x : Nat) : Prop := isSpace x = false ∧ x ≠ 64

/-- One or more non-space non-`@` code units, `@`, one or more such code units,
`.`, one or more such code units. -/
def Email (v : Str) : Prop :=
  ∃ a b c : Str, v = a ++ lit "@" ++ b ++ lit "." ++ c ∧ a ≠ [] ∧ b ≠ [] ∧ c ≠ [] ∧
    (∀ x ∈ a, plain x) ∧ (∀ x ∈ b, plain x) ∧ (∀ x ∈ c, plain x)

/-- Two to fifty code units, each a letter `a-z`, `A-Z` or whitespace. -/
def Name (t : Str) : Prop :=
  2 ≤ t.length ∧ t.length ≤ 50 ∧ ∀ x ∈ t, isLetter x = true ∨ isSpace x = true

/-- Exactly five digits, optionally followed by `-` and exactly four digits. -/
def Zip (t : Str) : Prop :=
  ∃ d : Str, d.length = 5 ∧ (∀ x ∈ d, isDigit x = true) ∧
    (t = d ∨ ∃ e : Str, e.length = 4 ∧ (∀ x ∈ e, isDigit x = true) ∧ t = d ++ lit "-" ++ e)

/-- An optional `+20` or `20`, then `01`, then one digit of `0`, `1`, `2`, `5`,
then exactly eight digits. -/
def EgyptPhone (w : Str) : Prop :=
  ∃ (pre : Str) (d : Nat) (rest : Str),
    (pre = [] ∨ pre = lit "+20" ∨ pre = lit "20") ∧
    (d = 48 ∨ d = 49 ∨ d = 50 ∨ d = 53) ∧
    rest.length = 8 ∧ (∀ x ∈ rest, isDigit x = true) ∧
    w = pre ++ lit "01" ++ d :: rest

/-- A code unit of `[a-zA-Z0-9@$!%*?&]`. -/
def passwordChar (c : Nat) : Bool :=
  isLower c || isUpper c || isDigit c || c == 64 || c == 36 || c == 33 || c == 37 ||
    c == 42 || c == 63 || c == 38

/-- A lowercase letter, an uppercase letter and a digit occur, and every code
unit is of `[a-zA-Z0-9@$!%*?&]`. -/
def passwordClasses (p : Str) : Bool :=
  p.any isLower && p.any isUpper && p.any isDigit && p.all passwordChar

end Shape

/-! ## Scenarios -/

namespace Account

/-- The change-password form after the user typed `Abcdefg1` as new password,
typed `Abcdefg12` as confirmation and left the confirmation field. -/
def confirmLonger : State :=
  handlePasswordBlur
    (handlePasswordInputChange
      (handlePasswordInputChange initial "newPassword" (lit "Abcdefg1"))
      "confirmPassword" (lit "Abcdefg12"))
    "confirmPassword" (lit "Abcdefg12")

/-- The change-password form after the user typed `Abcdefg1` as new password,
typed `Abcdefg1` as confirmation and left the confirmation field. -/
def confirmEqual : State :=
  handlePasswordBlur
    (handlePasswordInputChange
      (handlePasswordInputChange initial "newPassword" (lit "Abcdefg1"))
      "confirmPassword" (lit "Abcdefg1"))
    "confirmPassword" (lit "Abcdefg1")

end Account

/-! ## Further JavaScript primitives -/

namespace JS

/-- The call `s.replace(/C/g, "")` for a pattern `C` that is one character
class: every code unit of the class is removed. -/
def removeAll (unwanted : Nat → Bool) (s : Str) : Str := s.filter (fun c => !unwanted c)

/-- The array read `xs[i]` at an integer index, `none` standing for `undefined`. -/
def index (xs : List String) (i : Int) : Option String :=
  if i < 0 then none else xs[i.toNat]?

/-- The expression `a || b` for a string `a` that may be `undefined`: `undefined`
and the empty string are falsy. -/
def orElse (a : Option String) (b : String) : String :=
  match a with
  | some x => if x = "" then b else x
  | none => b

end JS

/-! ## Register.jsx: sanitizer, input handlers, password strength -/

namespace Register

/-- The value `sanitizedValue` that `handleChange` computes for the input `name`:
`value.replace(/[^a-zA-Z\s]/g, "")` for the name,
`value.replace(/[^+\d\s-()]/g, "")` for the phone, the value itself otherwise. -/
def sanitize (name : String) (value : Str) : Str :=
  if name = "name" then
    removeAll (fun c => !(isLower c || isUpper c || isSpace c)) value
  else if name = "phone" then
    removeAll (fun c => !(oneOf "+" c || isDigit c || isSpace c || oneOf "-()" c)) value
  else value

/-- The handler `handleChange` for an input named `name` receiving `value`. -/
def handleChange (s : State) (name : String) (value : Str) : State :=
  { s with
    formData := s.formData.set name (sanitize name value)
    errors :=
      if truthy (s.touched.get name) then (validateField s.errors name (sanitize name value)).1
      else s.errors }

/-- The handler `handleBlur` for an input named `name` holding `value`. -/
def handleBlur (s : State) (name : String) (value : Str) : State :=
  { s with
    touched := s.touched.set name true
    errors := (validateField s.errors name value).1 }

/-- The function `getPasswordStrength`. -/
def getPasswordStrength (password : Str) : Nat :=
  let score := 0
  let score := if password.length ≥ 8 then score + 1 else score
  let score := if (seqs [cls isLower]).test password then score + 1 else score
  let score := if (seqs [cls isUpper]).test password then score + 1 else score
  let score := if (seqs [cls isDigit]).test password then score + 1 else score
  let score := if (seqs [cls (oneOf "@$!%*?&")]).test password then score + 1 else score
  score

/-- The array `strengthLabels`. -/
def strengthLabels : List String := ["Very Weak", "Weak", "Fair", "Good", "Strong"]

/-- The label shown for a score: `strengthLabels[passwordStrength - 1] || "Very Weak"`. -/
def strengthLabel (passwordStrength : Nat) : String :=
  orElse (index strengthLabels ((passwordStrength : Int) - 1)) "Very Weak"

end Register

/-! ## Account.jsx: password strength -/

namespace Account

/-- The function `getPasswordStrength`. -/
def getPasswordStrength (password : Str) : Nat :=
  let score := 0
  let score := if password.length ≥ 8 then score + 1 else score
  let score := if (seqs [cls isLower]).test password then score + 1 else score
  let score := if (seqs [cls isUpper]).test password then score + 1 else score
  let score := if (seqs [cls isDigit]).test password then score + 1 else score
  let score := if (seqs [cls (oneOf "@$!%*?&")]).test password then score + 1 else score
  score

end Account

/-! ## Checkout.jsx: state, sanitizer, input handlers -/

namespace Checkout

/-- The state of the component. -/
structure State where
  /-- The shipping address fields. -/
  shippingAddress : Obj Str
  /-- The error map. -/
  errors : Obj String
  /-- The touched map. -/
  touched : Obj Bool
  /-- The submitting flag. -/
  isProcessing : Bool
  /-- The selected delivery option. -/
  deliveryOption : Str
  /-- The selected payment method. -/
  paymentMethod : Str
  deriving DecidableEq

/-- The state the component mounts with, `userName` and `userPhone` being
`user?.name || ""` and `user?.phone || ""` of the user context. -/
def initial (userName userPhone : Str) : State :=
  { shippingAddress :=
      [("name", userName), ("street", []), ("city", []), ("state", []), ("zipCode", []),
        ("country", lit "United States"), ("phone", userPhone)],
    errors := [], touched := [], isProcessing := false,
    deliveryOption := lit "standard", paymentMethod := lit "credit-card" }

/-- The value `sanitizedValue` that `handleAddressChange` computes for the input
`name`: `value.replace(/[^a-zA-Z\s]/g, "")` for the name,
`value.replace(/[^+\d\s-()]/g, "")` for the phone,
`value.replace(/[^0-9-]/g, "")` for the zip code, the value itself otherwise. -/
def sanitize (name : String) (value : Str) : Str :=
  if name = "name" then
    removeAll (fun c => !(isLower c || isUpper c || isSpace c)) value
  else if name = "phone" then
    removeAll (fun c => !(oneOf "+" c || isDigit c || isSpace c || oneOf "-()" c)) value
  else if name = "zipCode" then
    removeAll (fun c => !(isDigit c || oneOf "-" c)) value
  else value

/-- The handler `handleAddressChange` for an input named `name` receiving `value`. -/
def handleAddressChange (s : State) (name : String) (value : Str) : State :=
  { s with
    shippingAddress := s.shippingAddress.set name (sanitize name value)
    errors :=
      if truthy (s.touched.get name) then (validateField s.errors name (sanitize name value)).1
      else s.errors }

/-- The handler `handleBlur` for an input named `name` holding `value`. -/
def handleBlur (s : State) (name : String) (value : Str) : State :=
  { s with
    touched := s.touched.set name true
    errors := (validateField s.errors name value).1 }

end Checkout

/-! ## Profile.jsx: state, sanitizer, input handlers -/

namespace Profile

/-- A leaf of the `profile` object: a string, or the flag of a checkbox. -/
inductive Val where
  /-- A string. -/
  | str (s : Str) : Val
  /-- A boolean. -/
  | bool (b : Bool) : Val
  deriving DecidableEq

/-- The state of the component.  The nested object `profile` is kept as the map
of its leaves, each under the dotted path by which the inputs name it (`name`,
`address.city`, `preferences.currency`); the inputs have at most one dot in
their name, so that `[parent, child] = name.split(".")` addresses that leaf. -/
structure State where
  /-- The leaves of `profile`. -/
  profile : Obj Val
  /-- The error map. -/
  errors : Obj String
  /-- The touched map. -/
  touched : Obj Bool
  /-- The flag of the pending profile fetch. -/
  loading : Bool
  /-- The submitting flag. -/
  saving : Bool
  deriving DecidableEq

/-- The state the component mounts with. -/
def initial : State :=
  { profile :=
      [("name", .str []), ("email", .str []), ("phone", .str []),
        ("address.street", .str []), ("address.city", .str []), ("address.state", .str []),
        ("address.zipCode", .str []), ("address.country", .str (lit "Egypt")),
        ("preferences.emailNotifications", .bool true),
        ("preferences.smsNotifications", .bool false),
        ("preferences.currency", .str (lit "USD")), ("preferences.language", .str (lit "en"))],
    errors := [], touched := [], loading := true, saving := false }

/-- The expression `getNestedValue(profile, path) || ""` for the path of a text
input: a missing or falsy leaf reads as the empty string. -/
def textAt (profile : Obj Val) (path : String) : Str :=
  match profile.get path with
  | some (.str v) => v
  | _ => []

/-- The value `sanitizedValue` that `handleInputChange` computes for the input
`name`: `value.replace(/[^a-zA-Z\s]/g, "")` for the name, the city and the state,
`value.replace(/[^+\d\s-()]/g, "")` for the phone,
`value.replace(/[^0-9-]/g, "")` for the zip code, the value itself otherwise. -/
def sanitize (name : String) (value : Str) : Str :=
  if name = "name" then
    removeAll (fun c => !(isLower c || isUpper c || isSpace c)) value
  else if name = "phone" then
    removeAll (fun c => !(oneOf "+" c || isDigit c || isSpace c || oneOf "-()" c)) value
  else if name = "address.zipCode" then
    removeAll (fun c => !(isDigit c || oneOf "-" c)) value
  else if name = "address.city" ∨ name = "address.state" then
    removeAll (fun c => !(isLower c || isUpper c || isSpace c)) value
  else value

/-- The handler `handleInputChange` for an input named `name` receiving `value`;
`checkbox` tells whether `type === "checkbox"`, and `checked` is its flag. -/
def handleInputChange (s : State) (name : String) (value : Str) (checkbox checked : Bool) :
    State :=
  { s with
    profile := s.profile.set name (if checkbox then .bool checked else .str (sanitize name value))
    errors :=
      if truthy (s.touched.get name) then (validateField s.errors name (sanitize name value)).1
      else s.errors }

/-- The handler `handleBlur` for an input named `name` holding `value`. -/
def handleBlur (s : State) (name : String) (value : Str) : State :=
  { s with
    touched := s.touched.set name true
    errors := (validateField s.errors name value).1 }

end Profile

/-! ## Account.jsx: submission and events of the change-password form -/

namespace Account

/-- The names of the inputs of the change-password form. -/
def fields : List String := ["currentPassword", "newPassword", "confirmPassword"]

/-- The flag `isPasswordFormValid`. -/
def isPasswordFormValid (s : State) : Bool :=
  (Obj.keys s.passwordErrors).length == 0 &&
    (Obj.keys s.passwordData).all (fun key => (s.passwordData.get key).getD [] != [])

/-- What `handlePasswordChange` has done when it returns or reaches its `await`:
the next rendered state and the payload of the `changePassword` call, if it was
made. -/
structure Submitted where
  /-- The state after the batched updates. -/
  state : State
  /-- The argument of the backend call, `none` when there was no call. -/
  request : Option (Obj Str)
  deriving DecidableEq

/-- The loop `Object.keys(passwordData).forEach(...)` of `handlePasswordChange`:
the pending error map (each `validatePasswordField` call replaces it) and the
flag `isValid`. -/
def validateAll (s : State) : Obj String × Bool :=
  (Obj.keys s.passwordData).foldl
    (fun acc key =>
      let r := validatePasswordField s.passwordData s.passwordErrors key
        ((s.passwordData.get key).getD [])
      (r.1, if !r.2 then false else acc.2))
    (s.passwordErrors, true)

/-- The handler `handlePasswordChange`, up to the `await`. -/
def handlePasswordChange (s : State) : Submitted :=
  let allTouched : Obj Bool :=
    [("currentPassword", true), ("newPassword", true), ("confirmPassword", true)]
  let r := validateAll s
  if !r.2 then ⟨{ s with touchedPassword := allTouched, passwordErrors := r.1 }, none⟩
  else
    ⟨{ s with touchedPassword := allTouched, passwordErrors := r.1, changingPassword := true },
      some [("currentPassword", (s.passwordData.get "currentPassword").getD []),
        ("newPassword", (s.passwordData.get "newPassword").getD [])]⟩

/-- The rest of `handlePasswordChange` when `changePassword` resolves, on the
state rendered by then: the form is reset, and `finally` clears the flag. -/
def passwordChangeResolved (_s : State) : State :=
  { passwordData := [("currentPassword", []), ("newPassword", []), ("confirmPassword", [])],
    passwordErrors := [], touchedPassword := [], changingPassword := false }

/-- The rest of `handlePasswordChange` when `changePassword` rejects: a toast is
shown, and `finally` clears the flag. -/
def passwordChangeRejected (s : State) : State :=
  { s with changingPassword := false }

/-- The handler of the Cancel button. -/
def cancel (s : State) : State :=
  { s with
    passwordData := [("currentPassword", []), ("newPassword", []), ("confirmPassword", [])]
    passwordErrors := []
    touchedPassword := [] }

/-- The events of the change-password form. -/
inductive Event where
  /-- The input `name` receives `value`. -/
  | change (name : String) (value : Str) : Event
  /-- The input `name` loses the focus. -/
  | blur (name : String) : Event
  /-- The form is submitted. -/
  | submit : Event
  /-- The pending `changePassword` call resolves. -/
  | resolved : Event
  /-- The pending `changePassword` call rejects. -/
  | rejected : Event
  /-- The Cancel button is clicked. -/
  | cancel : Event
  deriving DecidableEq

/-- The state rendered after an event; a blurred input holds the stored value,
being controlled by `value={passwordData[name]}`. -/
def step (s : State) : Event → State
  | .change name value => handlePasswordInputChange s name value
  | .blur name => handlePasswordBlur s name ((s.passwordData.get name).getD [])
  | .submit => (handlePasswordChange s).state
  | .resolved => passwordChangeResolved s
  | .rejected => passwordChangeRejected s
  | .cancel => cancel s

/-- The state rendered after a sequence of events. -/
def runEvents (s : State) (events : List Event) : State := events.foldl step s

/-- The form after `handlePasswordChange` has run to its end from the state `s`:
the events `between` happen while the `changePassword` call is pending, and
`resolves` tells how the call settles; without a call the handler has returned
at once. -/
def submitAndSettle (s : State) (between : List Event) (resolves : Bool) : State :=
  match (handlePasswordChange s).request with
  | none => (handlePasswordChange s).state
  | some _ =>
    if resolves then
      passwordChangeResolved (runEvents (handlePasswordChange s).state between)
    else passwordChangeRejected (runEvents (handlePasswordChange s).state between)

/-- Whether the event comes from an input of the form, when it names one. -/
def Event.fromForm : Event → Bool
  | .change name _ => fields.contains name
  | .blur name => fields.contains name
  | _ => true

/-- Whether the event is a change or a blur of an input of the form. -/
def Event.isInput : Event → Bool
  | .change name _ => fields.contains name
  | .blur name => fields.contains name
  | _ => false

/-- Whether `value` fails the rule chain of the field `name`, evaluated against
the stored values `passwordData`. -/
def failsRules (passwordData : Obj Str) (name : String) (value : Str) : Bool :=
  match name with
  | "currentPassword" => value = []
  | "newPassword" =>
    value = [] || value.length < 8 || !passwordRegex.test value ||
      passwordData.get "currentPassword" = some value
  | "confirmPassword" => value = [] || passwordData.get "newPassword" ≠ some value
  | _ => false

/-- Whether each touched field has an entry in the error map exactly when its
stored value fails its rule chain against the stored values. -/
def consistent (s : State) : Bool :=
  fields.all fun f =>
    !truthy (s.touchedPassword.get f) ||
      ((s.passwordErrors.get f).isSome ==
        failsRules s.passwordData f ((s.passwordData.get f).getD []))

/-- The user types and leaves a new password, then types the same text as
current password. -/
def currentTypedAfterNew : List Event :=
  [.change "newPassword" (lit "Abcdefg1"), .blur "newPassword",
    .change "currentPassword" (lit "Abcdefg1")]

/-- The user fills in the three fields without leaving any of them. -/
def filledWithoutBlur : List Event :=
  [.change "currentPassword" (lit "Oldpass1"), .change "newPassword" (lit "Abcdefg1"),
    .change "confirmPassword" (lit "Abcdefg1")]

end Account

/-! ## Register.jsx: events -/

namespace Register

/-- The rest of `handleSubmit` when `registerUser` resolves: the user is logged
in and the page is left, and `finally` clears the flag. -/
def submitResolved (s : State) : State :=
  { s with isLoading := false }

/-- The rest of `handleSubmit` when `registerUser` rejects, `message` being
`err.response?.data?.message`. -/
def submitRejected (s : State) (message : Option String) : State :=
  { s with
    errors := [("submit", orElse message "Registration failed. Please try again.")]
    isLoading := false }

/-- The events of the form. -/
inductive Event where
  /-- The input `name` receives `value`. -/
  | change (name : String) (value : Str) : Event
  /-- The input `name` loses the focus. -/
  | blur (name : String) : Event
  /-- The form is submitted. -/
  | submit : Event
  /-- The pending `registerUser` call resolves. -/
  | resolved : Event
  /-- The pending `registerUser` call rejects with this message, if any. -/
  | rejected (message : Option String) : Event
  deriving DecidableEq

/-- The state rendered after an event; a blurred input holds the stored value,
being controlled by `value={formData[name]}`. -/
def step (s : State) : Event → State
  | .change name value => handleChange s name value
  | .blur name => handleBlur s name ((s.formData.get name).getD [])
  | .submit => (handleSubmit s).state
  | .resolved => submitResolved s
  | .rejected message => submitRejected s message

/-- The state rendered after a sequence of events. -/
def runEvents (s : State) (events : List Event) : State := events.foldl step s

/-- The calls `validateField(name, value)` that the handler of an event makes
in the state `s`, as pairs of name and value. -/
def validateCalls (s : State) : Event → List (String × Str)
  | .change name value =>
    if truthy (s.touched.get name) then [(name, sanitize name value)] else []
  | .blur name => [(name, (s.formData.get name).getD [])]
  | .submit => (Obj.keys s.formData).map (fun key => (key, (s.formData.get key).getD []))
  | .resolved => []
  | .rejected _ => []

end Register

/-! ## Checkout.jsx: submission and events -/

namespace Checkout

/-- The names of the inputs of the shipping address. -/
def fields : List String := ["name", "street", "city", "state", "zipCode", "country", "phone"]

/-- The flag `isFormValid`. -/
def isFormValid (s : State) : Bool :=
  (Obj.keys s.errors).length == 0 &&
    (Obj.keys s.shippingAddress).all
      (fun key => trim ((s.shippingAddress.get key).getD []) != []) &&
    s.paymentMethod != []

/-- The body of the checkout request. -/
structure Order where
  /-- The shipping address. -/
  shippingAddress : Obj Str
  /-- The payment method, with its `(Demo)` suffix. -/
  paymentMethod : Str
  /-- The delivery option. -/
  deliveryOption : Str
  deriving DecidableEq

/-- What `handleSubmit` has done when it returns or reaches its `await`: the
next rendered state and the body of the checkout request, if it is sent. -/
structure Submitted where
  /-- The state after the batched updates. -/
  state : State
  /-- The body of the request, `none` when there is no request. -/
  request : Option Order
  deriving DecidableEq

/-- The loop `Object.keys(shippingAddress).forEach(...)` of `handleSubmit`: the
pending error map (each `validateField` call replaces it) and the flag
`isValid`. -/
def validateAll (s : State) : Obj String × Bool :=
  (Obj.keys s.shippingAddress).foldl
    (fun acc key =>
      let r := validateField s.errors key ((s.shippingAddress.get key).getD [])
      (r.1, if !r.2 then false else acc.2))
    (s.errors, true)

/-- The handler `handleSubmit`, up to the `await`. -/
def handleSubmit (s : State) : Submitted :=
  let allTouched : Obj Bool :=
    (Obj.keys s.shippingAddress).foldl (fun acc key => acc.set key true) []
  let r := validateAll s
  if !r.2 then ⟨{ s with touched := allTouched, errors := r.1 }, none⟩
  else if s.paymentMethod = [] then ⟨{ s with touched := allTouched, errors := r.1 }, none⟩
  else
    ⟨{ s with touched := allTouched, errors := r.1, isProcessing := true },
      some ⟨s.shippingAddress, s.paymentMethod ++ lit " (Demo)", s.deliveryOption⟩⟩

/-- The rest of `handleSubmit` once the request has settled: a toast is shown,
and `finally` clears the flag. -/
def submitSettled (s : State) : State :=
  { s with isProcessing := false }

/-- The events of the form. -/
inductive Event where
  /-- The input `name` of the address receives `value`. -/
  | change (name : String) (value : Str) : Event
  /-- The input `name` of the address loses the focus. -/
  | blur (name : String) : Event
  /-- The form is submitted. -/
  | submit : Event
  /-- The pending request settles. -/
  | settled : Event
  /-- A delivery option is selected. -/
  | delivery (value : Str) : Event
  /-- A payment method is selected. -/
  | payment (value : Str) : Event
  deriving DecidableEq

/-- The state rendered after an event; a blurred input holds the stored value,
being controlled by `value={shippingAddress[name]}`. -/
def step (s : State) : Event → State
  | .change name value => handleAddressChange s name value
  | .blur name => handleBlur s name ((s.shippingAddress.get name).getD [])
  | .submit => (handleSubmit s).state
  | .settled => submitSettled s
  | .delivery value => { s with deliveryOption := value }
  | .payment value => { s with paymentMethod := value }

/-- The state rendered after a sequence of events. -/
def runEvents (s : State) (events : List Event) : State := events.foldl step s

/-- Whether the event comes from an input of the form, when it names one. -/
def Event.fromForm : Event → Bool
  | .change name _ => fields.contains name
  | .blur name => fields.contains name
  | _ => true

/-- The calls `validateField(name, value)` that the handler of an event makes
in the state `s`, as pairs of name and value. -/
def validateCalls (s : State) : Event → List (String × Str)
  | .change name value =>
    if truthy (s.touched.get name) then [(name, sanitize name value)] else []
  | .blur name => [(name, (s.shippingAddress.get name).getD [])]
  | .submit =>
    (Obj.keys s.shippingAddress).map (fun key => (key, (s.shippingAddress.get key).getD []))
  | _ => []

/-- Whether the stored values of the sanitized fields are fixed points of
their sanitizers. -/
def clean (shippingAddress : Obj Str) : Bool :=
  ["name", "phone", "zipCode"].all fun key =>
    sanitize key ((shippingAddress.get key).getD []) == (shippingAddress.get key).getD []

/-- The user fills in the address without leaving any field. -/
def filledWithoutBlur : List Event :=
  [.change "name" (lit "Jane Doe"), .change "street" (lit "12 Nile Street"),
    .change "city" (lit "Cairo"), .change "state" (lit "Cairo"),
    .change "zipCode" (lit "12345"), .change "phone" (lit "01012345678")]

end Checkout

/-! ## Profile.jsx: submission and events -/

namespace Profile

/-- The array `requiredFields` of `handleSubmit`. -/
def requiredFields : List String :=
  ["name", "email", "phone", "address.street", "address.city", "address.state",
    "address.zipCode", "address.country"]

/-- The `value` prop of the input `name`: the stored leaf, the country falling
back to `Egypt`. -/
def inputValue (profile : Obj Val) (name : String) : Str :=
  if name = "address.country" then
    (if textAt profile name = [] then lit "Egypt" else textAt profile name)
  else textAt profile name

/-- What `handleSubmit` has done when it returns or reaches its `await`: the
next rendered state and the payload of the `updateUserProfile` call, if it was
made. -/
structure Submitted where
  /-- The state after the batched updates. -/
  state : State
  /-- The argument of the backend call, `none` when there was no call. -/
  request : Option (Obj Val)
  deriving DecidableEq

/-- The loop `requiredFields.forEach(...)` of `handleSubmit` that validates: the
pending error map (each `validateField` call replaces it) and the flag
`isValid`. -/
def validateAll (s : State) : Obj String × Bool :=
  requiredFields.foldl
    (fun acc field =>
      let r := validateField s.errors field (textAt s.profile field)
      (r.1, if !r.2 then false else acc.2))
    (s.errors, true)

/-- The handler `handleSubmit`, up to the `await`. -/
def handleSubmit (s : State) : Submitted :=
  let allTouched : Obj Bool := requiredFields.foldl (fun acc field => acc.set field true) []
  let r := validateAll s
  if !r.2 then ⟨{ s with touched := allTouched, errors := r.1 }, none⟩
  else ⟨{ s with touched := allTouched, errors := r.1, saving := true }, some s.profile⟩

/-- The rest of `handleSubmit` once `updateUserProfile` has settled: a toast is
shown, and `finally` clears the flag. -/
def submitSettled (s : State) : State :=
  { s with saving := false }

/-- The events of the form. -/
inductive Event where
  /-- The profile fetch resolves with `data`. -/
  | fetched (data : Obj Val) : Event
  /-- The profile fetch rejects. -/
  | fetchFailed : Event
  /-- The input `name` receives `value`; `checkbox` and `checked` as in
  `handleInputChange`. -/
  | change (name : String) (value : Str) (checkbox checked : Bool) : Event
  /-- The input `name` loses the focus. -/
  | blur (name : String) : Event
  /-- The form is submitted. -/
  | submit : Event
  /-- The pending `updateUserProfile` call settles. -/
  | settled : Event
  deriving DecidableEq

/-- The state rendered after an event; a blurred input holds its `value` prop. -/
def step (s : State) : Event → State
  | .fetched data => { s with profile := data, loading := false }
  | .fetchFailed => { s with loading := false }
  | .change name value checkbox checked => handleInputChange s name value checkbox checked
  | .blur name => handleBlur s name (inputValue s.profile name)
  | .submit => (handleSubmit s).state
  | .settled => submitSettled s

/-- The state rendered after a sequence of events. -/
def runEvents (s : State) (events : List Event) : State := events.foldl step s

/-- The calls `validateField(name, value)` that the handler of an event makes
in the state `s`, as pairs of name and value. -/
def validateCalls (s : State) : Event → List (String × Str)
  | .change name value _ _ =>
    if truthy (s.touched.get name) then [(name, sanitize name value)] else []
  | .blur name => [(name, inputValue s.profile name)]
  | .submit => requiredFields.map (fun field => (field, textAt s.profile field))
  | _ => []

/-- Whether the stored values of the sanitized fields are fixed points of
their sanitizers. -/
def clean (profile : Obj Val) : Bool :=
  ["name", "phone", "address.zipCode", "address.city", "address.state"].all fun key =>
    sanitize key (textAt profile key) == textAt profile key

/-- Whether the event, when it is a profile fetch, delivers clean data. -/
def Event.cleanData : Event → Bool
  | .fetched data => clean data
  | _ => true

end Profile

/-! ## Invariants of the stored values -/

/-- The stored values of a Register form are fixed points of the sanitizers. -/
def RegisterClean (s : Register.State) : Prop :=
  ∀ k, Register.sanitize k ((s.formData.get k).getD []) = (s.formData.get k).getD []

/-- The stored values of a Checkout form are fixed points of the sanitizers. -/
def CheckoutClean (s : Checkout.State) : Prop :=
  ∀ k, Checkout.sanitize k ((s.shippingAddress.get k).getD []) = (s.shippingAddress.get k).getD []

/-- The stored text leaves of a profile are fixed points of the sanitizers. -/
def ProfileClean (profile : Obj Profile.Val) : Prop :=
  ∀ k, Profile.sanitize k (Profile.textAt profile k) = Profile.textAt profile k

/-- The own properties of `o` are exactly the names of `names`. -/
def HasKeys {α : Type} (names : List String) (o : Obj α) : Prop :=
  ∀ k, o.get k ≠ none ↔ k ∈ names

/-- Every own property of `o` is a name of `names`. -/
def KeysWithin {α : Type} (names : List String) (o : Obj α) : Prop :=
  ∀ k, o.get k ≠ none → k ∈ names

/-! ## Login.jsx: events and settlement of the submission -/

namespace Login

/-- The names of the inputs of the form. -/
def fields : List String := ["email", "password"]

/-- The rest of `handleSubmit` when `loginUser` resolves: the user is logged in
and the page is left, and `finally` clears the flag. -/
def submitResolved (s : State) : State :=
  { s with isLoading := false }

/-- The rest of `handleSubmit` when `loginUser` rejects, `message` being
`err.response?.data?.message`. -/
def submitRejected (s : State) (message : Option String) : State :=
  { s with
    errors := [("submit", orElse message "Invalid email or password")]
    isLoading := false }

/-- The events of the form. -/
inductive Event where
  /-- The input `name` receives `value`. -/
  | change (name : String) (value : Str) : Event
  /-- The input `name` loses the focus. -/
  | blur (name : String) : Event
  /-- The form is submitted. -/
  | submit : Event
  /-- The pending `loginUser` call resolves. -/
  | resolved : Event
  /-- The pending `loginUser` call rejects with this message, if any. -/
  | rejected (message : Option String) : Event
  deriving DecidableEq

/-- The state rendered after an event; a blurred input holds the stored value,
being controlled by `value={formData[name]}`. -/
def step (s : State) : Event → State
  | .change name value => handleChange s name value
  | .blur name => handleBlur s name ((s.formData.get name).getD [])
  | .submit => (handleSubmit s).state
  | .resolved => submitResolved s
  | .rejected message => submitRejected s message

/-- The state rendered after a sequence of events. -/
def runEvents (s : State) (events : List Event) : State := events.foldl step s

/-- How the pending backend call settles. -/
inductive Outcome where
  /-- The call resolves with a response object. -/
  | resolved : Outcome
  /-- The call resolves with `null` or `undefined`. -/
  | resolvedNullish : Outcome
  /-- The call rejects with an error object, `message` being
  `err.response?.data?.message`. -/
  | rejected (message : Option String) : Outcome
  /-- The call rejects with `null` or `undefined`. -/
  | rejectedNullish : Outcome
  deriving DecidableEq

/-- What `handleSubmit` has done when it has run to its end. -/
structure Settled where
  /-- The state rendered at the end. -/
  state : State
  /-- Whether an exception leaves the handler, so that its promise rejects. -/
  escaped : Bool
  deriving DecidableEq

/-- The handler `handleSubmit` run to its end from the state `s`, the events
`between` happening while the `loginUser` call is pending.  A response that is
`null` or `undefined` makes `response.token` throw inside the `try`, which the
`catch` block handles as a rejection without a message.  A rejection value that
is `null` or `undefined` makes `err.response` throw inside the `catch` block:
no error is set, `finally` clears the flag and the exception leaves the
handler. -/
def submitAndSettle (s : State) (between : List Event) (outcome : Outcome) : Settled :=
  match (handleSubmit s).request with
  | none => ⟨(handleSubmit s).state, false⟩
  | some _ =>
    match outcome with
    | .resolved => ⟨submitResolved (runEvents (handleSubmit s).state between), false⟩
    | .resolvedNullish =>
      ⟨submitRejected (runEvents (handleSubmit s).state between) none, false⟩
    | .rejected message =>
      ⟨submitRejected (runEvents (handleSubmit s).state between) message, false⟩
    | .rejectedNullish =>
      ⟨{ runEvents (handleSubmit s).state between with isLoading := false }, true⟩

/-- A form filled in with values that pass every rule. -/
def validForm : State :=
  { formData := [("email", lit "a@b.com"), ("password", lit "secret1")],
    errors := [], touched := [], isLoading := false }

end Login

/-! ## Register.jsx: settlement of the submission -/

namespace Register

/-- The names of the inputs of the form. -/
def fields : List String := ["name", "email", "phone", "password"]

/-- How the pending backend call settles. -/
inductive Outcome where
  /-- The call resolves with a response object. -/
  | resolved : Outcome
  /-- The call resolves with `null` or `undefined`. -/
  | resolvedNullish : Outcome
  /-- The call rejects with an error object, `message` being
  `err.response?.data?.message`. -/
  | rejected (message : Option String) : Outcome
  /-- The call rejects with `null` or `undefined`. -/
  | rejectedNullish : Outcome
  deriving DecidableEq

/-- What `handleSubmit` has done when it has run to its end. -/
structure Settled where
  /-- The state rendered at the end. -/
  state : State
  /-- Whether an exception leaves the handler, so that its promise rejects. -/
  escaped : Bool
  deriving DecidableEq

/-- The handler `handleSubmit` run to its end from the state `s`, the events
`between` happening while the `registerUser` call is pending.  A response that is
`null` or `undefined` makes `response.token` throw inside the `try`, which the
`catch` block handles as a rejection without a message.  A rejection value that
is `null` or `undefined` makes `err.response` throw inside the `catch` block:
no error is set, `finally` clears the flag and the exception leaves the
handler. -/
def submitAndSettle (s : State) (between : List Event) (outcome : Outcome) : Settled :=
  match (handleSubmit s).request with
  | none => ⟨(handleSubmit s).state, false⟩
  | some _ =>
    match outcome with
    | .resolved => ⟨submitResolved (runEvents (handleSubmit s).state between), false⟩
    | .resolvedNullish =>
      ⟨submitRejected (runEvents (handleSubmit s).state between) none, false⟩
    | .rejected message =>
      ⟨submitRejected (runEvents (handleSubmit s).state between) message, false⟩
    | .rejectedNullish =>
      ⟨{ runEvents (handleSubmit s).state between with isLoading := false }, true⟩

/-- A form filled in with values that pass every rule. -/
def validForm : State :=
  { formData := [("name", lit "Jane Doe"), ("email", lit "a@b.com"),
        ("phone", lit "15551234567"), ("password", lit "Abcdefg1")],
    errors := [], touched := [], isLoading := false }

end Register

/-! ## Orders.jsx: buy again -/

namespace Orders

/-- A line item of an order, as far as `handleBuyAgain` reads it. -/
structure Item where
  /-- The field `productId`. -/
  productId : Str
  /-- The field `quantity`. -/
  quantity : Nat
  deriving DecidableEq

/-- An order, as far as `handleBuyAgain` reads it. -/
structure Order where
  /-- The field `_id`. -/
  id : Str
  /-- The field `items`. -/
  items : List Item
  deriving DecidableEq

/-- How one `addToCart` call settles. -/
inductive AddResult where
  /-- The call resolves, `success` being the truthiness of its value. -/
  | resolved (success : Bool) : AddResult
  /-- The call throws. -/
  | threw : AddResult
  deriving DecidableEq

/-- The counters of the loop of `handleBuyAgain`, with the arguments of the
`addToCart` calls made so far. -/
structure Tally where
  /-- The counter `successCount`. -/
  successCount : Nat
  /-- The counter `failCount`. -/
  failCount : Nat
  /-- The calls made, as pairs of `productId` and `quantity`, oldest first. -/
  calls : List (Str × Nat)
  deriving DecidableEq

/-- One turn of the loop `for (const item of order.items)`; `result` is how the
`addToCart` call of this turn settles. -/
def addOne (t : Tally) (item : Item) (result : AddResult) : Tally :=
  match result with
  | .resolved true =>
    { t with successCount := t.successCount + 1,
             calls := t.calls ++ [(item.productId, item.quantity)] }
  | .resolved false =>
    { t with failCount := t.failCount + 1,
             calls := t.calls ++ [(item.productId, item.quantity)] }
  | .threw =>
    { t with failCount := t.failCount + 1,
             calls := t.calls ++ [(item.productId, item.quantity)] }

/-- The loop `for (const item of order.items)`; `addToCart n item` is how the
call for `item` settles when `n` calls were made before it. -/
def addEach (addToCart : Nat → Item → AddResult) : Nat → List Item → Tally → Tally
  | _, [], t => t
  | n, item :: rest, t => addEach addToCart (n + 1) rest (addOne t item (addToCart n item))

/-- The toast that reports the result. -/
inductive Report where
  /-- The success toast with `successCount` and `order._id.slice(-8)`. -/
  | allAdded (successCount : Nat) (orderTail : Str) : Report
  /-- The success toast with `successCount` of `totalItems`. -/
  | partiallyAdded (successCount totalItems : Nat) : Report
  /-- The error toast of the last branch. -/
  | failed : Report
  /-- The error toast of the outer `catch`. -/
  | wentWrong : Report
  deriving DecidableEq

/-- The headline of a report. -/
def Report.title : Report → String
  | .allAdded _ _ => "All items added to cart!"
  | .partiallyAdded _ _ => "Partially added to cart"
  | .failed => "Failed to add items to cart. Please try again."
  | .wentWrong => "Something went wrong. Please try again."

/-- What `handleBuyAgain` has done when it completes. -/
structure Done where
  /-- The counters and the calls. -/
  tally : Tally
  /-- The result toast. -/
  report : Report
  deriving DecidableEq

/-- The handler `handleBuyAgain`; the loading toast and the `buyingAgain` set,
which the result does not depend on, are not carried. -/
def handleBuyAgain (order : Order) (addToCart : Nat → Item → AddResult) : Done :=
  let totalItems := order.items.length
  let t := addEach addToCart 0 order.items { successCount := 0, failCount := 0, calls := [] }
  if t.successCount = totalItems then
    ⟨t, .allAdded t.successCount (order.id.drop (order.id.length - 8))⟩
  else if t.successCount > 0 then ⟨t, .partiallyAdded t.successCount totalItems⟩
  else ⟨t, .failed⟩

/-- An order of three items. -/
def threeItems : Order :=
  { id := lit "65f1c0ffee0123456789abcd",
    items := [⟨lit "p1", 1⟩, ⟨lit "p2", 2⟩, ⟨lit "p3", 1⟩] }

end Orders

/-! ## ForgotPassword.jsx -/

namespace ForgotPassword

/-- The state of the component. -/
structure State where
  /-- The email typed. -/
  email : Str
  /-- The submitting flag. -/
  isLoading : Bool
  /-- The flag of the success view. -/
  isSuccess : Bool
  /-- The form-level error. -/
  error : String
  deriving DecidableEq

/-- The state the component mounts with. -/
def initial : State := { email := [], isLoading := false, isSuccess := false, error := "" }

/-- The object `response.emailData`. -/
structure EmailData where
  /-- The field `userEmail`. -/
  userEmail : Str
  /-- The field `resetUrl`. -/
  resetUrl : Str
  /-- The field `userName`. -/
  userName : Str
  deriving DecidableEq

/-- How the `forgotPassword` call settles. -/
inductive Response where
  /-- The call resolves with a response object, `emailData` being
  `response.emailData` when it is present. -/
  | resolved (emailData : Option EmailData) : Response
  /-- The call resolves with `null` or `undefined`. -/
  | resolvedNullish : Response
  /-- The call rejects with an error object, `message` being
  `err.response?.data?.message`. -/
  | rejected (message : Option String) : Response
  /-- The call rejects with `null` or `undefined`. -/
  | rejectedNullish : Response
  deriving DecidableEq

/-- What `handleSubmit` has done when it has run to its end. -/
structure Done where
  /-- The state after the updates. -/
  state : State
  /-- The arguments of the `sendPasswordResetEmail` calls made. -/
  emailCalls : List EmailData
  /-- The toasts shown. -/
  toasts : List String
  /-- Whether an exception leaves the handler, so that its promise rejects. -/
  escaped : Bool
  deriving DecidableEq

/-- The handler `handleSubmit`; `response` is how `forgotPassword` settles and
`emailSent` whether `sendPasswordResetEmail`, if it is called, resolves.  A
response that is `null` or `undefined` makes `response.emailData` throw inside
the `try`, which the `catch` block handles as a rejection without a message.  A
rejection value that is `null` or `undefined` makes `err.response` throw inside
the `catch` block: no error is set, `finally` clears the flag and the exception
leaves the handler. -/
def handleSubmit (s : State) (response : Response) (emailSent : Bool) : Done :=
  let s1 : State := { s with error := "", isLoading := true }
  match response with
  | .resolved (some emailData) =>
    if emailSent then
      ⟨{ s1 with isSuccess := true, isLoading := false }, [emailData],
        ["Reset email sent successfully!"], false⟩
    else
      ⟨{ s1 with isSuccess := true, isLoading := false }, [emailData],
        ["Email sending failed, but reset link was generated."], false⟩
  | .resolved none => ⟨{ s1 with isSuccess := true, isLoading := false }, [], [], false⟩
  | .resolvedNullish =>
    ⟨{ s1 with
        error := orElse none "An error occurred. Please try again later."
        isLoading := false }, [], [], false⟩
  | .rejected message =>
    ⟨{ s1 with
        error := orElse message "An error occurred. Please try again later."
        isLoading := false }, [], [], false⟩
  | .rejectedNullish => ⟨{ s1 with isLoading := false }, [], [], true⟩

end ForgotPassword

/-! ## More shapes -/

namespace Shape

/-- An optional `+`, a digit from 1 to 9, then at most fifteen digits. -/
def GenericPhone (w : Str) : Prop :=
  ∃ (pre : Str) (d : Nat) (rest : Str),
    (pre = lit "+" ∨ pre = []) ∧ (49 ≤ d ∧ d ≤ 57) ∧
    rest.length ≤ 15 ∧ (∀ x ∈ rest, isDigit x = true) ∧ w = pre ++ d :: rest

end Shape

/-! ## The rule chains of the fields, stated over the shape predicates -/

namespace Shape

/-- A value that `trim()` empties: every code unit is whitespace. -/
def Blank (v : Str) : Prop := ∀ c ∈ v, isSpace c = true

end Shape

/-- The outcome of a chain of rules, each a failure condition with its message:
the message of the first rule that fails, `none` when no rule fails. -/
def firstOf : List (Prop × String) → Option String → Prop
  | [], m => m = none
  | (fails, message) :: rest, m => (fails ∧ m = some message) ∨ (¬ fails ∧ firstOf rest m)

/-- The error map with the outcome of a chain recorded under the key of the
field: the message is stored, or the key removed when there is none. -/
def record (errors : Obj String) (f : String) (outcome : Option String) : Obj String :=
  match outcome with
  | some message => errors.set f message
  | none => errors.erase f

namespace Login

/-- The rule chain of each field of Login: each rule is the condition under
which it fails and the message it gives; a name that is no field has no rule. -/
def rules (f : String) (v : Str) : List (Prop × String) :=
  match f with
  | "email" =>
    [(Shape.Blank v, "Email is required"),
      (¬ Shape.Email v, "Please enter a valid email address")]
  | "password" =>
    [(v = [], "Password is required"),
      (v.length < 6, "Password must be at least 6 characters")]
  | _ => []

end Login

namespace Register

/-- The rule chain of each field of Register. -/
def rules (f : String) (v : Str) : List (Prop × String) :=
  match f with
  | "name" =>
    [(Shape.Blank v, "Name is required"),
      ((trim v).length < 2, "Name must be at least 2 characters"),
      (¬ Shape.Name (trim v), "Name can only contain letters and spaces")]
  | "email" =>
    [(Shape.Blank v, "Email is required"),
      (¬ Shape.Email v, "Please enter a valid email address")]
  | "phone" =>
    [(Shape.Blank v, "Phone number is required"),
      (¬ Shape.GenericPhone (stripSpaces v), "Please enter a valid phone number")]
  | "password" =>
    [(v = [], "Password is required"),
      (v.length < 8, "Password must be at least 8 characters"),
      (Shape.passwordClasses v = false,
        "Password must contain uppercase, lowercase, and number")]
  | _ => []

end Register

namespace Checkout

/-- The rule chain of each field of Checkout; city and state are required and
then need a trimmed length of at least 2. -/
def rules (f : String) (v : Str) : List (Prop × String) :=
  match f with
  | "name" =>
    [(Shape.Blank v, "Full name is required"),
      (¬ Shape.Name (trim v), "Please enter a valid name")]
  | "phone" =>
    [(Shape.Blank v, "Phone number is required"),
      (¬ Shape.EgyptPhone (stripSpaces v), "Please enter a valid phone number")]
  | "street" =>
    [(Shape.Blank v, "Street address is required"),
      ((trim v).length < 5, "Please enter a complete address")]
  | "city" =>
    [(Shape.Blank v, "City is required"),
      ((trim v).length < 2, "Please enter a valid city")]
  | "state" =>
    [(Shape.Blank v, "State is required"),
      ((trim v).length < 2, "Please enter a valid state")]
  | "zipCode" =>
    [(Shape.Blank v, "ZIP code is required"),
      (¬ Shape.Zip (trim v), "Please enter a valid ZIP code (12345 or 12345-6789)")]
  | "country" => [(v = [], "Country is required")]
  | _ => []

end Checkout

namespace Account

/-- The rule chain of each field of the change-password form, against the
stored values `passwordData`. -/
def rules (passwordData : Obj Str) (f : String) (v : Str) : List (Prop × String) :=
  match f with
  | "currentPassword" => [(v = [], "Current password is required")]
  | "newPassword" =>
    [(v = [], "New password is required"),
      (v.length < 8, "Password must be at least 8 characters"),
      (Shape.passwordClasses v = false,
        "Password must contain uppercase, lowercase, and number"),
      (passwordData.get "currentPassword" = some v,
        "New password must be different from current password")]
  | "confirmPassword" =>
    [(v = [], "Please confirm your password"),
      (passwordData.get "newPassword" ≠ some v, "Passwords don't match")]
  | _ => []

end Account

/-! ## The matcher on the patterns of the pages -/

namespace JS
namespace Regex

theorem rec_eps : Recognises eps (fun w => w = []) := by
  intro n s k
  simp only [run, Splits]
  constructor
  · intro hk
    exact ⟨[], s, rfl, rfl, hk⟩
  · rintro ⟨pre, post, rfl, rfl, hk⟩
    exact hk

theorem run_cls_nil (n : Nat) (p : Nat → Bool) (k : Str → Bool) :
    run n (cls p) [] k = false := rfl

theorem run_cls_cons (n : Nat) (p : Nat → Bool) (c : Nat) (t : Str) (k : Str → Bool) :
    run n (cls p) (c :: t) k = (p c && k t) := rfl

theorem starLoop_succ (step : Str → (Str → Bool) → Bool) (f : Nat) (s : Str) (k : Str → Bool) :
    starLoop step (f + 1) s k
      = (step s (fun t => decide (t.length < s.length) && starLoop step f t k) || k s) := rfl

theorem splits_nil (P : Str → Prop) (k : Str → Bool) (h : P []) :
    (k [] = true ↔ Splits [] P k) := by
  constructor
  · intro hk
    exact ⟨[], [], rfl, h, hk⟩
  · rintro ⟨pre, post, hs, -, hk⟩
    have : post = [] := (List.append_eq_nil.mp hs.symm).2
    rw [this] at hk
    exact hk

theorem rec_cls (p : Nat → Bool) : Recognises (cls p) (fun w => ∃ c, w = [c] ∧ p c = true) := by
  intro n s k
  cases s with
  | nil => simp [run, Splits]
  | cons c t =>
    simp only [run, Bool.and_eq_true, Splits]
    constructor
    · rintro ⟨hc, hk⟩
      exact ⟨[c], t, rfl, ⟨c, rfl, hc⟩, hk⟩
    · rintro ⟨pre, post, h, ⟨d, rfl, hd⟩, hk⟩
      simp at h
      obtain ⟨rfl, rfl⟩ := h
      exact ⟨hd, hk⟩

theorem rec_seq {a b : Regex} {P Q : Str → Prop} (ha : Recognises a P) (hb : Recognises b Q) :
    Recognises (seq a b) (fun w => ∃ u v, w = u ++ v ∧ P u ∧ Q v) := by
  intro n s k
  simp only [run]
  rw [ha]
  constructor
  · rintro ⟨u, rest, rfl, hu, hk⟩
    rw [hb] at hk
    obtain ⟨v, post, rfl, hv, hk⟩ := hk
    exact ⟨u ++ v, post, by simp, ⟨u, v, rfl, hu, hv⟩, hk⟩
  · rintro ⟨w, post, rfl, ⟨u, v, rfl, hu, hv⟩, hk⟩
    refine ⟨u, v ++ post, by simp, hu, ?_⟩
    rw [hb]
    exact ⟨v, post, rfl, hv, hk⟩

theorem rec_alt {a b : Regex} {P Q : Str → Prop} (ha : Recognises a P) (hb : Recognises b Q) :
    Recognises (alt a b) (fun w => P w ∨ Q w) := by
  intro n s k
  simp only [run, Bool.or_eq_true]
  rw [ha, hb]
  constructor
  · rintro (⟨u, post, rfl, hu, hk⟩ | ⟨u, post, rfl, hu, hk⟩)
    · exact ⟨u, post, rfl, Or.inl hu, hk⟩
    · exact ⟨u, post, rfl, Or.inr hu, hk⟩
  · rintro ⟨u, post, rfl, hu | hu, hk⟩
    · exact Or.inl ⟨u, post, rfl, hu, hk⟩
    · exact Or.inr ⟨u, post, rfl, hu, hk⟩

theorem rec_congr {a : Regex} {P Q : Str → Prop} (ha : Recognises a P) (h : ∀ w, P w ↔ Q w) :
    Recognises a Q := by
  intro n s k
  rw [ha]
  constructor
  · rintro ⟨u, post, rfl, hu, hk⟩
    exact ⟨u, post, rfl, (h u).1 hu, hk⟩
  · rintro ⟨u, post, rfl, hu, hk⟩
    exact ⟨u, post, rfl, (h u).2 hu, hk⟩

theorem starLoop_cls (m : Nat) (p : Nat → Bool) (k : Str → Bool) :
    ∀ (fuel : Nat) (s : Str), s.length ≤ fuel →
      (starLoop (run m (cls p)) fuel s k = true ↔ Splits s (fun w => ∀ c ∈ w, p c = true) k) := by
  intro fuel
  induction fuel with
  | zero =>
    intro s hs
    have : s = [] := List.length_eq_zero.mp (Nat.le_zero.mp hs)
    subst this
    simp only [starLoop]
    exact splits_nil _ k (by simp)
  | succ f ih =>
    intro s hs
    cases s with
    | nil =>
      rw [starLoop_succ, run_cls_nil, Bool.false_or]
      exact splits_nil _ k (by simp)
    | cons c t =>
      have ht : t.length ≤ f := by simpa using hs
      rw [starLoop_succ, run_cls_cons]
      simp only [Bool.or_eq_true, Bool.and_eq_true, List.length_cons,
        Nat.lt_succ_self, decide_True, true_and]
      rw [ih t ht]
      constructor
      · rintro (⟨hc, pre, post, rfl, hpre, hk⟩ | hk)
        · refine ⟨c :: pre, post, rfl, ?_, hk⟩
          intro x hx
          rcases List.mem_cons.mp hx with rfl | hx
          · exact hc
          · exact hpre x hx
        · exact ⟨[], c :: t, rfl, by simp, hk⟩
      · rintro ⟨pre, post, h, hpre, hk⟩
        cases pre with
        | nil =>
          simp at h
          subst h
          exact Or.inr hk
        | cons d pre =>
          simp at h
          obtain ⟨rfl, rfl⟩ := h
          exact Or.inl ⟨hpre c (by simp), pre, post, rfl, fun x hx => hpre x (by simp [hx]), hk⟩

theorem rec_star_cls (p : Nat → Bool) :
    Recognises (star (cls p)) (fun w => ∀ c ∈ w, p c = true) := by
  intro n s k
  simp only [run]
  exact starLoop_cls n p k s.length s (Nat.le_refl _)

theorem rec_times_cls (p : Nat → Bool) (m : Nat) :
    Recognises (times (cls p) m) (fun w => w.length = m ∧ ∀ c ∈ w, p c = true) := by
  induction m with
  | zero =>
    refine rec_congr rec_eps ?_
    intro w
    constructor
    · rintro rfl
      simp
    · rintro ⟨h, -⟩
      exact List.length_eq_zero.mp h
  | succ m ih =>
    refine rec_congr (rec_seq (rec_cls p) ih) ?_
    intro w
    constructor
    · rintro ⟨u, v, rfl, ⟨c, rfl, hc⟩, hv, hall⟩
      refine ⟨by simp [hv], ?_⟩
      intro x hx
      simp at hx
      rcases hx with rfl | hx
      · exact hc
      · exact hall x hx
    · rintro ⟨hlen, hall⟩
      cases w with
      | nil => simp at hlen
      | cons c t =>
        exact ⟨[c], t, rfl, ⟨c, rfl, hall c (by simp)⟩, by simpa using hlen,
          fun x hx => hall x (by simp [hx])⟩

theorem rec_upto_cls (p : Nat → Bool) (m : Nat) :
    Recognises (upto (cls p) m) (fun w => w.length ≤ m ∧ ∀ c ∈ w, p c = true) := by
  induction m with
  | zero =>
    refine rec_congr rec_eps ?_
    intro w
    constructor
    · rintro rfl
      simp
    · rintro ⟨h, -⟩
      exact List.length_eq_zero.mp (Nat.le_zero.mp h)
  | succ m ih =>
    refine rec_congr (rec_alt (rec_seq (rec_cls p) ih) rec_eps) ?_
    intro w
    constructor
    · rintro (⟨u, v, rfl, ⟨c, rfl, hc⟩, hv, hall⟩ | rfl)
      · refine ⟨by simpa using hv, ?_⟩
        intro x hx
        simp at hx
        rcases hx with rfl | hx
        · exact hc
        · exact hall x hx
      · simp
    · rintro ⟨hlen, hall⟩
      cases w with
      | nil => exact Or.inr rfl
      | cons c t =>
        exact Or.inl ⟨[c], t, rfl, ⟨c, rfl, hall c (by simp)⟩, by simpa using hlen,
          fun x hx => hall x (by simp [hx])⟩

theorem rec_chr (c : Char) : Recognises (chr c) (fun w => w = [c.toNat]) := by
  refine rec_congr (rec_cls _) ?_
  intro w
  constructor
  · rintro ⟨d, rfl, hd⟩
    simp at hd
    rw [hd]
  · rintro rfl
    exact ⟨c.toNat, rfl, by simp⟩

theorem rec_opt {a : Regex} {P : Str → Prop} (ha : Recognises a P) :
    Recognises (opt a) (fun w => P w ∨ w = []) :=
  rec_alt ha rec_eps

theorem rec_plus_cls (p : Nat → Bool) :
    Recognises (plus (cls p)) (fun w => w ≠ [] ∧ ∀ c ∈ w, p c = true) := by
  refine rec_congr (rec_seq (rec_cls p) (rec_star_cls p)) ?_
  intro w
  constructor
  · rintro ⟨u, v, rfl, ⟨c, rfl, hc⟩, hv⟩
    refine ⟨by simp, ?_⟩
    intro x hx
    simp at hx
    rcases hx with rfl | hx
    · exact hc
    · exact hv x hx
  · rintro ⟨hne, hall⟩
    cases w with
    | nil => exact absurd rfl hne
    | cons c t =>
      exact ⟨[c], t, rfl, ⟨c, rfl, hall c (by simp)⟩, fun x hx => hall x (by simp [hx])⟩

theorem rec_range_cls (p : Nat → Bool) (lo hi : Nat) (h : lo ≤ hi) :
    Recognises (range (cls p) lo hi)
      (fun w => lo ≤ w.length ∧ w.length ≤ hi ∧ ∀ c ∈ w, p c = true) := by
  refine rec_congr (rec_seq (rec_times_cls p lo) (rec_upto_cls p (hi - lo))) ?_
  intro w
  constructor
  · rintro ⟨u, v, rfl, ⟨hu, hpu⟩, hv, hpv⟩
    refine ⟨by simp [hu], by simp; omega, ?_⟩
    intro x hx
    rcases List.mem_append.mp hx with hx | hx
    · exact hpu x hx
    · exact hpv x hx
  · rintro ⟨hlo, hhi, hall⟩
    refine ⟨w.take lo, w.drop lo, (List.take_append_drop lo w).symm, ⟨?_, ?_⟩, ?_, ?_⟩
    · simp [hlo]
    · intro x hx
      exact hall x (List.mem_of_mem_take hx)
    · simp; omega
    · intro x hx
      exact hall x (List.mem_of_mem_drop hx)

theorem rec_atLeast_cls (p : Nat → Bool) (lo : Nat) :
    Recognises (atLeast (cls p) lo) (fun w => lo ≤ w.length ∧ ∀ c ∈ w, p c = true) := by
  refine rec_congr (rec_seq (rec_times_cls p lo) (rec_star_cls p)) ?_
  intro w
  constructor
  · rintro ⟨u, v, rfl, ⟨hu, hpu⟩, hpv⟩
    refine ⟨by simp [hu], ?_⟩
    intro x hx
    rcases List.mem_append.mp hx with hx | hx
    · exact hpu x hx
    · exact hpv x hx
  · rintro ⟨hlo, hall⟩
    refine ⟨w.take lo, w.drop lo, (List.take_append_drop lo w).symm, ⟨?_, ?_⟩, ?_⟩
    · simp [hlo]
    · intro x hx
      exact hall x (List.mem_of_mem_take hx)
    · intro x hx
      exact hall x (List.mem_of_mem_drop hx)

theorem ends_eos : Ends (seqs [eos]) (fun w => w = []) := by
  intro n s
  cases s <;> simp [seqs, run]

theorem ends_seq {a b : Regex} {P Q : Str → Prop} (ha : Recognises a P) (hb : Ends b Q) :
    Ends (seq a b) (fun w => ∃ u v, w = u ++ v ∧ P u ∧ Q v) := by
  intro n s
  simp only [run]
  rw [ha]
  constructor
  · rintro ⟨u, v, rfl, hu, hv⟩
    exact ⟨u, v, rfl, hu, (hb n v).1 hv⟩
  · rintro ⟨u, v, rfl, hu, hv⟩
    exact ⟨u, v, rfl, hu, (hb n v).2 hv⟩

theorem ends_look {a b : Regex} {P Q : Str → Prop} (ha : Ends a P) (hb : Ends b Q) :
    Ends (seq (look a) b) (fun w => P w ∧ Q w) := by
  intro n s
  simp only [run, Bool.and_eq_true]
  rw [ha n s, hb n s]

theorem ends_any {a : Regex} {P : Str → Prop} (ha : Recognises a P) :
    Ends a (fun w => ∃ u v, w = u ++ v ∧ P u) := by
  intro n s
  rw [ha]
  constructor
  · rintro ⟨u, v, rfl, hu, -⟩
    exact ⟨u, v, rfl, hu⟩
  · rintro ⟨u, v, rfl, hu⟩
    exact ⟨u, v, rfl, hu, rfl⟩

theorem ends_congr {a : Regex} {P Q : Str → Prop} (ha : Ends a P) (h : ∀ w, P w ↔ Q w) :
    Ends a Q := fun n s => (ha n s).trans (h s)

theorem searchFrom_bos_short (n : Nat) (b : Regex) :
    ∀ t : Str, t.length < n → searchFrom n (seq bos b) t = false := by
  intro t
  induction t with
  | nil =>
    intro h
    have : ¬ (0 = n) := by simp at h; omega
    simp [searchFrom, run, this]
  | cons c t ih =>
    intro h
    have hn : ¬ (t.length + 1 = n) := by simp at h; omega
    have ht : t.length < n := by simp at h; omega
    simp [searchFrom, run, hn, ih ht]

theorem test_bos {b : Regex} {Q : Str → Prop} (hb : Ends b Q) (s : Str) :
    test (seq bos b) s = true ↔ Q s := by
  rw [← hb s.length s]
  cases s with
  | nil => simp [test, searchFrom, run]
  | cons c t =>
    simp [test, searchFrom, run, searchFrom_bos_short (t.length + 1) b t (Nat.lt_succ_self _)]

theorem test_bos_false {b : Regex} {Q : Str → Prop} (hb : Ends b Q) (s : Str) :
    test (seq bos b) s = false ↔ ¬ Q s := by
  rw [← test_bos hb s]
  simp

end Regex
end JS

namespace JS

theorem trim_eq_nil_iff (s : Str) : trim s = [] ↔ ∀ c ∈ s, isSpace c = true := by
  unfold trim trimEnd trimStart
  rw [List.reverse_eq_nil_iff, List.dropWhile_eq_nil_iff]
  constructor
  · intro h
    have h2 : ∀ x ∈ List.dropWhile isSpace s, isSpace x = true := by
      intro x hx
      exact h x (List.mem_reverse.mpr hx)
    cases hd : List.dropWhile isSpace s with
    | nil => exact List.dropWhile_eq_nil_iff.mp hd
    | cons a l =>
      have h3 := List.head_dropWhile_not isSpace s (by rw [hd]; simp)
      have h4 := h2 (List.head (List.dropWhile isSpace s) (by rw [hd]; simp)) (List.head_mem _)
      rw [h4] at h3
      exact absurd h3 (by simp)
  · intro h x hx
    have hx2 := List.mem_reverse.mp hx
    exact h x ((List.dropWhile_sublist isSpace).subset hx2)

namespace Obj

variable {α : Type}

theorem get_nil (k : String) : Obj.get ([] : Obj α) k = none := rfl

theorem get_cons (e : String × α) (o : Obj α) (k : String) :
    Obj.get (e :: o) k = if e.1 = k then some e.2 else Obj.get o k := by
  unfold Obj.get
  by_cases h : e.1 = k
  · have hb : (e.1 == k) = true := by simpa using h
    simp [List.find?, hb, h]
  · have hb : (e.1 == k) = false := by simpa using h
    simp [List.find?, hb, h]

theorem has_cons (e : String × α) (o : Obj α) (k : String) :
    Obj.has (e :: o) k = (decide (e.1 = k) || Obj.has o k) := by
  unfold Obj.has
  by_cases h : e.1 = k
  · have hb : (e.1 == k) = true := by simpa using h
    simp [hb, h]
  · have hb : (e.1 == k) = false := by simpa using h
    simp [hb, h]

theorem has_eq_false_iff (o : Obj α) (k : String) : o.has k = false ↔ o.get k = none := by
  induction o with
  | nil => simp [Obj.has, get_nil]
  | cons e o ih =>
    rw [get_cons, has_cons]
    by_cases h : e.1 = k
    · simp [h]
    · simp only [h, if_false, decide_False, Bool.false_or]
      exact ih

theorem get_append_single (o : Obj α) (k j : String) (v : α) :
    Obj.get (o ++ [(k, v)]) j = if o.has j then o.get j else if k = j then some v else none := by
  induction o with
  | nil => simp [Obj.has, get_cons, get_nil]
  | cons e o ih =>
    rw [List.cons_append, get_cons, get_cons, ih, has_cons]
    by_cases h : e.1 = j <;> simp [h]

theorem get_map_set (o : Obj α) (k j : String) (v : α) :
    Obj.get (o.map (fun e => if e.1 == k then (k, v) else e)) j
      = if k = j then (if o.has k then some v else none) else o.get j := by
  induction o with
  | nil => simp [Obj.has, get_nil]
  | cons e o ih =>
    rw [List.map_cons, get_cons, ih, get_cons, has_cons]
    by_cases h : e.1 = k
    · have hb : (e.1 == k) = true := by simpa using h
      by_cases hj : k = j
      · simp [h, hj]
      · have : ¬ e.1 = j := by rw [h]; exact hj
        simp [h, hj]
    · have hb : (e.1 == k) = false := by simpa using h
      by_cases hj : k = j
      · have : ¬ e.1 = j := by rw [← hj]; exact h
        simp [h, hj, this]
      · simp [h, hj]

theorem erase_cons (e : String × α) (o : Obj α) (k : String) :
    Obj.erase (e :: o) k = if e.1 = k then Obj.erase o k else e :: Obj.erase o k := by
  unfold Obj.erase
  by_cases h : e.1 = k
  · have hb : (e.1 == k) = true := by simpa using h
    simp [List.filter, hb, h]
  · have hb : (e.1 == k) = false := by simpa using h
    simp [List.filter, hb, h]

theorem get_set_self (o : Obj α) (k : String) (v : α) : (o.set k v).get k = some v := by
  unfold Obj.set
  by_cases h : o.has k = true
  · rw [if_pos h, get_map_set]
    simp [h]
  · rw [if_neg h, get_append_single]
    simp [h]

theorem get_set_ne (o : Obj α) (k j : String) (v : α) (hne : k ≠ j) :
    (o.set k v).get j = o.get j := by
  unfold Obj.set
  by_cases h : o.has k = true
  · rw [if_pos h, get_map_set]
    simp [hne]
  · rw [if_neg h, get_append_single]
    by_cases hj : o.has j = true
    · simp [hj]
    · have : o.get j = none := (has_eq_false_iff o j).mp (by simpa using hj)
      simp [hj, hne, this]

theorem get_erase_self (o : Obj α) (k : String) : (o.erase k).get k = none := by
  induction o with
  | nil => rfl
  | cons e o ih =>
    rw [erase_cons]
    by_cases h : e.1 = k
    · rw [if_pos h]
      exact ih
    · rw [if_neg h, get_cons, if_neg h]
      exact ih

theorem get_erase_ne (o : Obj α) (k j : String) (hne : k ≠ j) :
    (o.erase k).get j = o.get j := by
  induction o with
  | nil => rfl
  | cons e o ih =>
    rw [erase_cons]
    by_cases h : e.1 = k
    · have : ¬ e.1 = j := by rw [h]; exact hne
      rw [if_pos h, get_cons, if_neg this]
      exact ih
    · rw [if_neg h, get_cons, get_cons, ih]

theorem set_ne_nil (o : Obj α) (k : String) (v : α) : o.set k v ≠ [] := by
  intro h
  have := get_set_self o k v
  rw [h] at this
  exact absurd this (by simp [get_nil])

theorem keys_set_length (o : Obj α) (k : String) (v : α) :
    ((Obj.keys (o.set k v)).length == 0) = false := by
  have h := set_ne_nil o k v
  cases hs : o.set k v with
  | nil => exact absurd hs h
  | cons e t => simp [Obj.keys]

end Obj

end JS

namespace JS

theorem lit_at : lit "@" = [64] := by decide

theorem lit_dot : lit "." = [46] := by decide

theorem lit_dash : lit "-" = [45] := by decide

theorem lit_01 : lit "01" = [48, 49] := by decide

theorem lit_20 : lit "20" = [50, 48] := by decide

theorem lit_plus20 : lit "+20" = [43, 50, 48] := by decide

theorem oneOf_0125 (c : Nat) :
    oneOf "0125" c = true ↔ (c = 48 ∨ c = 49 ∨ c = 50 ∨ c = 53) := by
  have h : lit "0125" = [48, 49, 50, 53] := by decide
  simp [oneOf, h]

theorem oneOf_symbols (c : Nat) :
    oneOf "@$!%*?&" c = (c == 64 || c == 36 || c == 33 || c == 37 || c == 42 || c == 63 || c == 38) := by
  have h : lit "@$!%*?&" = [64, 36, 33, 37, 42, 63, 38] := by decide
  rw [Bool.eq_iff_iff]
  simp [oneOf, h, or_assoc]

namespace Regex

theorem ends_nil : Ends (seqs []) (fun _ => True) := by
  intro n s
  simp [seqs, run]

theorem email_ends :
    Ends (seqs [plus (cls fun c => !(isSpace c || c == 64)), chr '@',
      plus (cls fun c => !(isSpace c || c == 64)), chr '.',
      plus (cls fun c => !(isSpace c || c == 64)), eos]) Shape.Email := by
  refine ends_congr (ends_seq (rec_plus_cls _) (ends_seq (rec_chr '@') (ends_seq (rec_plus_cls _)
    (ends_seq (rec_chr '.') (ends_seq (rec_plus_cls _) ends_eos))))) ?_
  intro w
  have hp : ∀ l : Str, (∀ x ∈ l, (!(isSpace x || x == 64)) = true) ↔ ∀ x ∈ l, Shape.plain x := by
    intro l
    constructor
    · intro h x hx
      have := h x hx
      simpa [Shape.plain] using this
    · intro h x hx
      have := h x hx
      simpa [Shape.plain] using this
  constructor
  · rintro ⟨a, r1, rfl, ⟨ha, hpa⟩, _, r2, rfl, rfl, b, r3, rfl, ⟨hb, hpb⟩, _, r4, rfl, rfl,
      c, r5, rfl, ⟨hc, hpc⟩, rfl⟩
    refine ⟨a, b, c, ?_, ha, hb, hc, (hp a).1 hpa, (hp b).1 hpb, (hp c).1 hpc⟩
    simp [lit_at, lit_dot]
  · rintro ⟨a, b, c, rfl, ha, hb, hc, hpa, hpb, hpc⟩
    refine ⟨a, lit "@" ++ b ++ lit "." ++ c, by simp, ⟨ha, (hp a).2 hpa⟩, lit "@", b ++ lit "." ++ c,
      by simp, by simp [lit_at], b, lit "." ++ c, by simp, ⟨hb, (hp b).2 hpb⟩, lit ".", c,
      by simp, by simp [lit_dot], c, [], by simp, ⟨hc, (hp c).2 hpc⟩, rfl⟩

theorem name_ends :
    Ends (seqs [range (cls fun c => isLower c || isUpper c || isSpace c) 2 50, eos])
      Shape.Name := by
  refine ends_congr (ends_seq (rec_range_cls _ 2 50 (by decide)) ends_eos) ?_
  intro w
  constructor
  · rintro ⟨a, r, rfl, ⟨h1, h2, h3⟩, rfl⟩
    refine ⟨by simpa using h1, by simpa using h2, ?_⟩
    intro x hx
    have := h3 x (by simpa using hx)
    simpa [isLetter, or_assoc] using this
  · rintro ⟨h1, h2, h3⟩
    refine ⟨w, [], by simp, ⟨h1, h2, ?_⟩, rfl⟩
    intro x hx
    have := h3 x hx
    simpa [isLetter, or_assoc] using this

theorem zip_ends :
    Ends (seqs [times (cls isDigit) 5, opt (seqs [chr '-', times (cls isDigit) 4]), eos])
      Shape.Zip := by
  have hgroup : Recognises (seqs [chr '-', times (cls isDigit) 4])
      (fun w => ∃ u v, w = u ++ v ∧ u = ['-'.toNat] ∧
        ∃ u2 v2, v = u2 ++ v2 ∧ (u2.length = 4 ∧ ∀ c ∈ u2, isDigit c = true) ∧ v2 = []) :=
    rec_seq (rec_chr '-') (rec_seq (rec_times_cls isDigit 4) rec_eps)
  refine ends_congr (ends_seq (rec_times_cls isDigit 5) (ends_seq (rec_opt hgroup) ends_eos)) ?_
  intro w
  constructor
  · rintro ⟨d, r, rfl, ⟨hd, hpd⟩, g, r2, rfl, hg, rfl⟩
    refine ⟨d, hd, hpd, ?_⟩
    rcases hg with ⟨_, v, rfl, rfl, e, _, rfl, ⟨he, hpe⟩, rfl⟩ | rfl
    · exact Or.inr ⟨e, he, hpe, by simp [lit_dash]⟩
    · exact Or.inl (by simp)
  · rintro ⟨d, hd, hpd, h | ⟨e, he, hpe, rfl⟩⟩
    · exact ⟨d, [], by simp [h], ⟨hd, hpd⟩, [], [], rfl, Or.inr rfl, rfl⟩
    · refine ⟨d, lit "-" ++ e, by simp, ⟨hd, hpd⟩, lit "-" ++ e, [], by simp, Or.inl ?_, rfl⟩
      exact ⟨lit "-", e, rfl, by simp [lit_dash], e, [], by simp, ⟨he, hpe⟩, rfl⟩

theorem egypt_phone_ends :
    Ends (seqs [opt (seqs [opt (chr '+'), chr '2', chr '0']), seqs [chr '0', chr '1'],
      cls (oneOf "0125"), times (cls isDigit) 8, eos]) Shape.EgyptPhone := by
  have hgroup : Recognises (seqs [opt (chr '+'), chr '2', chr '0'])
      (fun w => ∃ u v, w = u ++ v ∧ (u = ['+'.toNat] ∨ u = []) ∧
        ∃ u2 v2, v = u2 ++ v2 ∧ u2 = ['2'.toNat] ∧
          ∃ u3 v3, v2 = u3 ++ v3 ∧ u3 = ['0'.toNat] ∧ v3 = []) :=
    rec_seq (rec_opt (rec_chr '+')) (rec_seq (rec_chr '2') (rec_seq (rec_chr '0') rec_eps))
  have h01 : Recognises (seqs [chr '0', chr '1'])
      (fun w => ∃ u v, w = u ++ v ∧ u = ['0'.toNat] ∧
        ∃ u2 v2, v = u2 ++ v2 ∧ u2 = ['1'.toNat] ∧ v2 = []) :=
    rec_seq (rec_chr '0') (rec_seq (rec_chr '1') rec_eps)
  refine ends_congr (ends_seq (rec_opt hgroup) (ends_seq h01 (ends_seq (rec_cls (oneOf "0125"))
    (ends_seq (rec_times_cls isDigit 8) ends_eos)))) ?_
  intro w
  constructor
  · rintro ⟨pre, r, rfl, hpre, z, r2, rfl, ⟨_, _, rfl, rfl, _, _, rfl, rfl, rfl⟩, _, r3, rfl,
      ⟨d, rfl, hd⟩, rest, _, rfl, ⟨hrest, hprest⟩, rfl⟩
    refine ⟨pre, d, rest, ?_, (oneOf_0125 d).1 hd, hrest, hprest, by simp [lit_01]⟩
    rcases hpre with ⟨_, _, rfl, rfl | rfl, _, _, rfl, rfl, _, _, rfl, rfl, rfl⟩ | rfl
    · exact Or.inr (Or.inl (by simp [lit_plus20]))
    · exact Or.inr (Or.inr (by simp [lit_20]))
    · exact Or.inl rfl
  · rintro ⟨pre, d, rest, hpre, hd, hrest, hprest, rfl⟩
    refine ⟨pre, lit "01" ++ d :: rest, by simp, ?_, lit "01", d :: rest, rfl, ?_, [d], rest, rfl,
      ⟨d, rfl, (oneOf_0125 d).2 hd⟩, rest, [], by simp, ⟨hrest, hprest⟩, rfl⟩
    · rcases hpre with rfl | rfl | rfl
      · exact Or.inr rfl
      · exact Or.inl ⟨[43], [50, 48], by simp [lit_plus20], Or.inl (by simp), [50], [48], rfl,
          by simp, [48], [], rfl, by simp, rfl⟩
      · exact Or.inl ⟨[], [50, 48], by simp [lit_20], Or.inr rfl, [50], [48], rfl,
          by simp, [48], [], rfl, by simp, rfl⟩
    · exact ⟨[48], [49], by simp [lit_01], by simp, [49], [], rfl, by simp, rfl⟩

theorem passwordChar_eq (c : Nat) :
    (isLower c || isUpper c || isDigit c || oneOf "@$!%*?&" c) = Shape.passwordChar c := by
  rw [oneOf_symbols]
  simp [Shape.passwordChar, Bool.or_assoc]

theorem passwordChar_isDot (c : Nat) (h : Shape.passwordChar c = true) : isDot c = true := by
  simp only [Shape.passwordChar, isLower, isUpper, isDigit, Bool.or_eq_true, Bool.and_eq_true,
    decide_eq_true_eq, beq_iff_eq] at h
  simp only [isDot, isLineTerminator, Bool.not_eq_true', Bool.or_eq_false_iff,
    beq_eq_false_iff_ne, ne_eq]
  omega

/-- The lookahead body `.*[x]` succeeds exactly when a code unit of the class
occurs before the first line terminator. -/
theorem look_ends (p : Nat → Bool) :
    Ends (seqs [star (cls isDot), cls p])
      (fun w => ∃ u c v, w = u ++ c :: v ∧ (∀ x ∈ u, isDot x = true) ∧ p c = true) := by
  refine ends_congr (ends_seq (rec_star_cls isDot) (ends_seq (rec_cls p) ends_nil)) ?_
  intro w
  constructor
  · rintro ⟨u, r, rfl, hu, _, v, rfl, ⟨c, rfl, hc⟩, -⟩
    exact ⟨u, c, v, by simp, hu, hc⟩
  · rintro ⟨u, c, v, rfl, hu, hc⟩
    exact ⟨u, c :: v, rfl, hu, [c], v, rfl, ⟨c, rfl, hc⟩, trivial⟩

theorem look_iff_any (p : Nat → Bool) (w : Str) (hw : ∀ x ∈ w, isDot x = true) :
    (∃ u c v, w = u ++ c :: v ∧ (∀ x ∈ u, isDot x = true) ∧ p c = true) ↔ w.any p = true := by
  rw [List.any_eq_true]
  constructor
  · rintro ⟨u, c, v, rfl, -, hc⟩
    exact ⟨c, by simp, hc⟩
  · rintro ⟨c, hc, hpc⟩
    obtain ⟨u, v, rfl⟩ := List.append_of_mem hc
    exact ⟨u, c, v, rfl, fun x hx => hw x (by simp [hx]), hpc⟩

theorem password_ends :
    Ends (seqs [look (seqs [star (cls isDot), cls isLower]),
      look (seqs [star (cls isDot), cls isUpper]), look (seqs [star (cls isDot), cls isDigit]),
      atLeast (cls fun c => isLower c || isUpper c || isDigit c || oneOf "@$!%*?&" c) 8, eos])
      (fun w => 8 ≤ w.length ∧ Shape.passwordClasses w = true) := by
  refine ends_congr (ends_look (look_ends isLower) (ends_look (look_ends isUpper)
    (ends_look (look_ends isDigit) (ends_seq (rec_atLeast_cls _ 8) ends_eos)))) ?_
  intro w
  simp only [Shape.passwordClasses, Bool.and_eq_true, List.all_eq_true]
  constructor
  · rintro ⟨h1, h2, h3, u, r, rfl, ⟨hlen, hall⟩, rfl⟩
    have hall2 : ∀ x ∈ u ++ [], Shape.passwordChar x = true := by
      intro x hx
      rw [← passwordChar_eq]
      exact hall x (by simpa using hx)
    have hdot : ∀ x ∈ u ++ [], isDot x = true := fun x hx => passwordChar_isDot x (hall2 x hx)
    exact ⟨by simpa using hlen, ⟨⟨(look_iff_any _ _ hdot).1 h1, (look_iff_any _ _ hdot).1 h2⟩,
      (look_iff_any _ _ hdot).1 h3⟩, hall2⟩
  · rintro ⟨hlen, ⟨⟨h1, h2⟩, h3⟩, hall⟩
    have hdot : ∀ x ∈ w, isDot x = true := fun x hx => passwordChar_isDot x (hall x hx)
    refine ⟨(look_iff_any _ _ hdot).2 h1, (look_iff_any _ _ hdot).2 h2,
      (look_iff_any _ _ hdot).2 h3, w, [], by simp, ⟨hlen, ?_⟩, rfl⟩
    intro x hx
    have := hall x hx
    rw [← passwordChar_eq] at this
    exact this

end Regex

end JS

/-! ## Submission gate of Register -/

theorem register_validateField_fails (errors : Obj String) (name : String) (value : Str)
    (h : Register.failsRules name value = true) :
    (Register.validateField errors name value).2 = false := by
  unfold Register.failsRules at h
  unfold Register.validateField
  split at h
  · simp only [Bool.or_eq_true, decide_eq_true_eq] at h
    simp only []
    split_ifs <;> first | exact Obj.keys_set_length _ _ _ | (exfalso; tauto)
  · simp only [Bool.or_eq_true, decide_eq_true_eq] at h
    simp only []
    split_ifs <;> first | exact Obj.keys_set_length _ _ _ | (exfalso; tauto)
  · simp only [Bool.or_eq_true, decide_eq_true_eq] at h
    simp only []
    split_ifs <;> first | exact Obj.keys_set_length _ _ _ | (exfalso; tauto)
  · simp only [Bool.or_eq_true, decide_eq_true_eq] at h
    simp only []
    split_ifs <;> first | exact Obj.keys_set_length _ _ _ | (exfalso; tauto)
  · exact absurd h (by simp)

theorem foldl_validate_snd (g : String → Obj String × Bool) :
    ∀ (l : List String) (acc : Obj String × Bool),
      (l.foldl (fun acc key => ((g key).1, if !(g key).2 then false else acc.2)) acc).2
        = (acc.2 && l.all (fun key => (g key).2)) := by
  intro l
  induction l with
  | nil => intro acc; simp
  | cons a l ih =>
    intro acc
    rw [List.foldl_cons, ih]
    cases h : (g a).2 <;> simp [h]

theorem register_validateAll_snd (s : Register.State) :
    (Register.validateAll s).2
      = (Obj.keys s.formData).all
          (fun key => (Register.validateField s.errors key ((s.formData.get key).getD [])).2) := by
  unfold Register.validateAll
  rw [foldl_validate_snd (fun key => Register.validateField s.errors key ((s.formData.get key).getD []))]
  simp

/-- C1: in every Register state in which a field of the form fails its rule
chain, `handleSubmit` makes no `registerUser` call and does not set the
submitting flag. -/
theorem register_handleSubmit_invalid_no_call (s : Register.State) (f : String)
    (hf : f ∈ Obj.keys s.formData)
    (hfail : Register.failsRules f ((s.formData.get f).getD []) = true) :
    (Register.handleSubmit s).request = none ∧
      (Register.handleSubmit s).state.isLoading = s.isLoading := by
  have hv : (Register.validateAll s).2 = false := by
    rw [register_validateAll_snd, List.all_eq_false]
    exact ⟨f, hf, by rw [register_validateField_fails _ _ _ hfail]; simp⟩
  unfold Register.handleSubmit
  simp [hv]

/-- C1, at the form with `password = "abc"` and the other fields valid. -/
theorem register_handleSubmit_invalid_no_call_witness :
    Register.failsRules "name" (lit "Jane Doe") = false ∧
    Register.failsRules "email" (lit "a@b.com") = false ∧
    Register.failsRules "phone" (lit "15551234567") = false ∧
    Register.failsRules "password" (lit "abc") = true ∧
    (Register.handleSubmit
      { formData := [("name", lit "Jane Doe"), ("email", lit "a@b.com"),
          ("phone", lit "15551234567"), ("password", lit "abc")],
        errors := [], touched := [], isLoading := false }).request = none ∧
    (Register.handleSubmit
      { formData := [("name", lit "Jane Doe"), ("email", lit "a@b.com"),
          ("phone", lit "15551234567"), ("password", lit "abc")],
        errors := [], touched := [], isLoading := false }).state.isLoading = false :=
  ⟨by decide, by decide, by decide, by decide,
    register_handleSubmit_invalid_no_call
      { formData := [("name", lit "Jane Doe"), ("email", lit "a@b.com"),
          ("phone", lit "15551234567"), ("password", lit "abc")],
        errors := [], touched := [], isLoading := false } "password" (by decide) (by decide)⟩

/-! ## Submit-time validation of an empty form -/

/-- C2: on the empty Login and Register forms the submit-time pass returns
false and makes no backend call, but every `validateField` call starts from the
rendered (empty) error map and replaces the pending one, so the error map that
results holds the error of the last field only. -/
theorem submit_empty_form_keeps_last_error_only :
    (Login.validateAll Login.initial).2 = false ∧
    (Login.handleSubmit Login.initial).request = none ∧
    (Login.handleSubmit Login.initial).state.errors = [("password", "Password is required")] ∧
    (Login.handleSubmit Login.initial).state.errors.get "email" = none ∧
    (Register.validateAll Register.initial).2 = false ∧
    (Register.handleSubmit Register.initial).request = none ∧
    (Register.handleSubmit Register.initial).state.errors
      = [("password", "Password is required")] ∧
    (Register.handleSubmit Register.initial).state.errors.get "name" = none ∧
    (Register.handleSubmit Register.initial).state.errors.get "email" = none ∧
    (Register.handleSubmit Register.initial).state.errors.get "phone" = none := by
  decide

/-! ## The confirm-password cascade -/

/-- C3: with the confirmation touched, changing `newPassword` re-validates the
confirmation against the rendered (previous) new password: after the change to
`Abcdefg12` the stored confirmation equals the new password and is still
reported as a mismatch, and from equal values the change leaves a differing
confirmation without an error. -/
theorem account_confirm_revalidated_against_previous_newPassword :
    truthy (Account.confirmLonger.touchedPassword.get "confirmPassword") = true ∧
    (Account.handlePasswordInputChange Account.confirmLonger "newPassword"
      (lit "Abcdefg12")).passwordData.get "newPassword" = some (lit "Abcdefg12") ∧
    (Account.handlePasswordInputChange Account.confirmLonger "newPassword"
      (lit "Abcdefg12")).passwordData.get "confirmPassword" = some (lit "Abcdefg12") ∧
    (Account.handlePasswordInputChange Account.confirmLonger "newPassword"
      (lit "Abcdefg12")).passwordErrors.get "confirmPassword" = some "Passwords don't match" ∧
    truthy (Account.confirmEqual.touchedPassword.get "confirmPassword") = true ∧
    (Account.handlePasswordInputChange Account.confirmEqual "newPassword"
      (lit "Abcdefg12")).passwordData.get "newPassword" = some (lit "Abcdefg12") ∧
    (Account.handlePasswordInputChange Account.confirmEqual "newPassword"
      (lit "Abcdefg12")).passwordData.get "confirmPassword" = some (lit "Abcdefg1") ∧
    (Account.handlePasswordInputChange Account.confirmEqual "newPassword"
      (lit "Abcdefg12")).passwordErrors.get "confirmPassword" = none := by
  decide

/-! ## The patterns of the pages -/

theorem register_passwordRegex_test (p : Str) :
    Register.passwordRegex.test p = true ↔ 8 ≤ p.length ∧ Shape.passwordClasses p = true :=
  test_bos password_ends p

theorem account_passwordRegex_test (p : Str) :
    Account.passwordRegex.test p = true ↔ 8 ≤ p.length ∧ Shape.passwordClasses p = true :=
  test_bos password_ends p

theorem login_emailRegex_test (v : Str) : Login.emailRegex.test v = true ↔ Shape.Email v :=
  test_bos email_ends v

theorem register_emailRegex_test (v : Str) : Register.emailRegex.test v = true ↔ Shape.Email v :=
  test_bos email_ends v

theorem register_nameRegex_test (t : Str) : Register.nameRegex.test t = true ↔ Shape.Name t :=
  test_bos name_ends t

theorem profile_nameRegex_test (t : Str) : Profile.nameRegex.test t = true ↔ Shape.Name t :=
  test_bos name_ends t

theorem checkout_zipRegex_test (t : Str) : Checkout.zipRegex.test t = true ↔ Shape.Zip t :=
  test_bos zip_ends t

theorem profile_zipCodeRegex_test (t : Str) : Profile.zipCodeRegex.test t = true ↔ Shape.Zip t :=
  test_bos zip_ends t

theorem checkout_phoneRegex_test (w : Str) :
    Checkout.phoneRegex.test w = true ↔ Shape.EgyptPhone w :=
  test_bos egypt_phone_ends w

theorem profile_phoneRegex_test (w : Str) :
    Profile.phoneRegex.test w = true ↔ Shape.EgyptPhone w :=
  test_bos egypt_phone_ends w

/-! ## Password rules -/

/-- C4: Register validates a password by the first failing rule: empty, then
shorter than 8, then the character classes; it is accepted exactly when a
lowercase letter, an uppercase letter and a digit occur and every code unit is of
`[a-zA-Z0-9@$!%*?&]`.  Only the key `password` of the error map changes, so a call
yields at most one message. -/
theorem register_password_rule_chain (errors : Obj String) (p : Str) :
    (Register.validateField errors "password" p).1
      = (if p = [] then errors.set "password" "Password is required"
         else if p.length < 8 then errors.set "password" "Password must be at least 8 characters"
         else if Shape.passwordClasses p = true then errors.erase "password"
         else errors.set "password" "Password must contain uppercase, lowercase, and number") ∧
    ∀ j : String, j ≠ "password" →
      (Register.validateField errors "password" p).1.get j = errors.get j := by
  have heq : (Register.validateField errors "password" p).1
      = (if p = [] then errors.set "password" "Password is required"
         else if p.length < 8 then errors.set "password" "Password must be at least 8 characters"
         else if Shape.passwordClasses p = true then errors.erase "password"
         else errors.set "password" "Password must contain uppercase, lowercase, and number") := by
    simp only [Register.validateField]
    by_cases h1 : p = []
    · simp [h1]
    · by_cases h2 : p.length < 8
      · simp [h1, h2]
      · have h3 := register_passwordRegex_test p
        by_cases h4 : Shape.passwordClasses p = true
        · have : Register.passwordRegex.test p = true := h3.2 ⟨by omega, h4⟩
          simp [h1, h2, h4, this]
        · have : Register.passwordRegex.test p = false := by
            cases ht : Register.passwordRegex.test p
            · rfl
            · exact absurd (h3.1 ht).2 h4
          simp [h1, h2, h4, this]
  refine ⟨heq, ?_⟩
  intro j hj
  rw [heq]
  split_ifs <;> first
    | exact Obj.get_set_ne _ _ _ _ (Ne.symm hj)
    | exact Obj.get_erase_ne _ _ _ (Ne.symm hj)

theorem test_eq_false_iff {r : Regex} {s : Str} {P : Prop} (h : r.test s = true ↔ P) :
    (!r.test s) = true ↔ ¬ P := by
  rw [← h]
  simp

/-- C5: a new password that passes the required, length and character-class
rules is rejected with the must-differ message exactly when it equals the stored
current password; the message is stored under `newPassword`, and the entry of
`currentPassword` is left as it was. -/
theorem account_newPassword_must_differ (passwordData : Obj Str) (passwordErrors : Obj String)
    (cur v : Str) (hcur : passwordData.get "currentPassword" = some cur)
    (h1 : v ≠ []) (h2 : 8 ≤ v.length) (h3 : Shape.passwordClasses v = true) :
    ((Account.validatePasswordField passwordData passwordErrors "newPassword" v).1.get
        "newPassword" = some "New password must be different from current password" ↔ v = cur) ∧
    (v ≠ cur →
      (Account.validatePasswordField passwordData passwordErrors "newPassword" v).1.get
        "newPassword" = none) ∧
    (Account.validatePasswordField passwordData passwordErrors "newPassword" v).1.get
        "currentPassword" = passwordErrors.get "currentPassword" := by
  have ht : Account.passwordRegex.test v = true := (account_passwordRegex_test v).2 ⟨h2, h3⟩
  have hlen : ¬ v.length < 8 := by omega
  by_cases hv : v = cur
  · have heq : (Account.validatePasswordField passwordData passwordErrors "newPassword" v).1
        = passwordErrors.set "newPassword"
            "New password must be different from current password" := by
      rw [← hv] at hcur
      simp [Account.validatePasswordField, h1, hlen, ht, hcur]
    rw [heq]
    refine ⟨⟨fun _ => hv, fun _ => Obj.get_set_self _ _ _⟩, fun h => absurd hv h, ?_⟩
    exact Obj.get_set_ne _ _ _ _ (by decide)
  · have hne : ¬ cur = v := fun h => hv h.symm
    have heq : (Account.validatePasswordField passwordData passwordErrors "newPassword" v).1
        = passwordErrors.erase "newPassword" := by
      simp [Account.validatePasswordField, h1, hlen, ht, hcur, hne]
    rw [heq]
    refine ⟨⟨fun h => ?_, fun h => absurd h hv⟩, fun _ => Obj.get_erase_self _ _, ?_⟩
    · rw [Obj.get_erase_self] at h
      exact absurd h (by simp)
    · exact Obj.get_erase_ne _ _ _ (by decide)

/-- C5, at a new password equal to the stored current password. -/
theorem account_newPassword_must_differ_witness :
    ((Account.validatePasswordField
        [("currentPassword", lit "Abcdefg1"), ("newPassword", lit "Abcdefg1"),
          ("confirmPassword", [])] [] "newPassword" (lit "Abcdefg1")).1.get
        "newPassword" = some "New password must be different from current password" ↔
        lit "Abcdefg1" = lit "Abcdefg1") ∧
    (lit "Abcdefg1" ≠ lit "Abcdefg1" →
      (Account.validatePasswordField
        [("currentPassword", lit "Abcdefg1"), ("newPassword", lit "Abcdefg1"),
          ("confirmPassword", [])] [] "newPassword" (lit "Abcdefg1")).1.get
        "newPassword" = none) ∧
    (Account.validatePasswordField
        [("currentPassword", lit "Abcdefg1"), ("newPassword", lit "Abcdefg1"),
          ("confirmPassword", [])] [] "newPassword" (lit "Abcdefg1")).1.get
        "currentPassword" = Obj.get ([] : Obj String) "currentPassword" :=
  account_newPassword_must_differ
    [("currentPassword", lit "Abcdefg1"), ("newPassword", lit "Abcdefg1"),
      ("confirmPassword", [])] [] (lit "Abcdefg1") (lit "Abcdefg1")
    (by decide) (by decide) (by decide) (by decide)

/-- C6: validating `confirmPassword` with value `c` against the stored new
password `n` stores the required message when `c` is empty, the mismatch message
when `c` is non-empty and differs from `n`, and removes the entry otherwise; no
error remains exactly when `c` is non-empty and equal to `n`. -/
theorem account_confirmPassword_rule (passwordData : Obj Str) (passwordErrors : Obj String)
    (n c : Str) (hn : passwordData.get "newPassword" = some n) :
    (Account.validatePasswordField passwordData passwordErrors "confirmPassword" c).1
      = (if c = [] then passwordErrors.set "confirmPassword" "Please confirm your password"
         else if c ≠ n then passwordErrors.set "confirmPassword" "Passwords don't match"
         else passwordErrors.erase "confirmPassword") ∧
    ((Account.validatePasswordField passwordData passwordErrors "confirmPassword" c).1.get
        "confirmPassword" = none ↔ c ≠ [] ∧ c = n) := by
  have heq : (Account.validatePasswordField passwordData passwordErrors "confirmPassword" c).1
      = (if c = [] then passwordErrors.set "confirmPassword" "Please confirm your password"
         else if c ≠ n then passwordErrors.set "confirmPassword" "Passwords don't match"
         else passwordErrors.erase "confirmPassword") := by
    by_cases h1 : c = []
    · simp [Account.validatePasswordField, h1]
    · by_cases h2 : c = n
      · rw [← h2] at hn
        simp only [Account.validatePasswordField, if_neg h1, hn]
        simp [h2]
      · have : ¬ n = c := fun h => h2 h.symm
        simp [Account.validatePasswordField, h1, h2, hn, this]
  refine ⟨heq, ?_⟩
  rw [heq]
  by_cases h1 : c = []
  · simp [h1, Obj.get_set_self]
  · by_cases h2 : c = n
    · rw [if_neg h1, if_neg (by simpa using h2)]
      exact ⟨fun _ => ⟨h1, h2⟩, fun _ => Obj.get_erase_self _ _⟩
    · simp [h1, h2, Obj.get_set_self]

/-- C6, at a confirmation that differs from the stored new password. -/
theorem account_confirmPassword_rule_witness :
    (Account.validatePasswordField
        [("currentPassword", []), ("newPassword", lit "Abcdefg1"), ("confirmPassword", [])] []
        "confirmPassword" (lit "Abcdefg2")).1
      = (if lit "Abcdefg2" = [] then
          Obj.set ([] : Obj String) "confirmPassword" "Please confirm your password"
         else if lit "Abcdefg2" ≠ lit "Abcdefg1" then
          Obj.set ([] : Obj String) "confirmPassword" "Passwords don't match"
         else Obj.erase ([] : Obj String) "confirmPassword") ∧
    ((Account.validatePasswordField
        [("currentPassword", []), ("newPassword", lit "Abcdefg1"), ("confirmPassword", [])] []
        "confirmPassword" (lit "Abcdefg2")).1.get "confirmPassword" = none ↔
      lit "Abcdefg2" ≠ [] ∧ lit "Abcdefg2" = lit "Abcdefg1") :=
  account_confirmPassword_rule
    [("currentPassword", []), ("newPassword", lit "Abcdefg1"), ("confirmPassword", [])] []
    (lit "Abcdefg1") (lit "Abcdefg2") (by decide)

/-! ## Field rules shared by the pages -/

theorem not_blank_iff (v : Str) : ¬ trim v = [] ↔ ¬ ∀ c ∈ v, isSpace c = true := by
  rw [trim_eq_nil_iff]

theorem required_then_pattern (errors : Obj String) (key required invalid : String)
    (blank bad : Prop) [Decidable blank] [Decidable bad] :
    ((if blank then errors.set key required
      else if bad then errors.set key invalid else errors.erase key).get key = none)
      ↔ ¬ blank ∧ ¬ bad := by
  by_cases h1 : blank
  · simp [h1, Obj.get_set_self]
  · by_cases h2 : bad
    · simp [h1, h2, Obj.get_set_self]
    · simp [h1, h2, Obj.get_erase_self]

/-- C7: the email validator of Login and Register stores the required message
for a blank value, the invalid-address message for a non-blank value that is not
of the shape `x@y.z` (each part one or more code units other than whitespace and
`@`), and removes the entry otherwise; `not-an-email` is invalid and `a@b.com`
passes. -/
theorem email_rule_chain (errors : Obj String) (v : Str) :
    ((∀ c ∈ v, isSpace c = true) →
      (Login.validateField errors "email" v).1 = errors.set "email" "Email is required" ∧
      (Register.validateField errors "email" v).1 = errors.set "email" "Email is required") ∧
    (¬ (∀ c ∈ v, isSpace c = true) → ¬ Shape.Email v →
      (Login.validateField errors "email" v).1
        = errors.set "email" "Please enter a valid email address" ∧
      (Register.validateField errors "email" v).1
        = errors.set "email" "Please enter a valid email address") ∧
    (¬ (∀ c ∈ v, isSpace c = true) → Shape.Email v →
      (Login.validateField errors "email" v).1 = errors.erase "email" ∧
      (Register.validateField errors "email" v).1 = errors.erase "email") ∧
    (Login.validateField errors "email" (lit "not-an-email")).1
      = errors.set "email" "Please enter a valid email address" ∧
    (Register.validateField errors "email" (lit "not-an-email")).1
      = errors.set "email" "Please enter a valid email address" ∧
    (Login.validateField errors "email" (lit "a@b.com")).1 = errors.erase "email" ∧
    (Register.validateField errors "email" (lit "a@b.com")).1 = errors.erase "email" := by
  have hL : (Login.validateField errors "email" v).1
      = (if trim v = [] then errors.set "email" "Email is required"
         else if (!Login.emailRegex.test v) = true then
           errors.set "email" "Please enter a valid email address"
         else errors.erase "email") := rfl
  have hR : (Register.validateField errors "email" v).1
      = (if trim v = [] then errors.set "email" "Email is required"
         else if (!Register.emailRegex.test v) = true then
           errors.set "email" "Please enter a valid email address"
         else errors.erase "email") := rfl
  have tL := test_eq_false_iff (login_emailRegex_test v)
  have tR := test_eq_false_iff (register_emailRegex_test v)
  refine ⟨?_, ?_, ?_, ?_, ?_, ?_, ?_⟩
  · intro hb
    have hb2 := (trim_eq_nil_iff v).2 hb
    rw [hL, hR, if_pos hb2, if_pos hb2]
    exact ⟨rfl, rfl⟩
  · intro hb hs
    have hb2 := (not_blank_iff v).2 hb
    rw [hL, hR, if_neg hb2, if_neg hb2, if_pos (tL.2 hs), if_pos (tR.2 hs)]
    exact ⟨rfl, rfl⟩
  · intro hb hs
    have hb2 := (not_blank_iff v).2 hb
    rw [hL, hR, if_neg hb2, if_neg hb2, if_neg (fun h => tL.1 h hs), if_neg (fun h => tR.1 h hs)]
    exact ⟨rfl, rfl⟩
  · have h1 : trim (lit "not-an-email") ≠ [] := by decide
    have h2 : Login.emailRegex.test (lit "not-an-email") = false := by decide
    simp [Login.validateField, h1, h2]
  · have h1 : trim (lit "not-an-email") ≠ [] := by decide
    have h2 : Register.emailRegex.test (lit "not-an-email") = false := by decide
    simp [Register.validateField, h1, h2]
  · have h1 : trim (lit "a@b.com") ≠ [] := by decide
    have h2 : Login.emailRegex.test (lit "a@b.com") = true := by decide
    simp [Login.validateField, h1, h2]
  · have h1 : trim (lit "a@b.com") ≠ [] := by decide
    have h2 : Register.emailRegex.test (lit "a@b.com") = true := by decide
    simp [Register.validateField, h1, h2]

/-- C8: the zipCode validator of Checkout and Profile leaves no error exactly
when the value is not blank and its trimmed form is five digits, optionally
followed by `-` and four digits; `1234` is rejected and `12345-6789` accepted. -/
theorem zipCode_rule (errors : Obj String) (v : Str) :
    ((Checkout.validateField errors "zipCode" v).1.get "zipCode" = none ↔
      ¬ (∀ c ∈ v, isSpace c = true) ∧ Shape.Zip (trim v)) ∧
    ((Profile.validateField errors "address.zipCode" v).1.get "address.zipCode" = none ↔
      ¬ (∀ c ∈ v, isSpace c = true) ∧ Shape.Zip (trim v)) ∧
    (Checkout.validateField errors "zipCode" (lit "1234")).1
      = errors.set "zipCode" "Please enter a valid ZIP code (12345 or 12345-6789)" ∧
    (Profile.validateField errors "address.zipCode" (lit "1234")).1
      = errors.set "address.zipCode" "Please enter a valid ZIP code (12345 or 12345-6789)" ∧
    (Checkout.validateField errors "zipCode" (lit "12345-6789")).1 = errors.erase "zipCode" ∧
    (Profile.validateField errors "address.zipCode" (lit "12345-6789")).1
      = errors.erase "address.zipCode" := by
  have hC : (Checkout.validateField errors "zipCode" v).1
      = (if trim v = [] then errors.set "zipCode" "ZIP code is required"
         else if (!Checkout.zipRegex.test (trim v)) = true then
           errors.set "zipCode" "Please enter a valid ZIP code (12345 or 12345-6789)"
         else errors.erase "zipCode") := rfl
  have hP : (Profile.validateField errors "address.zipCode" v).1
      = (if trim v = [] then errors.set "address.zipCode" "ZIP code is required"
         else if (!Profile.zipCodeRegex.test (trim v)) = true then
           errors.set "address.zipCode" "Please enter a valid ZIP code (12345 or 12345-6789)"
         else errors.erase "address.zipCode") := rfl
  have tC := test_eq_false_iff (checkout_zipRegex_test (trim v))
  have tP := test_eq_false_iff (profile_zipCodeRegex_test (trim v))
  refine ⟨?_, ?_, ?_, ?_, ?_, ?_⟩
  · rw [hC, required_then_pattern, not_blank_iff, tC, not_not]
  · rw [hP, required_then_pattern, not_blank_iff, tP, not_not]
  · have h1 : trim (lit "1234") ≠ [] := by decide
    have h2 : Checkout.zipRegex.test (trim (lit "1234")) = false := by decide
    simp [Checkout.validateField, h1, h2]
  · have h1 : trim (lit "1234") ≠ [] := by decide
    have h2 : Profile.zipCodeRegex.test (trim (lit "1234")) = false := by decide
    simp [Profile.validateField, h1, h2]
  · have h1 : trim (lit "12345-6789") ≠ [] := by decide
    have h2 : Checkout.zipRegex.test (trim (lit "12345-6789")) = true := by decide
    simp [Checkout.validateField, h1, h2]
  · have h1 : trim (lit "12345-6789") ≠ [] := by decide
    have h2 : Profile.zipCodeRegex.test (trim (lit "12345-6789")) = true := by decide
    simp [Profile.validateField, h1, h2]

/-- C9: the name validator of Register and Profile reports the first failing
rule of required, trimmed length at least 2, letters and whitespace only; it
leaves no error exactly when the trimmed value consists of 2 to 50 letters or
whitespace code units. -/
theorem name_rule_chain (errors : Obj String) (v : Str) :
    ((∀ c ∈ v, isSpace c = true) →
      (Register.validateField errors "name" v).1 = errors.set "name" "Name is required" ∧
      (Profile.validateField errors "name" v).1 = errors.set "name" "Name is required") ∧
    (¬ (∀ c ∈ v, isSpace c = true) → (trim v).length < 2 →
      (Register.validateField errors "name" v).1
        = errors.set "name" "Name must be at least 2 characters" ∧
      (Profile.validateField errors "name" v).1
        = errors.set "name" "Name must be at least 2 characters") ∧
    (¬ (∀ c ∈ v, isSpace c = true) → 2 ≤ (trim v).length → ¬ Shape.Name (trim v) →
      (Register.validateField errors "name" v).1
        = errors.set "name" "Name can only contain letters and spaces" ∧
      (Profile.validateField errors "name" v).1
        = errors.set "name" "Name can only contain letters and spaces") ∧
    (Shape.Name (trim v) →
      (Register.validateField errors "name" v).1 = errors.erase "name" ∧
      (Profile.validateField errors "name" v).1 = errors.erase "name") ∧
    ((Register.validateField errors "name" v).1.get "name" = none ↔ Shape.Name (trim v)) ∧
    ((Profile.validateField errors "name" v).1.get "name" = none ↔ Shape.Name (trim v)) := by
  have hR : (Register.validateField errors "name" v).1
      = (if trim v = [] then errors.set "name" "Name is required"
         else if (trim v).length < 2 then errors.set "name" "Name must be at least 2 characters"
         else if (!Register.nameRegex.test (trim v)) = true then
           errors.set "name" "Name can only contain letters and spaces"
         else errors.erase "name") := rfl
  have hP : (Profile.validateField errors "name" v).1
      = (if trim v = [] then errors.set "name" "Name is required"
         else if (trim v).length < 2 then errors.set "name" "Name must be at least 2 characters"
         else if (!Profile.nameRegex.test (trim v)) = true then
           errors.set "name" "Name can only contain letters and spaces"
         else errors.erase "name") := rfl
  have tR := test_eq_false_iff (register_nameRegex_test (trim v))
  have tP := test_eq_false_iff (profile_nameRegex_test (trim v))
  have hshape : Shape.Name (trim v) →
      (Register.validateField errors "name" v).1 = errors.erase "name" ∧
      (Profile.validateField errors "name" v).1 = errors.erase "name" := by
    intro hs
    have h1 : ¬ trim v = [] := by
      intro h
      have := hs.1
      rw [h] at this
      simp at this
    have h2 : ¬ (trim v).length < 2 := by have := hs.1; omega
    rw [hR, hP, if_neg h1, if_neg h1, if_neg h2, if_neg h2, if_neg (fun h => tR.1 h hs),
      if_neg (fun h => tP.1 h hs)]
    exact ⟨rfl, rfl⟩
  have hcases : Shape.Name (trim v) ∨
      ((∃ msg, (Register.validateField errors "name" v).1 = errors.set "name" msg) ∧
       (∃ msg, (Profile.validateField errors "name" v).1 = errors.set "name" msg)) := by
    by_cases hs : Shape.Name (trim v)
    · exact Or.inl hs
    · right
      rw [hR, hP]
      by_cases h1 : trim v = []
      · rw [if_pos h1, if_pos h1]
        exact ⟨⟨_, rfl⟩, ⟨_, rfl⟩⟩
      · by_cases h2 : (trim v).length < 2
        · rw [if_neg h1, if_neg h1, if_pos h2, if_pos h2]
          exact ⟨⟨_, rfl⟩, ⟨_, rfl⟩⟩
        · rw [if_neg h1, if_neg h1, if_neg h2, if_neg h2, if_pos (tR.2 hs), if_pos (tP.2 hs)]
          exact ⟨⟨_, rfl⟩, ⟨_, rfl⟩⟩
  refine ⟨?_, ?_, ?_, hshape, ?_, ?_⟩
  · intro hb
    have hb2 := (trim_eq_nil_iff v).2 hb
    rw [hR, hP, if_pos hb2, if_pos hb2]
    exact ⟨rfl, rfl⟩
  · intro hb hlen
    have hb2 := (not_blank_iff v).2 hb
    rw [hR, hP, if_neg hb2, if_neg hb2, if_pos hlen, if_pos hlen]
    exact ⟨rfl, rfl⟩
  · intro hb hlen hs
    have hb2 := (not_blank_iff v).2 hb
    have hlen2 : ¬ (trim v).length < 2 := by omega
    rw [hR, hP, if_neg hb2, if_neg hb2, if_neg hlen2, if_neg hlen2, if_pos (tR.2 hs),
      if_pos (tP.2 hs)]
    exact ⟨rfl, rfl⟩
  · constructor
    · intro h
      rcases hcases with hs | ⟨⟨msg, hm⟩, -⟩
      · exact hs
      · rw [hm, Obj.get_set_self] at h
        exact absurd h (by simp)
    · intro hs
      rw [(hshape hs).1]
      exact Obj.get_erase_self _ _
  · constructor
    · intro h
      rcases hcases with hs | ⟨-, ⟨msg, hm⟩⟩
      · exact hs
      · rw [hm, Obj.get_set_self] at h
        exact absurd h (by simp)
    · intro hs
      rw [(hshape hs).2]
      exact Obj.get_erase_self _ _

theorem egyptPhone_length (w : Str) (h : Shape.EgyptPhone w) :
    w.length = 11 ∨ w.length = 13 ∨ w.length = 14 := by
  obtain ⟨pre, d, rest, hpre, -, hrest, -, rfl⟩ := h
  rcases hpre with rfl | rfl | rfl
  · left
    simp [lit_01, hrest]
  · right; right
    simp [lit_01, lit_plus20, hrest]
  · right; left
    simp [lit_01, lit_20, hrest]

/-- C10: the phone validator of Checkout and Profile stores the required
message for a blank value and the invalid-number message for any other value
that, with whitespace removed, is not an optional `+20` or `20`, then `01`, one
digit of `0125` and eight digits; it leaves no error exactly for the non-blank
values of that shape, which have 11, 13 or 14 code units once whitespace is
removed. -/
theorem egypt_phone_rule (errors : Obj String) (v : Str) :
    ((∀ c ∈ v, isSpace c = true) →
      (Checkout.validateField errors "phone" v).1
        = errors.set "phone" "Phone number is required" ∧
      (Profile.validateField errors "phone" v).1
        = errors.set "phone" "Phone number is required") ∧
    (¬ (∀ c ∈ v, isSpace c = true) → ¬ Shape.EgyptPhone (stripSpaces v) →
      (Checkout.validateField errors "phone" v).1
        = errors.set "phone" "Please enter a valid phone number" ∧
      (Profile.validateField errors "phone" v).1
        = errors.set "phone" "Please enter a valid phone number") ∧
    ((Checkout.validateField errors "phone" v).1.get "phone" = none ↔
      ¬ (∀ c ∈ v, isSpace c = true) ∧ Shape.EgyptPhone (stripSpaces v)) ∧
    ((Profile.validateField errors "phone" v).1.get "phone" = none ↔
      ¬ (∀ c ∈ v, isSpace c = true) ∧ Shape.EgyptPhone (stripSpaces v)) ∧
    ((Checkout.validateField errors "phone" v).1.get "phone" = none →
      (stripSpaces v).length = 11 ∨ (stripSpaces v).length = 13 ∨
        (stripSpaces v).length = 14) := by
  have hC : (Checkout.validateField errors "phone" v).1
      = (if trim v = [] then errors.set "phone" "Phone number is required"
         else if (!Checkout.phoneRegex.test (stripSpaces v)) = true then
           errors.set "phone" "Please enter a valid phone number"
         else errors.erase "phone") := rfl
  have hP : (Profile.validateField errors "phone" v).1
      = (if trim v = [] then errors.set "phone" "Phone number is required"
         else if (!Profile.phoneRegex.test (stripSpaces v)) = true then
           errors.set "phone" "Please enter a valid phone number"
         else errors.erase "phone") := rfl
  have tC := test_eq_false_iff (checkout_phoneRegex_test (stripSpaces v))
  have tP := test_eq_false_iff (profile_phoneRegex_test (stripSpaces v))
  have iC : (Checkout.validateField errors "phone" v).1.get "phone" = none ↔
      ¬ (∀ c ∈ v, isSpace c = true) ∧ Shape.EgyptPhone (stripSpaces v) := by
    rw [hC, required_then_pattern, not_blank_iff, tC, not_not]
  refine ⟨?_, ?_, iC, ?_, ?_⟩
  · intro hb
    have hb2 := (trim_eq_nil_iff v).2 hb
    rw [hC, hP, if_pos hb2, if_pos hb2]
    exact ⟨rfl, rfl⟩
  · intro hb hs
    have hb2 := (not_blank_iff v).2 hb
    rw [hC, hP, if_neg hb2, if_neg hb2, if_pos (tC.2 hs), if_pos (tP.2 hs)]
    exact ⟨rfl, rfl⟩
  · rw [hP, required_then_pattern, not_blank_iff, tP, not_not]
  · intro h
    exact egyptPhone_length _ (iC.1 h).2

/-! ## City and state rules -/

theorem profile_cityRegex_test (t : Str) : Profile.cityRegex.test t = true ↔ Shape.Name t :=
  test_bos name_ends t

theorem profile_stateRegex_test (t : Str) : Profile.stateRegex.test t = true ↔ Shape.Name t :=
  test_bos name_ends t

theorem required_then_short (errors : Obj String) (key required invalid : String) (t : Str) :
    ((if t = [] then errors.set key required
      else if t.length < 2 then errors.set key invalid else errors.erase key).get key ≠ none)
      ↔ t.length < 2 := by
  by_cases h1 : t = []
  · simp [h1, Obj.get_set_self]
  · by_cases h2 : t.length < 2
    · simp [h1, h2, Obj.get_set_self]
    · simp [h1, h2, Obj.get_erase_self]

/-- C11, as stated, fails: Checkout reports an error for the city `A`, which
is not blank. -/
theorem checkout_city_single_letter_rejected :
    ¬ ((Checkout.validateField [] "city" (lit "A")).1.get "city" ≠ none ↔
      ∀ c ∈ lit "A", isSpace c = true) := by
  decide

/-- C11, amended: in Checkout the rules for city and for state are required and
then a trimmed length of at least 2, so an error is reported exactly when the
trimmed value has fewer than 2 code units; the character pattern is applied in
Profile only, where no error is left exactly when the trimmed value consists of
2 to 50 letters or whitespace code units. -/
theorem checkout_city_state_rules (errors : Obj String) (v : Str) :
    ((Checkout.validateField errors "city" v).1.get "city" ≠ none ↔ (trim v).length < 2) ∧
    ((Checkout.validateField errors "state" v).1.get "state" ≠ none ↔ (trim v).length < 2) ∧
    ((∀ c ∈ v, isSpace c = true) →
      (Checkout.validateField errors "city" v).1 = errors.set "city" "City is required" ∧
      (Checkout.validateField errors "state" v).1 = errors.set "state" "State is required") ∧
    (¬ (∀ c ∈ v, isSpace c = true) → (trim v).length < 2 →
      (Checkout.validateField errors "city" v).1
        = errors.set "city" "Please enter a valid city" ∧
      (Checkout.validateField errors "state" v).1
        = errors.set "state" "Please enter a valid state") ∧
    ((Profile.validateField errors "address.city" v).1.get "address.city" = none ↔
      ¬ (∀ c ∈ v, isSpace c = true) ∧ Shape.Name (trim v)) ∧
    ((Profile.validateField errors "address.state" v).1.get "address.state" = none ↔
      ¬ (∀ c ∈ v, isSpace c = true) ∧ Shape.Name (trim v)) := by
  have hC : (Checkout.validateField errors "city" v).1
      = (if trim v = [] then errors.set "city" "City is required"
         else if (trim v).length < 2 then errors.set "city" "Please enter a valid city"
         else errors.erase "city") := rfl
  have hS : (Checkout.validateField errors "state" v).1
      = (if trim v = [] then errors.set "state" "State is required"
         else if (trim v).length < 2 then errors.set "state" "Please enter a valid state"
         else errors.erase "state") := rfl
  have hPC : (Profile.validateField errors "address.city" v).1
      = (if trim v = [] then errors.set "address.city" "City is required"
         else if (!Profile.cityRegex.test (trim v)) = true then
           errors.set "address.city" "Please enter a valid city name"
         else errors.erase "address.city") := rfl
  have hPS : (Profile.validateField errors "address.state" v).1
      = (if trim v = [] then errors.set "address.state" "State is required"
         else if (!Profile.stateRegex.test (trim v)) = true then
           errors.set "address.state" "Please enter a valid state"
         else errors.erase "address.state") := rfl
  have tC := test_eq_false_iff (profile_cityRegex_test (trim v))
  have tS := test_eq_false_iff (profile_stateRegex_test (trim v))
  refine ⟨?_, ?_, ?_, ?_, ?_, ?_⟩
  · rw [hC]
    exact required_then_short _ _ _ _ _
  · rw [hS]
    exact required_then_short _ _ _ _ _
  · intro hb
    have hb2 := (trim_eq_nil_iff v).2 hb
    rw [hC, hS, if_pos hb2, if_pos hb2]
    exact ⟨rfl, rfl⟩
  · intro hb hlen
    have hb2 := (not_blank_iff v).2 hb
    rw [hC, hS, if_neg hb2, if_neg hb2, if_pos hlen, if_pos hlen]
    exact ⟨rfl, rfl⟩
  · rw [hPC, required_then_pattern, not_blank_iff, tC, not_not]
  · rw [hPS, required_then_pattern, not_blank_iff, tS, not_not]

/-! ## Password strength -/

theorem searchFrom_single_cls (n : Nat) (q : Nat → Bool) :
    ∀ s : Str, searchFrom n (seqs [cls q]) s = s.any q := by
  intro s
  induction s with
  | nil => rfl
  | cons c t ih =>
    simp only [searchFrom, ih, List.any_cons]
    simp [seqs, run]

theorem test_single_cls (q : Nat → Bool) (s : Str) : (seqs [cls q]).test s = s.any q :=
  searchFrom_single_cls s.length q s

theorem register_strength_formula (p : Str) :
    Register.getPasswordStrength p
      = (if 8 ≤ p.length then 1 else 0) + (if p.any isLower = true then 1 else 0)
        + (if p.any isUpper = true then 1 else 0) + (if p.any isDigit = true then 1 else 0)
        + (if p.any (oneOf "@$!%*?&") = true then 1 else 0) := by
  simp only [Register.getPasswordStrength, test_single_cls, ge_iff_le]
  split_ifs <;> rfl

theorem register_strength_le (p : Str) : Register.getPasswordStrength p ≤ 5 := by
  rw [register_strength_formula]
  split_ifs <;> omega

/-- C12: `getPasswordStrength` counts the satisfied rules among length at least
8, a lowercase letter, an uppercase letter, a digit and one of `@$!%*?&`, so it is
at most 5; the copies of Register and Account agree, `Password1!` scores 5 and
`password` scores 2. -/
theorem getPasswordStrength_counts_rules (p : Str) :
    Register.getPasswordStrength p
      = (if 8 ≤ p.length then 1 else 0) + (if p.any isLower = true then 1 else 0)
        + (if p.any isUpper = true then 1 else 0) + (if p.any isDigit = true then 1 else 0)
        + (if p.any (oneOf "@$!%*?&") = true then 1 else 0) ∧
    Register.getPasswordStrength p ≤ 5 ∧
    Account.getPasswordStrength p = Register.getPasswordStrength p ∧
    Register.getPasswordStrength (lit "Password1!") = 5 ∧
    Register.getPasswordStrength (lit "password") = 2 := by
  exact ⟨register_strength_formula p, register_strength_le p, rfl, by decide, by decide⟩

/-- C13: the label shown for a password is the entry of `strengthLabels` at
index score - 1, score 0 falling back to `Very Weak`; the label is always one of
the five, score 5 shows `Strong` and score 2 shows `Weak`. -/
theorem strengthLabel_clamped (p : Str) :
    Register.strengthLabel (Register.getPasswordStrength p) ∈ Register.strengthLabels ∧
    (1 ≤ Register.getPasswordStrength p →
      Register.strengthLabels[Register.getPasswordStrength p - 1]?
        = some (Register.strengthLabel (Register.getPasswordStrength p))) ∧
    (Register.getPasswordStrength p = 0 →
      Register.strengthLabel (Register.getPasswordStrength p) = "Very Weak") ∧
    Register.strengthLabel 5 = "Strong" ∧
    Register.strengthLabel 2 = "Weak" ∧
    Register.strengthLabel (Register.getPasswordStrength (lit "Password1!")) = "Strong" ∧
    Register.strengthLabel (Register.getPasswordStrength (lit "password")) = "Weak" := by
  have hle : Register.getPasswordStrength p ≤ 5 := register_strength_le p
  have hall : ∀ n : Nat, n ≤ 5 →
      Register.strengthLabel n ∈ Register.strengthLabels ∧
      (1 ≤ n → Register.strengthLabels[n - 1]? = some (Register.strengthLabel n)) ∧
      (n = 0 → Register.strengthLabel n = "Very Weak") := by
    intro n hn
    interval_cases n <;> decide
  obtain ⟨h1, h2, h3⟩ := hall _ hle
  exact ⟨h1, h2, h3, by decide, by decide, by decide, by decide⟩

/-! ## Sanitizers -/

theorem removeAll_idem (q : Nat → Bool) (s : Str) : removeAll q (removeAll q s) = removeAll q s := by
  simp [removeAll, List.filter_filter]

theorem register_sanitize_idem (f : String) (x : Str) :
    Register.sanitize f (Register.sanitize f x) = Register.sanitize f x := by
  unfold Register.sanitize
  split_ifs <;> first | exact removeAll_idem _ _ | rfl

theorem checkout_sanitize_idem (f : String) (x : Str) :
    Checkout.sanitize f (Checkout.sanitize f x) = Checkout.sanitize f x := by
  unfold Checkout.sanitize
  split_ifs <;> first | exact removeAll_idem _ _ | rfl

theorem profile_sanitize_idem (f : String) (x : Str) :
    Profile.sanitize f (Profile.sanitize f x) = Profile.sanitize f x := by
  unfold Profile.sanitize
  split_ifs <;> first | exact removeAll_idem _ _ | rfl

/-- C14: the sanitizers of the change handlers of Register, Checkout and Profile
are idempotent on every field. -/
theorem sanitize_idempotent (f : String) (x : Str) :
    Register.sanitize f (Register.sanitize f x) = Register.sanitize f x ∧
    Checkout.sanitize f (Checkout.sanitize f x) = Checkout.sanitize f x ∧
    Profile.sanitize f (Profile.sanitize f x) = Profile.sanitize f x :=
  ⟨register_sanitize_idem f x, checkout_sanitize_idem f x, profile_sanitize_idem f x⟩

theorem removeAll_letters (raw : Str) :
    removeAll (fun c => !(isLower c || isUpper c || isSpace c)) raw
      = raw.filter (fun c => isLetter c || isSpace c) := by
  simp [removeAll, isLetter]

/-- C15, as stated, fails: Checkout stores the city `N1` as typed, digit
included. -/
theorem checkout_city_stored_unsanitized :
    (Checkout.handleAddressChange (Checkout.initial [] []) "city" (lit "N1")).shippingAddress.get
        "city" = some (lit "N1") ∧
    (Checkout.handleAddressChange (Checkout.initial [] []) "city" (lit "N1")).shippingAddress.get
        "city" ≠ some ((lit "N1").filter (fun c => isLetter c || isSpace c)) ∧
    ¬ (∀ c ∈ lit "N1", isLetter c = true ∨ isSpace c = true) := by
  decide

/-- C15, amended: the name stored by the change handlers of Register, Checkout
and Profile, and the city and the state stored by the one of Profile, are the raw
input with every code unit other than a letter or whitespace removed; Checkout
stores the city and the state as typed. -/
theorem stored_name_city_state (r : Register.State) (c : Checkout.State) (p : Profile.State)
    (raw : Str) :
    (Register.handleChange r "name" raw).formData.get "name"
      = some (raw.filter (fun x => isLetter x || isSpace x)) ∧
    (Checkout.handleAddressChange c "name" raw).shippingAddress.get "name"
      = some (raw.filter (fun x => isLetter x || isSpace x)) ∧
    (Profile.handleInputChange p "name" raw false false).profile.get "name"
      = some (.str (raw.filter (fun x => isLetter x || isSpace x))) ∧
    (Profile.handleInputChange p "address.city" raw false false).profile.get "address.city"
      = some (.str (raw.filter (fun x => isLetter x || isSpace x))) ∧
    (Profile.handleInputChange p "address.state" raw false false).profile.get "address.state"
      = some (.str (raw.filter (fun x => isLetter x || isSpace x))) ∧
    (Checkout.handleAddressChange c "city" raw).shippingAddress.get "city" = some raw ∧
    (Checkout.handleAddressChange c "state" raw).shippingAddress.get "state" = some raw := by
  have hR : Register.sanitize "name" raw = raw.filter (fun x => isLetter x || isSpace x) :=
    removeAll_letters raw
  have hC : Checkout.sanitize "name" raw = raw.filter (fun x => isLetter x || isSpace x) :=
    removeAll_letters raw
  have hP1 : Profile.sanitize "name" raw = raw.filter (fun x => isLetter x || isSpace x) :=
    removeAll_letters raw
  have hP2 : Profile.sanitize "address.city" raw
      = raw.filter (fun x => isLetter x || isSpace x) := removeAll_letters raw
  have hP3 : Profile.sanitize "address.state" raw
      = raw.filter (fun x => isLetter x || isSpace x) := removeAll_letters raw
  have hC2 : Checkout.sanitize "city" raw = raw := rfl
  have hC3 : Checkout.sanitize "state" raw = raw := rfl
  refine ⟨?_, ?_, ?_, ?_, ?_, ?_, ?_⟩
  · simp only [Register.handleChange, Obj.get_set_self, hR]
  · simp only [Checkout.handleAddressChange, Obj.get_set_self, hC]
  · simp only [Profile.handleInputChange, Obj.get_set_self, hP1]
    rfl
  · simp only [Profile.handleInputChange, Obj.get_set_self, hP2]
    rfl
  · simp only [Profile.handleInputChange, Obj.get_set_self, hP3]
    rfl
  · simp only [Checkout.handleAddressChange, Obj.get_set_self, hC2]
  · simp only [Checkout.handleAddressChange, Obj.get_set_self, hC3]

/-! ## Change of an untouched field -/

/-- C19: a change event on a field that is not touched stores the sanitized
value and leaves the error map and the touched map as they were, in Login and in
Register. -/
theorem change_untouched_keeps_errors (l : Login.State) (r : Register.State) (name : String)
    (value : Str) (hl : truthy (l.touched.get name) = false)
    (hr : truthy (r.touched.get name) = false) :
    Login.handleChange l name value = { l with formData := l.formData.set name value } ∧
    (Login.handleChange l name value).errors = l.errors ∧
    (Login.handleChange l name value).touched = l.touched ∧
    Register.handleChange r name value
      = { r with formData := r.formData.set name (Register.sanitize name value) } ∧
    (Register.handleChange r name value).errors = r.errors ∧
    (Register.handleChange r name value).touched = r.touched := by
  simp [Login.handleChange, Register.handleChange, hl, hr]

/-- C19, at a change of the untouched email of the freshly mounted forms. -/
theorem change_untouched_keeps_errors_witness :
    Login.handleChange Login.initial "email" (lit "a@b")
      = { Login.initial with formData := Login.initial.formData.set "email" (lit "a@b") } ∧
    (Login.handleChange Login.initial "email" (lit "a@b")).errors = Login.initial.errors ∧
    (Login.handleChange Login.initial "email" (lit "a@b")).touched = Login.initial.touched ∧
    Register.handleChange Register.initial "email" (lit "a@b")
      = { Register.initial with
          formData := Register.initial.formData.set "email"
            (Register.sanitize "email" (lit "a@b")) } ∧
    (Register.handleChange Register.initial "email" (lit "a@b")).errors
      = Register.initial.errors ∧
    (Register.handleChange Register.initial "email" (lit "a@b")).touched
      = Register.initial.touched :=
  change_untouched_keeps_errors Login.initial Register.initial "email" (lit "a@b")
    (by decide) (by decide)

/-! ## The change-password form: what an event validates -/

theorem account_validate_get_other (passwordData : Obj Str) (passwordErrors : Obj String)
    (f g : String) (v : Str) (hne : f ≠ g) :
    (Account.validatePasswordField passwordData passwordErrors f v).1.get g
      = passwordErrors.get g := by
  unfold Account.validatePasswordField
  simp only []
  split <;> first
    | rfl
    | (split_ifs <;> first
        | exact Obj.get_set_ne _ _ _ _ hne
        | exact Obj.get_erase_ne _ _ _ hne)

theorem account_validate_get_self (passwordData : Obj Str) (passwordErrors : Obj String)
    (f : String) (v : Str) (hf : f ∈ Account.fields) :
    ((Account.validatePasswordField passwordData passwordErrors f v).1.get f).isSome
      = Account.failsRules passwordData f v := by
  simp only [Account.fields, List.mem_cons, List.mem_singleton, List.not_mem_nil, or_false] at hf
  rcases hf with rfl | rfl | rfl
  · simp only [Account.validatePasswordField, Account.failsRules]
    split_ifs with h1 <;> simp [Obj.get_set_self, Obj.get_erase_self, h1]
  · simp only [Account.validatePasswordField, Account.failsRules]
    split_ifs with h1 h2 h3 h4 <;>
      simp_all [Obj.get_set_self, Obj.get_erase_self]
  · simp only [Account.validatePasswordField, Account.failsRules]
    split_ifs with h1 h2 <;> simp_all [Obj.get_set_self, Obj.get_erase_self]

theorem truthy_set_true (o : Obj Bool) (k : String) : truthy ((o.set k true).get k) = true := by
  rw [Obj.get_set_self]
  rfl

theorem account_failsRules_set (passwordData : Obj Str) (f : String) (v w : Str) :
    Account.failsRules (passwordData.set f w) f v = Account.failsRules passwordData f v := by
  unfold Account.failsRules
  split
  · rfl
  · rw [Obj.get_set_ne _ _ _ _ (by decide)]
  · rw [Obj.get_set_ne _ _ _ _ (by decide)]
  · rfl

/-- C17, as stated, fails: after the user types and leaves a valid new password
and then types the same text as current password, the new password is touched,
equals the current password and has no entry in the error map. -/
theorem account_newPassword_not_revalidated :
    (∀ ev ∈ Account.currentTypedAfterNew, ev.isInput = true) ∧
    Account.consistent (Account.runEvents Account.initial Account.currentTypedAfterNew) = false ∧
    truthy ((Account.runEvents Account.initial Account.currentTypedAfterNew).touchedPassword.get
      "newPassword") = true ∧
    (Account.runEvents Account.initial Account.currentTypedAfterNew).passwordErrors.get
      "newPassword" = none ∧
    Account.failsRules
      (Account.runEvents Account.initial Account.currentTypedAfterNew).passwordData
      "newPassword" (lit "Abcdefg1") = true := by
  decide

/-- C17, amended: a blur of a field, and a change of a touched field other than
a change of the new password while the confirmation is touched, leave that field
with an entry in the error map exactly when its stored value fails its rule chain
against the stored values; the entries of the other fields stay as they were, and
a change of an untouched field leaves the error map as it was. -/
theorem account_event_validates_its_field (s : Account.State) (f : String) (v : Str)
    (hf : f ∈ Account.fields) :
    (truthy ((Account.step s (.blur f)).touchedPassword.get f) = true ∧
      ((Account.step s (.blur f)).passwordErrors.get f).isSome
        = Account.failsRules (Account.step s (.blur f)).passwordData f
            (((Account.step s (.blur f)).passwordData.get f).getD []) ∧
      ∀ g, f ≠ g → (Account.step s (.blur f)).passwordErrors.get g = s.passwordErrors.get g) ∧
    (truthy (s.touchedPassword.get f) = true →
      ¬ (f = "newPassword" ∧ truthy (s.touchedPassword.get "confirmPassword") = true) →
      ((Account.step s (.change f v)).passwordErrors.get f).isSome
        = Account.failsRules (Account.step s (.change f v)).passwordData f
            (((Account.step s (.change f v)).passwordData.get f).getD []) ∧
      ∀ g, f ≠ g →
        (Account.step s (.change f v)).passwordErrors.get g = s.passwordErrors.get g) ∧
    (truthy (s.touchedPassword.get f) = false →
      ¬ (f = "newPassword" ∧ truthy (s.touchedPassword.get "confirmPassword") = true) →
      (Account.step s (.change f v)).passwordErrors = s.passwordErrors) := by
  refine ⟨⟨?_, ?_, ?_⟩, ?_, ?_⟩
  · exact truthy_set_true _ _
  · exact account_validate_get_self _ _ _ _ hf
  · intro g hg
    exact account_validate_get_other _ _ _ _ _ hg
  · intro ht hc
    have hstep : (Account.step s (.change f v)).passwordErrors
        = (Account.validatePasswordField s.passwordData s.passwordErrors f v).1 := by
      simp only [Account.step, Account.handlePasswordInputChange, ht, if_true, if_neg hc]
    have hdata : (Account.step s (.change f v)).passwordData = s.passwordData.set f v := rfl
    rw [hstep, hdata, Obj.get_set_self, account_failsRules_set]
    exact ⟨account_validate_get_self _ _ _ _ hf,
      fun g hg => account_validate_get_other _ _ _ _ _ hg⟩
  · intro ht hc
    simp [Account.step, Account.handlePasswordInputChange, ht, hc]

/-- C17, amended, at a blur of the empty new password of the initial form. -/
theorem account_event_validates_its_field_witness :
    truthy ((Account.step Account.initial (.blur "newPassword")).touchedPassword.get
      "newPassword") = true ∧
    ((Account.step Account.initial (.blur "newPassword")).passwordErrors.get
        "newPassword").isSome
      = Account.failsRules (Account.step Account.initial (.blur "newPassword")).passwordData
          "newPassword"
          (((Account.step Account.initial (.blur "newPassword")).passwordData.get
            "newPassword").getD []) :=
  ⟨(account_event_validates_its_field Account.initial "newPassword" (lit "abc")
      (by decide)).1.1,
    (account_event_validates_its_field Account.initial "newPassword" (lit "abc")
      (by decide)).1.2.1⟩

/-! ## The change-password form: reset after a successful submission -/

/-- C20: when the submission passes validation, so that `changePassword` is
called, and the call resolves, whatever events happened in between, the three
values are empty, the touched map and the error map are empty and the submitting
flag is false. -/
theorem account_reset_after_success (s : Account.State) (between : List Account.Event)
    (hsent : (Account.handlePasswordChange s).request ≠ none) :
    (Account.submitAndSettle s between true).passwordData.get "currentPassword" = some [] ∧
    (Account.submitAndSettle s between true).passwordData.get "newPassword" = some [] ∧
    (Account.submitAndSettle s between true).passwordData.get "confirmPassword" = some [] ∧
    (Account.submitAndSettle s between true).touchedPassword = [] ∧
    (Account.submitAndSettle s between true).passwordErrors = [] ∧
    (Account.submitAndSettle s between true).changingPassword = false ∧
    Account.submitAndSettle s between true = Account.initial := by
  have h : Account.submitAndSettle s between true = Account.initial := by
    unfold Account.submitAndSettle
    cases hr : (Account.handlePasswordChange s).request with
    | none => exact absurd hr hsent
    | some payload => rfl
  rw [h]
  exact ⟨rfl, rfl, rfl, rfl, rfl, rfl, rfl⟩

/-- C20, at the form filled in with a valid change and submitted. -/
theorem account_reset_after_success_witness :
    (Account.handlePasswordChange
      (Account.runEvents Account.initial Account.filledWithoutBlur)).state.changingPassword
        = true ∧
    Account.submitAndSettle (Account.runEvents Account.initial Account.filledWithoutBlur)
      [.change "newPassword" (lit "x")] true = Account.initial :=
  ⟨by decide,
    (account_reset_after_success (Account.runEvents Account.initial Account.filledWithoutBlur)
      [.change "newPassword" (lit "x")] (by decide)).2.2.2.2.2.2⟩

/-! ## Validated values and the sanitizers -/

theorem stored_fixed_after_set (sanitize : String → Str → Str)
    (idem : ∀ f x, sanitize f (sanitize f x) = sanitize f x) (o : Obj Str)
    (name key : String) (value : Str)
    (h : sanitize key ((o.get key).getD []) = (o.get key).getD []) :
    sanitize key (((o.set name (sanitize name value)).get key).getD [])
      = ((o.set name (sanitize name value)).get key).getD [] := by
  by_cases hk : name = key
  · subst hk
    rw [Obj.get_set_self]
    exact idem _ _
  · rw [Obj.get_set_ne _ _ _ _ hk]
    exact h

theorem register_sanitize_other (k : String) (v : Str) (h1 : k ≠ "name") (h2 : k ≠ "phone") :
    Register.sanitize k v = v := by
  simp [Register.sanitize, h1, h2]

theorem checkout_sanitize_other (k : String) (v : Str) (h1 : k ≠ "name") (h2 : k ≠ "phone")
    (h3 : k ≠ "zipCode") : Checkout.sanitize k v = v := by
  simp [Checkout.sanitize, h1, h2, h3]

theorem profile_sanitize_other (k : String) (v : Str) (h1 : k ≠ "name") (h2 : k ≠ "phone")
    (h3 : k ≠ "address.zipCode") (h4 : k ≠ "address.city") (h5 : k ≠ "address.state") :
    Profile.sanitize k v = v := by
  simp [Profile.sanitize, h1, h2, h3, h4, h5]

theorem register_initial_clean : RegisterClean Register.initial := by
  intro k
  by_cases h1 : k = "name"
  · subst h1; decide
  · by_cases h2 : k = "phone"
    · subst h2; decide
    · exact register_sanitize_other k _ h1 h2

theorem register_step_clean (s : Register.State) (ev : Register.Event) (h : RegisterClean s) :
    RegisterClean (Register.step s ev) := by
  cases ev with
  | change name value =>
    intro k
    exact stored_fixed_after_set Register.sanitize register_sanitize_idem
      s.formData name k value (h k)
  | blur name => exact h
  | submit =>
    intro k
    have : (Register.step s .submit).formData = s.formData := by
      simp only [Register.step, Register.handleSubmit]
      split_ifs <;> rfl
    rw [this]
    exact h k
  | resolved => exact h
  | rejected message => exact h

theorem register_run_clean (evs : List Register.Event) :
    ∀ s, RegisterClean s → RegisterClean (Register.runEvents s evs) := by
  induction evs with
  | nil => intro s h; exact h
  | cons ev evs ih =>
    intro s h
    exact ih _ (register_step_clean s ev h)

theorem register_calls_clean (s : Register.State) (ev : Register.Event) (h : RegisterClean s) :
    ∀ call ∈ Register.validateCalls s ev, Register.sanitize call.1 call.2 = call.2 := by
  intro call hc
  cases ev with
  | change name value =>
    simp only [Register.validateCalls] at hc
    split_ifs at hc
    · simp only [List.mem_singleton] at hc
      subst hc
      exact register_sanitize_idem name value
    · simp at hc
  | blur name =>
    simp only [Register.validateCalls, List.mem_singleton] at hc
    subst hc
    exact h name
  | submit =>
    simp only [Register.validateCalls, List.mem_map] at hc
    obtain ⟨key, -, rfl⟩ := hc
    exact h key
  | resolved => simp [Register.validateCalls] at hc
  | rejected message => simp [Register.validateCalls] at hc

theorem checkout_initial_clean (userName userPhone : Str)
    (hname : Checkout.sanitize "name" userName = userName)
    (hphone : Checkout.sanitize "phone" userPhone = userPhone) :
    CheckoutClean (Checkout.initial userName userPhone) := by
  intro k
  by_cases h1 : k = "name"
  · subst h1; exact hname
  · by_cases h2 : k = "phone"
    · subst h2; exact hphone
    · by_cases h3 : k = "zipCode"
      · subst h3; rfl
      · exact checkout_sanitize_other k _ h1 h2 h3

theorem checkout_step_clean (s : Checkout.State) (ev : Checkout.Event) (h : CheckoutClean s) :
    CheckoutClean (Checkout.step s ev) := by
  cases ev with
  | change name value =>
    intro k
    exact stored_fixed_after_set Checkout.sanitize checkout_sanitize_idem
      s.shippingAddress name k value (h k)
  | blur name => exact h
  | submit =>
    intro k
    have : (Checkout.step s .submit).shippingAddress = s.shippingAddress := by
      simp only [Checkout.step, Checkout.handleSubmit]
      split_ifs <;> rfl
    rw [this]
    exact h k
  | settled => exact h
  | delivery value => exact h
  | payment value => exact h

theorem checkout_run_clean (evs : List Checkout.Event) :
    ∀ s, CheckoutClean s → CheckoutClean (Checkout.runEvents s evs) := by
  induction evs with
  | nil => intro s h; exact h
  | cons ev evs ih =>
    intro s h
    exact ih _ (checkout_step_clean s ev h)

theorem checkout_calls_clean (s : Checkout.State) (ev : Checkout.Event) (h : CheckoutClean s) :
    ∀ call ∈ Checkout.validateCalls s ev, Checkout.sanitize call.1 call.2 = call.2 := by
  intro call hc
  cases ev with
  | change name value =>
    simp only [Checkout.validateCalls] at hc
    split_ifs at hc
    · simp only [List.mem_singleton] at hc
      subst hc
      exact checkout_sanitize_idem name value
    · simp at hc
  | blur name =>
    simp only [Checkout.validateCalls, List.mem_singleton] at hc
    subst hc
    exact h name
  | submit =>
    simp only [Checkout.validateCalls, List.mem_map] at hc
    obtain ⟨key, -, rfl⟩ := hc
    exact h key
  | settled => simp [Checkout.validateCalls] at hc
  | delivery value => simp [Checkout.validateCalls] at hc
  | payment value => simp [Checkout.validateCalls] at hc

theorem profile_clean_of_flag (profile : Obj Profile.Val) (h : Profile.clean profile = true) :
    ProfileClean profile := by
  simp only [Profile.clean, List.all_cons, List.all_nil, Bool.and_true, Bool.and_eq_true,
    beq_iff_eq] at h
  obtain ⟨h1, h2, h3, h4, h5⟩ := h
  intro k
  by_cases k1 : k = "name"
  · subst k1; exact h1
  · by_cases k2 : k = "phone"
    · subst k2; exact h2
    · by_cases k3 : k = "address.zipCode"
      · subst k3; exact h3
      · by_cases k4 : k = "address.city"
        · subst k4; exact h4
        · by_cases k5 : k = "address.state"
          · subst k5; exact h5
          · exact profile_sanitize_other k _ k1 k2 k3 k4 k5

theorem profile_sanitize_nil (k : String) : Profile.sanitize k [] = [] := by
  unfold Profile.sanitize
  split_ifs <;> rfl

theorem profile_textAt_set (profile : Obj Profile.Val) (name key : String) (x : Profile.Val) :
    Profile.textAt (profile.set name x) key
      = if name = key then (match x with | .str v => v | .bool _ => [])
        else Profile.textAt profile key := by
  by_cases hk : name = key
  · subst hk
    simp only [Profile.textAt, Obj.get_set_self, if_true]
    cases x <;> rfl
  · simp only [Profile.textAt, Obj.get_set_ne _ _ _ _ hk, if_neg hk]

theorem profile_step_clean (s : Profile.State) (ev : Profile.Event) (h : ProfileClean s.profile)
    (hev : ev.cleanData = true) : ProfileClean (Profile.step s ev).profile := by
  cases ev with
  | fetched data => exact profile_clean_of_flag data hev
  | fetchFailed => exact h
  | change name value checkbox checked =>
    intro k
    simp only [Profile.step, Profile.handleInputChange]
    rw [profile_textAt_set]
    by_cases hk : name = k
    · subst hk
      rw [if_pos rfl]
      cases checkbox
      · exact profile_sanitize_idem name value
      · exact profile_sanitize_nil name
    · rw [if_neg hk]
      exact h k
  | blur name => exact h
  | submit =>
    have : (Profile.step s .submit).profile = s.profile := by
      simp only [Profile.step, Profile.handleSubmit]
      split_ifs <;> rfl
    rw [this]
    exact h
  | settled => exact h

theorem profile_run_clean (evs : List Profile.Event) :
    ∀ s : Profile.State, ProfileClean s.profile → (∀ ev ∈ evs, ev.cleanData = true) →
      ProfileClean (Profile.runEvents s evs).profile := by
  induction evs with
  | nil => intro s h _; exact h
  | cons ev evs ih =>
    intro s h hall
    exact ih _ (profile_step_clean s ev h (hall ev (by simp)))
      (fun e he => hall e (by simp [he]))

theorem profile_inputValue_clean (profile : Obj Profile.Val) (name : String)
    (h : ProfileClean profile) :
    Profile.sanitize name (Profile.inputValue profile name) = Profile.inputValue profile name := by
  unfold Profile.inputValue
  by_cases hn : name = "address.country"
  · subst hn
    rfl
  · rw [if_neg hn]
    exact h name

theorem profile_calls_clean (s : Profile.State) (ev : Profile.Event)
    (h : ProfileClean s.profile) :
    ∀ call ∈ Profile.validateCalls s ev, Profile.sanitize call.1 call.2 = call.2 := by
  intro call hc
  cases ev with
  | fetched data => simp [Profile.validateCalls] at hc
  | fetchFailed => simp [Profile.validateCalls] at hc
  | change name value checkbox checked =>
    simp only [Profile.validateCalls] at hc
    split_ifs at hc
    · simp only [List.mem_singleton] at hc
      subst hc
      exact profile_sanitize_idem name value
    · simp at hc
  | blur name =>
    simp only [Profile.validateCalls, List.mem_singleton] at hc
    subst hc
    exact profile_inputValue_clean _ _ h
  | submit =>
    simp only [Profile.validateCalls, List.mem_map] at hc
    obtain ⟨key, -, rfl⟩ := hc
    exact h key
  | settled => simp [Profile.validateCalls] at hc

/-- C16, as stated, fails for pre-filled values: with the name `Jane O'Neil`
taken from the user context, the submit-time pass of Checkout validates it as
loaded, and Profile validates a fetched name `Anne-Marie` on blur; neither is a
fixed point of the name sanitizer. -/
theorem prefilled_value_validated_unsanitized :
    (¬ ∀ call ∈ Checkout.validateCalls (Checkout.initial (lit "Jane O'Neil") []) .submit,
        Checkout.sanitize call.1 call.2 = call.2) ∧
    (¬ ∀ call ∈ Profile.validateCalls
          (Profile.runEvents Profile.initial [.fetched [("name", .str (lit "Anne-Marie"))]])
          (.blur "name"),
        Profile.sanitize call.1 call.2 = call.2) := by
  decide

/-- C16, amended: in every state of Register, and in every state of Checkout
and Profile reached from a user context and from fetched profiles whose name,
phone, zip code, city and state are fixed points of their sanitizers, every value
that a change, a blur or the submit-time pass hands to `validateField` is a fixed
point of the sanitizer of its field. -/
theorem validated_values_are_sanitized
    (revs : List Register.Event) (rev : Register.Event)
    (userName userPhone : Str) (cevs : List Checkout.Event) (cev : Checkout.Event)
    (pevs : List Profile.Event) (pev : Profile.Event)
    (hname : Checkout.sanitize "name" userName = userName)
    (hphone : Checkout.sanitize "phone" userPhone = userPhone)
    (hdata : ∀ ev ∈ pevs, ev.cleanData = true) :
    (∀ call ∈ Register.validateCalls (Register.runEvents Register.initial revs) rev,
      Register.sanitize call.1 call.2 = call.2) ∧
    (∀ call ∈ Checkout.validateCalls
        (Checkout.runEvents (Checkout.initial userName userPhone) cevs) cev,
      Checkout.sanitize call.1 call.2 = call.2) ∧
    (∀ call ∈ Profile.validateCalls (Profile.runEvents Profile.initial pevs) pev,
      Profile.sanitize call.1 call.2 = call.2) :=
  ⟨register_calls_clean _ _ (register_run_clean revs _ register_initial_clean),
    checkout_calls_clean _ _
      (checkout_run_clean cevs _ (checkout_initial_clean userName userPhone hname hphone)),
    profile_calls_clean _ _
      (profile_run_clean pevs _ (profile_clean_of_flag _ (by decide)) hdata)⟩

/-- C16, amended, at forms in which a raw name was typed and the field left,
at submission. -/
theorem validated_values_are_sanitized_witness :
    (∀ call ∈ Register.validateCalls
        (Register.runEvents Register.initial [.change "name" (lit "J4ne"), .blur "name"])
        .submit,
      Register.sanitize call.1 call.2 = call.2) ∧
    (∀ call ∈ Checkout.validateCalls
        (Checkout.runEvents (Checkout.initial (lit "Jane Doe") (lit "01012345678"))
          [.change "zipCode" (lit "12a45"), .blur "zipCode"]) .submit,
      Checkout.sanitize call.1 call.2 = call.2) ∧
    (∀ call ∈ Profile.validateCalls
        (Profile.runEvents Profile.initial
          [.fetched [("name", .str (lit "Jane Doe"))],
            .change "address.city" (lit "Cairo 2") false false]) .submit,
      Profile.sanitize call.1 call.2 = call.2) :=
  validated_values_are_sanitized
    [.change "name" (lit "J4ne"), .blur "name"] .submit
    (lit "Jane Doe") (lit "01012345678") [.change "zipCode" (lit "12a45"), .blur "zipCode"] .submit
    [.fetched [("name", .str (lit "Jane Doe"))],
      .change "address.city" (lit "Cairo 2") false false] .submit
    (by decide) (by decide) (by decide)

/-! ## The derived validity flag -/

theorem keys_length_zero_iff {α : Type} (o : Obj α) :
    ((Obj.keys o).length == 0) = true ↔ ∀ k, o.get k = none := by
  cases o with
  | nil => simp [Obj.keys, Obj.get_nil]
  | cons e t =>
    simp only [Obj.keys, List.map_cons, List.length_cons, beq_iff_eq, Nat.succ_ne_zero,
      false_iff, not_forall]
    exact ⟨e.1, by rw [Obj.get_cons, if_pos rfl]; simp⟩

theorem mem_keys_iff {α : Type} (o : Obj α) (k : String) :
    k ∈ Obj.keys o ↔ o.get k ≠ none := by
  induction o with
  | nil => simp [Obj.keys, Obj.get_nil]
  | cons e t ih =>
    rw [Obj.get_cons]
    by_cases h : e.1 = k
    · simp [Obj.keys, h]
    · have h2 : ¬ k = e.1 := fun x => h x.symm
      simp only [Obj.keys, List.map_cons, List.mem_cons, h2, false_or, if_neg h]
      exact ih

theorem get_set_ne_none_iff {α : Type} (o : Obj α) (k j : String) (v : α) :
    (o.set k v).get j ≠ none ↔ (k = j ∨ o.get j ≠ none) := by
  by_cases h : k = j
  · subst h
    simp [Obj.get_set_self]
  · rw [Obj.get_set_ne _ _ _ _ h]
    simp [h]

theorem hasKeys_set {α : Type} (names : List String) (o : Obj α) (k : String) (v : α)
    (h : HasKeys names o) (hk : k ∈ names) : HasKeys names (o.set k v) := by
  intro j
  rw [get_set_ne_none_iff]
  constructor
  · rintro (rfl | hj)
    · exact hk
    · exact (h j).1 hj
  · intro hj
    exact Or.inr ((h j).2 hj)

theorem keysWithin_nil (names : List String) : KeysWithin names ([] : Obj String) := by
  intro k hk
  exact absurd (Obj.get_nil k) hk

theorem foldl_validate_fst (g : String → Obj String × Bool) (P : Obj String → Prop)
    (hg : ∀ key, P (g key).1) :
    ∀ (l : List String) (acc : Obj String × Bool), P acc.1 →
      P (l.foldl (fun acc key => ((g key).1, if !(g key).2 then false else acc.2)) acc).1 := by
  intro l
  induction l with
  | nil => intro acc h; exact h
  | cons a l ih =>
    intro acc _
    rw [List.foldl_cons]
    exact ih _ (hg a)

theorem valid_flag_iff (names : List String) (data : Obj Str) (errors : Obj String)
    (P : Str → Bool) (hd : HasKeys names data) (he : KeysWithin names errors) :
    (((Obj.keys errors).length == 0) &&
        (Obj.keys data).all (fun key => P ((data.get key).getD []))) = true ↔
      ∀ f ∈ names, P ((data.get f).getD []) = true ∧ errors.get f = none := by
  rw [Bool.and_eq_true, keys_length_zero_iff, List.all_eq_true]
  constructor
  · rintro ⟨h1, h2⟩ f hf
    exact ⟨h2 f ((mem_keys_iff data f).2 ((hd f).2 hf)), h1 f⟩
  · intro h
    constructor
    · intro k
      by_contra hk
      exact hk (h k (he k hk)).2
    · intro k hk
      exact (h k ((hd k).1 ((mem_keys_iff data k).1 hk))).1

theorem account_validate_unknown (passwordData : Obj Str) (passwordErrors : Obj String)
    (name : String) (v : Str) (h : name ∉ Account.fields) :
    (Account.validatePasswordField passwordData passwordErrors name v).1 = passwordErrors := by
  unfold Account.validatePasswordField
  simp only []
  split
  · exact absurd (by decide) h
  · exact absurd (by decide) h
  · exact absurd (by decide) h
  · rfl

theorem account_validate_keys (passwordData : Obj Str) (passwordErrors : Obj String)
    (name : String) (v : Str) (h : KeysWithin Account.fields passwordErrors) :
    KeysWithin Account.fields
      (Account.validatePasswordField passwordData passwordErrors name v).1 := by
  intro k hk
  by_cases hkn : name = k
  · subst hkn
    by_cases hf : name ∈ Account.fields
    · exact hf
    · rw [account_validate_unknown _ _ _ _ hf] at hk
      exact h name hk
  · rw [account_validate_get_other _ _ _ _ _ hkn] at hk
    exact h k hk

theorem account_reset_hasKeys :
    HasKeys Account.fields
      ([("currentPassword", []), ("newPassword", []), ("confirmPassword", [])] : Obj Str) := by
  intro k
  simp only [Obj.get_cons, Obj.get_nil, Account.fields, List.mem_cons, List.mem_singleton,
    List.not_mem_nil, or_false]
  by_cases h1 : "currentPassword" = k
  · simp [h1]
  · by_cases h2 : "newPassword" = k
    · simp [h2]
    · by_cases h3 : "confirmPassword" = k
      · simp [h3]
      · have e1 : ¬ k = "currentPassword" := fun x => h1 x.symm
        have e2 : ¬ k = "newPassword" := fun x => h2 x.symm
        have e3 : ¬ k = "confirmPassword" := fun x => h3 x.symm
        simp [h1, h2, h3, e1, e2, e3]

theorem account_step_keys (s : Account.State) (ev : Account.Event)
    (hd : HasKeys Account.fields s.passwordData)
    (he : KeysWithin Account.fields s.passwordErrors) (hev : ev.fromForm = true) :
    HasKeys Account.fields (Account.step s ev).passwordData ∧
      KeysWithin Account.fields (Account.step s ev).passwordErrors := by
  cases ev with
  | change name value =>
    have hn : name ∈ Account.fields := by simpa [Account.Event.fromForm] using hev
    refine ⟨hasKeys_set _ _ _ _ hd hn, ?_⟩
    simp only [Account.step, Account.handlePasswordInputChange]
    split_ifs <;> first | exact account_validate_keys _ _ _ _ he | exact he
  | blur name => exact ⟨hd, account_validate_keys _ _ _ _ he⟩
  | submit =>
    have h1 : (Account.step s .submit).passwordData = s.passwordData := by
      simp only [Account.step, Account.handlePasswordChange]
      split_ifs <;> rfl
    have h2 : (Account.step s .submit).passwordErrors = (Account.validateAll s).1 := by
      simp only [Account.step, Account.handlePasswordChange]
      split_ifs <;> rfl
    rw [h1, h2]
    refine ⟨hd, ?_⟩
    exact foldl_validate_fst
      (fun key => Account.validatePasswordField s.passwordData s.passwordErrors key
        ((s.passwordData.get key).getD []))
      (KeysWithin Account.fields) (fun key => account_validate_keys _ _ _ _ he) _ _ he
  | resolved => exact ⟨account_reset_hasKeys, keysWithin_nil _⟩
  | rejected => exact ⟨hd, he⟩
  | cancel => exact ⟨account_reset_hasKeys, keysWithin_nil _⟩

theorem account_run_keys (evs : List Account.Event) :
    ∀ s : Account.State, HasKeys Account.fields s.passwordData →
      KeysWithin Account.fields s.passwordErrors → (∀ ev ∈ evs, ev.fromForm = true) →
      HasKeys Account.fields (Account.runEvents s evs).passwordData ∧
        KeysWithin Account.fields (Account.runEvents s evs).passwordErrors := by
  induction evs with
  | nil => intro s hd he _; exact ⟨hd, he⟩
  | cons ev evs ih =>
    intro s hd he hall
    have h := account_step_keys s ev hd he (hall ev (by simp))
    exact ih _ h.1 h.2 (fun e hx => hall e (by simp [hx]))

theorem checkout_validate_get_other (errors : Obj String) (f g : String) (v : Str)
    (hne : f ≠ g) : (Checkout.validateField errors f v).1.get g = errors.get g := by
  unfold Checkout.validateField
  simp only []
  split <;> first
    | rfl
    | (split_ifs <;> first
        | exact Obj.get_set_ne _ _ _ _ hne
        | exact Obj.get_erase_ne _ _ _ hne)

theorem checkout_validate_unknown (errors : Obj String) (name : String) (v : Str)
    (h : name ∉ Checkout.fields) : (Checkout.validateField errors name v).1 = errors := by
  unfold Checkout.validateField
  simp only []
  split <;> first
    | rfl
    | exact absurd (by decide) h

theorem checkout_validate_keys (errors : Obj String) (name : String) (v : Str)
    (h : KeysWithin Checkout.fields errors) :
    KeysWithin Checkout.fields (Checkout.validateField errors name v).1 := by
  intro k hk
  by_cases hkn : name = k
  · subst hkn
    by_cases hf : name ∈ Checkout.fields
    · exact hf
    · rw [checkout_validate_unknown _ _ _ hf] at hk
      exact h name hk
  · rw [checkout_validate_get_other _ _ _ _ hkn] at hk
    exact h k hk

theorem checkout_initial_hasKeys (userName userPhone : Str) :
    HasKeys Checkout.fields (Checkout.initial userName userPhone).shippingAddress := by
  intro k
  simp only [Checkout.initial, Obj.get_cons, Obj.get_nil, Checkout.fields, List.mem_cons,
    List.mem_singleton, List.not_mem_nil, or_false]
  constructor
  · intro h
    split_ifs at h with h1 h2 h3 h4 h5 h6 h7
    · exact Or.inl h1.symm
    · exact Or.inr (Or.inl h2.symm)
    · exact Or.inr (Or.inr (Or.inl h3.symm))
    · exact Or.inr (Or.inr (Or.inr (Or.inl h4.symm)))
    · exact Or.inr (Or.inr (Or.inr (Or.inr (Or.inl h5.symm))))
    · exact Or.inr (Or.inr (Or.inr (Or.inr (Or.inr (Or.inl h6.symm)))))
    · exact Or.inr (Or.inr (Or.inr (Or.inr (Or.inr (Or.inr h7.symm)))))
    · exact absurd rfl h
  · intro h
    rcases h with rfl | rfl | rfl | rfl | rfl | rfl | rfl <;> simp

theorem checkout_step_keys (s : Checkout.State) (ev : Checkout.Event)
    (hd : HasKeys Checkout.fields s.shippingAddress)
    (he : KeysWithin Checkout.fields s.errors) (hev : ev.fromForm = true) :
    HasKeys Checkout.fields (Checkout.step s ev).shippingAddress ∧
      KeysWithin Checkout.fields (Checkout.step s ev).errors := by
  cases ev with
  | change name value =>
    have hn : name ∈ Checkout.fields := by simpa [Checkout.Event.fromForm] using hev
    refine ⟨hasKeys_set _ _ _ _ hd hn, ?_⟩
    simp only [Checkout.step, Checkout.handleAddressChange]
    split_ifs <;> first | exact checkout_validate_keys _ _ _ he | exact he
  | blur name => exact ⟨hd, checkout_validate_keys _ _ _ he⟩
  | submit =>
    have h1 : (Checkout.step s .submit).shippingAddress = s.shippingAddress := by
      simp only [Checkout.step, Checkout.handleSubmit]
      split_ifs <;> rfl
    have h2 : (Checkout.step s .submit).errors = (Checkout.validateAll s).1 := by
      simp only [Checkout.step, Checkout.handleSubmit]
      split_ifs <;> rfl
    rw [h1, h2]
    refine ⟨hd, ?_⟩
    exact foldl_validate_fst
      (fun key => Checkout.validateField s.errors key ((s.shippingAddress.get key).getD []))
      (KeysWithin Checkout.fields) (fun key => checkout_validate_keys _ _ _ he) _ _ he
  | settled => exact ⟨hd, he⟩
  | delivery value => exact ⟨hd, he⟩
  | payment value => exact ⟨hd, he⟩

theorem checkout_run_keys (evs : List Checkout.Event) :
    ∀ s : Checkout.State, HasKeys Checkout.fields s.shippingAddress →
      KeysWithin Checkout.fields s.errors → (∀ ev ∈ evs, ev.fromForm = true) →
      HasKeys Checkout.fields (Checkout.runEvents s evs).shippingAddress ∧
        KeysWithin Checkout.fields (Checkout.runEvents s evs).errors := by
  induction evs with
  | nil => intro s hd he _; exact ⟨hd, he⟩
  | cons ev evs ih =>
    intro s hd he hall
    have h := checkout_step_keys s ev hd he (hall ev (by simp))
    exact ih _ h.1 h.2 (fun e hx => hall e (by simp [hx]))

/-- C18, as stated, fails: a change-password form and a Checkout form filled in
without leaving any field have the flag true while no field is touched. -/
theorem valid_flag_without_touched_fields :
    (∀ ev ∈ Account.filledWithoutBlur, ev.fromForm = true) ∧
    Account.isPasswordFormValid (Account.runEvents Account.initial Account.filledWithoutBlur)
      = true ∧
    (Account.runEvents Account.initial Account.filledWithoutBlur).touchedPassword = [] ∧
    (∀ ev ∈ Checkout.filledWithoutBlur, ev.fromForm = true) ∧
    Checkout.isFormValid (Checkout.runEvents (Checkout.initial [] []) Checkout.filledWithoutBlur)
      = true ∧
    (Checkout.runEvents (Checkout.initial [] []) Checkout.filledWithoutBlur).touched = [] := by
  decide

/-- C18, amended: in every reachable state the flag of the change-password form
is true exactly when each of its three fields holds a non-empty value and has no
entry in the error map, and the flag of Checkout is true exactly when each
address field holds a non-blank value and has no entry in the error map and a
payment method is selected; whether a field is touched is not consulted. -/
theorem valid_flag_ignores_touched (aevs : List Account.Event) (userName userPhone : Str)
    (cevs : List Checkout.Event) (ha : ∀ ev ∈ aevs, ev.fromForm = true)
    (hc : ∀ ev ∈ cevs, ev.fromForm = true) :
    (Account.isPasswordFormValid (Account.runEvents Account.initial aevs) = true ↔
      ∀ f ∈ Account.fields,
        ((Account.runEvents Account.initial aevs).passwordData.get f).getD [] ≠ [] ∧
        (Account.runEvents Account.initial aevs).passwordErrors.get f = none) ∧
    (Checkout.isFormValid (Checkout.runEvents (Checkout.initial userName userPhone) cevs) = true ↔
      (∀ f ∈ Checkout.fields,
        trim (((Checkout.runEvents (Checkout.initial userName userPhone)
          cevs).shippingAddress.get f).getD []) ≠ [] ∧
        (Checkout.runEvents (Checkout.initial userName userPhone) cevs).errors.get f = none) ∧
      (Checkout.runEvents (Checkout.initial userName userPhone) cevs).paymentMethod ≠ []) := by
  have hA := account_run_keys aevs Account.initial account_reset_hasKeys (keysWithin_nil _) ha
  have hC := checkout_run_keys cevs (Checkout.initial userName userPhone)
    (checkout_initial_hasKeys userName userPhone) (keysWithin_nil _) hc
  constructor
  · unfold Account.isPasswordFormValid
    rw [valid_flag_iff Account.fields _ _ (fun v => v != []) hA.1 hA.2]
    simp only [bne_iff_ne, ne_eq]
  · unfold Checkout.isFormValid
    rw [Bool.and_eq_true,
      valid_flag_iff Checkout.fields _ _ (fun v => trim v != []) hC.1 hC.2]
    simp only [bne_iff_ne, ne_eq]

/-- C18, amended, at the forms filled in without leaving any field. -/
theorem valid_flag_ignores_touched_witness :
    (Account.isPasswordFormValid (Account.runEvents Account.initial Account.filledWithoutBlur)
        = true ↔
      ∀ f ∈ Account.fields,
        ((Account.runEvents Account.initial Account.filledWithoutBlur).passwordData.get
          f).getD [] ≠ [] ∧
        (Account.runEvents Account.initial Account.filledWithoutBlur).passwordErrors.get f
          = none) ∧
    (Checkout.isFormValid (Checkout.runEvents (Checkout.initial [] []) Checkout.filledWithoutBlur)
        = true ↔
      (∀ f ∈ Checkout.fields,
        trim (((Checkout.runEvents (Checkout.initial [] [])
          Checkout.filledWithoutBlur).shippingAddress.get f).getD []) ≠ [] ∧
        (Checkout.runEvents (Checkout.initial [] []) Checkout.filledWithoutBlur).errors.get f
          = none) ∧
      (Checkout.runEvents (Checkout.initial [] []) Checkout.filledWithoutBlur).paymentMethod
        ≠ []) :=
  valid_flag_ignores_touched Account.filledWithoutBlur [] [] Checkout.filledWithoutBlur
    (by decide) (by decide)

/-! ## A rejected submission -/

theorem login_submit_keeps_formData (s : Login.State) :
    (Login.handleSubmit s).state.formData = s.formData := by
  simp only [Login.handleSubmit]
  split_ifs <;> rfl

theorem register_submit_keeps_formData (s : Register.State) :
    (Register.handleSubmit s).state.formData = s.formData := by
  simp only [Register.handleSubmit]
  split_ifs <;> rfl

theorem login_settle_rejected (s : Login.State) (between : List Login.Event)
    (message : Option String) (h : (Login.handleSubmit s).request ≠ none) :
    Login.submitAndSettle s between (.rejected message)
      = ⟨Login.submitRejected (Login.runEvents (Login.handleSubmit s).state between)
          message, false⟩ := by
  unfold Login.submitAndSettle
  cases hr : (Login.handleSubmit s).request with
  | none => exact absurd hr h
  | some payload => rfl

theorem register_settle_rejected (s : Register.State) (between : List Register.Event)
    (message : Option String) (h : (Register.handleSubmit s).request ≠ none) :
    Register.submitAndSettle s between (.rejected message)
      = ⟨Register.submitRejected
          (Register.runEvents (Register.handleSubmit s).state between) message, false⟩ := by
  unfold Register.submitAndSettle
  cases hr : (Register.handleSubmit s).request with
  | none => exact absurd hr h
  | some payload => rfl

/-- C21, as stated, fails for a rejection value that is `null` or `undefined`:
the `catch` block throws at `err.response`, so that after the valid Login and
Register forms are submitted no form-level error is set and the exception leaves
the handler. -/
theorem nullish_rejection_escapes :
    (Login.handleSubmit Login.validForm).request ≠ none ∧
    (Login.submitAndSettle Login.validForm [] .rejectedNullish).escaped = true ∧
    (Login.submitAndSettle Login.validForm [] .rejectedNullish).state.errors.get "submit"
      = none ∧
    (Register.handleSubmit Register.validForm).request ≠ none ∧
    (Register.submitAndSettle Register.validForm [] .rejectedNullish).escaped = true ∧
    (Register.submitAndSettle Register.validForm [] .rejectedNullish).state.errors.get "submit"
      = none := by
  decide

/-- C21, amended: when a Login or Register submission passes validation and the
backend call rejects with an error object, the handler completes without an
exception leaving it; the stored values are the ones present when the call
settles (the submitted ones when nothing was typed meanwhile), the submitting
flag is false, and the error map holds under `submit` the message of the
rejection when it has a non-empty one and the fallback of the page otherwise. -/
theorem rejected_submission_keeps_values (l : Login.State) (r : Register.State)
    (lb : List Login.Event) (rb : List Register.Event) (message : Option String)
    (hl : (Login.handleSubmit l).request ≠ none)
    (hr : (Register.handleSubmit r).request ≠ none) :
    (Login.submitAndSettle l lb (.rejected message)
      = ⟨{ Login.runEvents (Login.handleSubmit l).state lb with
            errors := [("submit",
              match message with
              | some m => if m = "" then "Invalid email or password" else m
              | none => "Invalid email or password")]
            isLoading := false }, false⟩) ∧
    Login.submitAndSettle l [] (.rejected message)
      = ⟨{ formData := l.formData
           errors := [("submit", orElse message "Invalid email or password")]
           touched := (Login.handleSubmit l).state.touched
           isLoading := false }, false⟩ ∧
    (Register.submitAndSettle r rb (.rejected message)
      = ⟨{ Register.runEvents (Register.handleSubmit r).state rb with
            errors := [("submit",
              match message with
              | some m => if m = "" then "Registration failed. Please try again." else m
              | none => "Registration failed. Please try again.")]
            isLoading := false }, false⟩) ∧
    Register.submitAndSettle r [] (.rejected message)
      = ⟨{ formData := r.formData
           errors := [("submit", orElse message "Registration failed. Please try again.")]
           touched := (Register.handleSubmit r).state.touched
           isLoading := false }, false⟩ := by
  refine ⟨?_, ?_, ?_, ?_⟩
  · rw [login_settle_rejected l lb message hl]
    rfl
  · rw [login_settle_rejected l [] message hl]
    simp only [Login.submitRejected, Login.runEvents, List.foldl_nil,
      login_submit_keeps_formData]
  · rw [register_settle_rejected r rb message hr]
    rfl
  · rw [register_settle_rejected r [] message hr]
    simp only [Register.submitRejected, Register.runEvents, List.foldl_nil,
      register_submit_keeps_formData]

/-- C21, amended, at the valid forms whose call rejects with an error that has
no message. -/
theorem rejected_submission_keeps_values_witness :
    Login.submitAndSettle Login.validForm [] (.rejected none)
      = ⟨{ formData := Login.validForm.formData
           errors := [("submit", orElse none "Invalid email or password")]
           touched := (Login.handleSubmit Login.validForm).state.touched
           isLoading := false }, false⟩ ∧
    Register.submitAndSettle Register.validForm [] (.rejected none)
      = ⟨{ formData := Register.validForm.formData
           errors := [("submit", orElse none "Registration failed. Please try again.")]
           touched := (Register.handleSubmit Register.validForm).state.touched
           isLoading := false }, false⟩ :=
  ⟨(rejected_submission_keeps_values Login.validForm Register.validForm [] [] none
      (by decide) (by decide)).2.1,
   (rejected_submission_keeps_values Login.validForm Register.validForm [] [] none
      (by decide) (by decide)).2.2.2⟩

/-! ## Buy again -/

/-- The number of the calls for `items`, the first of which is call `n`, that
resolve with a truthy value. -/
theorem addEach_spec (addToCart : Nat → Orders.Item → Orders.AddResult) :
    ∀ (items : List Orders.Item) (n : Nat) (t : Orders.Tally),
      (Orders.addEach addToCart n items t).successCount
        = t.successCount
          + ((items.enumFrom n).countP (fun p => addToCart p.1 p.2 = .resolved true)) ∧
      (Orders.addEach addToCart n items t).failCount
        = t.failCount
          + ((items.enumFrom n).countP (fun p => ¬ addToCart p.1 p.2 = .resolved true)) ∧
      (Orders.addEach addToCart n items t).calls
        = t.calls ++ items.map (fun item => (item.productId, item.quantity)) := by
  intro items
  induction items with
  | nil => intro n t; simp [Orders.addEach]
  | cons item rest ih =>
    intro n t
    obtain ⟨h1, h2, h3⟩ := ih (n + 1) (Orders.addOne t item (addToCart n item))
    simp only [Orders.addEach, h1, h2, h3, List.enumFrom_cons, List.countP_cons, List.map_cons]
    cases hr : addToCart n item with
    | resolved success =>
      cases success <;> simp [Orders.addOne] <;> omega
    | threw => simp [Orders.addOne]; omega

theorem buyAgain_counts (order : Orders.Order)
    (addToCart : Nat → Orders.Item → Orders.AddResult) :
    (Orders.handleBuyAgain order addToCart).tally.successCount
      = (order.items.enum.countP (fun p => addToCart p.1 p.2 = .resolved true)) ∧
    (Orders.handleBuyAgain order addToCart).tally.successCount
      + (Orders.handleBuyAgain order addToCart).tally.failCount = order.items.length ∧
    (Orders.handleBuyAgain order addToCart).tally.calls
      = order.items.map (fun item => (item.productId, item.quantity)) := by
  have htally : (Orders.handleBuyAgain order addToCart).tally
      = Orders.addEach addToCart 0 order.items
          { successCount := 0, failCount := 0, calls := [] } := by
    simp only [Orders.handleBuyAgain]
    split_ifs <;> rfl
  obtain ⟨h1, h2, h3⟩ := addEach_spec addToCart order.items 0
    { successCount := 0, failCount := 0, calls := [] }
  rw [htally, h1, h2, h3]
  refine ⟨by simp [List.enum], ?_, by simp⟩
  have hlen := List.length_eq_countP_add_countP
    (fun p : Nat × Orders.Item => decide (addToCart p.1 p.2 = .resolved true))
    (order.items.enumFrom 0)
  simp only [List.enumFrom_length] at hlen
  simp only [Nat.zero_add]
  rw [hlen]
  congr 1
  apply List.countP_congr
  intro p _
  simp

/-- C22: `handleBuyAgain` reports the all-added toast exactly when
`successCount` equals the number of items, the partially-added toast with
`successCount` of the total exactly when `0 < successCount < total`, and the
failure toast exactly when `successCount = 0 < total`; with three items of which
one add fails, whichever and however, it reports 2 of 3 as partially added. -/
theorem buyAgain_report (order : Orders.Order)
    (addToCart : Nat → Orders.Item → Orders.AddResult) :
    ((Orders.handleBuyAgain order addToCart).report.title = "All items added to cart!" ↔
      (Orders.handleBuyAgain order addToCart).tally.successCount = order.items.length) ∧
    ((Orders.handleBuyAgain order addToCart).report
        = .partiallyAdded (Orders.handleBuyAgain order addToCart).tally.successCount
            order.items.length ↔
      0 < (Orders.handleBuyAgain order addToCart).tally.successCount ∧
      (Orders.handleBuyAgain order addToCart).tally.successCount < order.items.length) ∧
    ((Orders.handleBuyAgain order addToCart).report.title = "Partially added to cart" ↔
      0 < (Orders.handleBuyAgain order addToCart).tally.successCount ∧
      (Orders.handleBuyAgain order addToCart).tally.successCount < order.items.length) ∧
    ((Orders.handleBuyAgain order addToCart).report.title
        = "Failed to add items to cart. Please try again." ↔
      (Orders.handleBuyAgain order addToCart).tally.successCount = 0 ∧
      0 < order.items.length) ∧
    (Orders.handleBuyAgain Orders.threeItems
        (fun n _ => if n = 0 then .threw else .resolved true)).report
      = .partiallyAdded 2 3 ∧
    (Orders.handleBuyAgain Orders.threeItems
        (fun n _ => if n = 1 then .resolved false else .resolved true)).report
      = .partiallyAdded 2 3 ∧
    (Orders.handleBuyAgain Orders.threeItems
        (fun n _ => if n = 2 then .threw else .resolved true)).report
      = .partiallyAdded 2 3 := by
  have hle : (Orders.handleBuyAgain order addToCart).tally.successCount ≤ order.items.length := by
    have := (buyAgain_counts order addToCart).2.1
    omega
  have htally : (Orders.handleBuyAgain order addToCart).tally
      = Orders.addEach addToCart 0 order.items
          { successCount := 0, failCount := 0, calls := [] } := by
    simp only [Orders.handleBuyAgain]
    split_ifs <;> rfl
  rw [htally] at hle ⊢
  refine ⟨?_, ?_, ?_, ?_, by decide, by decide, by decide⟩
  · simp only [Orders.handleBuyAgain]
    split_ifs with h1 h2
    · simp [Orders.Report.title, h1]
    · simp [Orders.Report.title, h1]
    · simp [Orders.Report.title, h1]
  · simp only [Orders.handleBuyAgain]
    split_ifs with h1 h2
    · simp [h1]
    · simp only [true_iff]
      exact ⟨h2, by omega⟩
    · simp only [false_iff, not_and]
      intro h
      exact absurd h h2
  · simp only [Orders.handleBuyAgain]
    split_ifs with h1 h2
    · simp [Orders.Report.title, h1]
    · simp only [Orders.Report.title, true_iff]
      exact ⟨h2, by omega⟩
    · simp only [Orders.Report.title]
      constructor
      · intro h
        exact absurd h (by decide)
      · rintro ⟨h3, -⟩
        exact absurd h3 h2
  · simp only [Orders.handleBuyAgain]
    split_ifs with h1 h2
    · simp only [Orders.Report.title]
      constructor
      · intro h
        exact absurd h (by decide)
      · rintro ⟨h3, h4⟩
        omega
    · simp only [Orders.Report.title]
      constructor
      · intro h
        exact absurd h (by decide)
      · rintro ⟨h3, h4⟩
        omega
    · simp only [Orders.Report.title, true_iff]
      omega

/-- C23: `handleBuyAgain` calls `addToCart` once for every line item, in
order, whatever the earlier calls did; at the end `successCount + failCount` is
the number of items and `successCount` the number of calls that resolved with a
truthy value. -/
theorem buyAgain_attempts_every_item (order : Orders.Order)
    (addToCart : Nat → Orders.Item → Orders.AddResult) :
    (Orders.handleBuyAgain order addToCart).tally.calls
      = order.items.map (fun item => (item.productId, item.quantity)) ∧
    (Orders.handleBuyAgain order addToCart).tally.successCount
      + (Orders.handleBuyAgain order addToCart).tally.failCount = order.items.length ∧
    (Orders.handleBuyAgain order addToCart).tally.successCount
      = (order.items.enum.countP (fun p => addToCart p.1 p.2 = .resolved true)) :=
  ⟨(buyAgain_counts order addToCart).2.2, (buyAgain_counts order addToCart).2.1,
    (buyAgain_counts order addToCart).1⟩

/-- C30: for an order without line items `handleBuyAgain` makes no `addToCart`
call and reports the all-added toast, with both counters 0. -/
theorem buyAgain_empty_order (id : Str) (addToCart : Nat → Orders.Item → Orders.AddResult) :
    (Orders.handleBuyAgain { id := id, items := [] } addToCart).tally.calls = [] ∧
    (Orders.handleBuyAgain { id := id, items := [] } addToCart).tally.successCount = 0 ∧
    (Orders.handleBuyAgain { id := id, items := [] } addToCart).tally.failCount = 0 ∧
    (Orders.handleBuyAgain { id := id, items := [] } addToCart).report
      = .allAdded 0 (id.drop (id.length - 8)) ∧
    (Orders.handleBuyAgain { id := id, items := [] } addToCart).report.title
      = "All items added to cart!" :=
  ⟨rfl, rfl, rfl, rfl, rfl⟩

/-! ## Forgot password -/

theorem orElse_ne_empty (message : Option String) (fallback : String) (h : fallback ≠ "") :
    orElse message fallback ≠ "" := by
  unfold orElse
  cases message with
  | none => exact h
  | some m =>
    simp only []
    split_ifs with hm
    · exact h
    · exact hm

/-- C24, as stated, fails when `forgotPassword` resolves with `null` or
`undefined`: reading `response.emailData` throws into the outer `catch`, so the
form ends with the fallback error and `isSuccess` false although the call did
not reject. -/
theorem forgotPassword_nullish_response_fails :
    (ForgotPassword.handleSubmit ForgotPassword.initial .resolvedNullish true).state.isSuccess
      = false ∧
    (ForgotPassword.handleSubmit ForgotPassword.initial .resolvedNullish true).state.error
      = "An error occurred. Please try again later." ∧
    (ForgotPassword.handleSubmit ForgotPassword.initial .resolvedNullish true).state.isLoading
      = false := by
  decide

/-- C24, amended: whenever `forgotPassword` resolves with a response object,
the form ends with `isSuccess` true, an empty error and `isLoading` false and no
exception leaves the handler, whether the email call is made or not and whether
it resolves or rejects; a rejection of `forgotPassword` with an error object sets
the form-level error to its message or the fallback, which is not empty, leaves
`isSuccess` as it was and makes no email call. -/
theorem forgotPassword_success_despite_email (s : ForgotPassword.State)
    (emailData : Option ForgotPassword.EmailData) (emailSent : Bool)
    (message : Option String) :
    (ForgotPassword.handleSubmit s (.resolved emailData) emailSent).state
      = { s with isSuccess := true, error := "", isLoading := false } ∧
    (ForgotPassword.handleSubmit s (.resolved emailData) emailSent).emailCalls
      = emailData.toList ∧
    (ForgotPassword.handleSubmit s (.resolved emailData) emailSent).escaped = false ∧
    (ForgotPassword.handleSubmit s (.rejected message) emailSent).state
      = { s with
          error := orElse message "An error occurred. Please try again later."
          isLoading := false } ∧
    (ForgotPassword.handleSubmit s (.rejected message) emailSent).state.error ≠ "" ∧
    (ForgotPassword.handleSubmit s (.rejected message) emailSent).state.isSuccess
      = s.isSuccess ∧
    (ForgotPassword.handleSubmit s (.rejected message) emailSent).emailCalls = [] ∧
    (ForgotPassword.handleSubmit s (.rejected message) emailSent).escaped = false := by
  refine ⟨?_, ?_, ?_, rfl, ?_, rfl, rfl, rfl⟩
  · cases emailData <;> cases emailSent <;> rfl
  · cases emailData <;> cases emailSent <;> rfl
  · cases emailData <;> cases emailSent <;> rfl
  · exact orElse_ne_empty message _ (by decide)

/-! ## The contract of the validators -/

theorem validate_flag_iff (errors produced : Obj String) (f : String)
    (hother : ∀ g, f ≠ g → produced.get g = errors.get g) :
    ((Obj.keys produced).length == 0) = true ↔
      produced.get f = none ∧ ∀ g, f ≠ g → errors.get g = none := by
  rw [keys_length_zero_iff]
  constructor
  · intro h
    exact ⟨h f, fun g hg => by rw [← hother g hg]; exact h g⟩
  · rintro ⟨h1, h2⟩ k
    by_cases hk : f = k
    · rw [← hk]; exact h1
    · rw [hother k hk]; exact h2 k hk

theorem obj_eq_nil_iff {α : Type} (o : Obj α) : o = [] ↔ ((Obj.keys o).length == 0) = true := by
  cases o <;> simp [Obj.keys]

theorem login_validate_get_other (errors : Obj String) (f g : String) (v : Str)
    (hne : f ≠ g) : (Login.validateField errors f v).1.get g = errors.get g := by
  unfold Login.validateField
  simp only []
  split <;> first
    | rfl
    | (split_ifs <;> first
        | exact Obj.get_set_ne _ _ _ _ hne
        | exact Obj.get_erase_ne _ _ _ hne)

theorem login_validate_unknown (errors : Obj String) (name : String) (v : Str)
    (h : name ∉ Login.fields) : (Login.validateField errors name v).1 = errors := by
  unfold Login.validateField
  simp only []
  split <;> first
    | rfl
    | exact absurd (by decide) h

theorem register_validate_get_other (errors : Obj String) (f g : String) (v : Str)
    (hne : f ≠ g) : (Register.validateField errors f v).1.get g = errors.get g := by
  unfold Register.validateField
  simp only []
  split <;> first
    | rfl
    | (split_ifs <;> first
        | exact Obj.get_set_ne _ _ _ _ hne
        | exact Obj.get_erase_ne _ _ _ hne)

theorem register_validate_unknown (errors : Obj String) (name : String) (v : Str)
    (h : name ∉ Register.fields) : (Register.validateField errors name v).1 = errors := by
  unfold Register.validateField
  simp only []
  split <;> first
    | rfl
    | exact absurd (by decide) h

theorem generic_phone_ends :
    Ends (seqs [opt (chr '+'), cls (fun c => 49 ≤ c && c ≤ 57), range (cls isDigit) 0 15, eos])
      Shape.GenericPhone := by
  refine ends_congr (ends_seq (rec_opt (rec_chr '+')) (ends_seq (rec_cls _)
    (ends_seq (rec_range_cls isDigit 0 15 (by decide)) ends_eos))) ?_
  intro w
  have hplus : lit "+" = ['+'.toNat] := by decide
  constructor
  · rintro ⟨pre, r, rfl, hpre, _, r2, rfl, ⟨d, rfl, hd⟩, rest, _, rfl, ⟨-, hlen, hall⟩, rfl⟩
    refine ⟨pre, d, rest, ?_, by simpa using hd, hlen, hall, by simp⟩
    rcases hpre with rfl | rfl
    · exact Or.inl hplus.symm
    · exact Or.inr rfl
  · rintro ⟨pre, d, rest, hpre, hd, hlen, hall, rfl⟩
    refine ⟨pre, d :: rest, rfl, ?_, [d], rest, rfl, ⟨d, rfl, by simpa using hd⟩, rest, [],
      by simp, ⟨Nat.zero_le _, hlen, hall⟩, rfl⟩
    rcases hpre with rfl | rfl
    · exact Or.inl hplus
    · exact Or.inr rfl

theorem register_phoneRegex_test (w : Str) :
    Register.phoneRegex.test w = true ↔ Shape.GenericPhone w :=
  test_bos generic_phone_ends w

theorem checkout_nameRegex_test (t : Str) : Checkout.nameRegex.test t = true ↔ Shape.Name t :=
  test_bos name_ends t

theorem firstOf_exists : ∀ rules : List (Prop × String), ∃ m, firstOf rules m := by
  intro rules
  induction rules with
  | nil => exact ⟨none, rfl⟩
  | cons rule rest ih =>
    obtain ⟨m, hm⟩ := ih
    by_cases h : rule.1
    · exact ⟨some rule.2, Or.inl ⟨h, rfl⟩⟩
    · exact ⟨m, Or.inr ⟨h, hm⟩⟩

theorem firstOf_unique : ∀ (rules : List (Prop × String)) (m m' : Option String),
    firstOf rules m → firstOf rules m' → m' = m := by
  intro rules
  induction rules with
  | nil =>
    intro m m' h h'
    simp only [firstOf] at h h'
    rw [h, h']
  | cons rule rest ih =>
    intro m m' h h'
    rcases h with ⟨hf, rfl⟩ | ⟨hn, hrest⟩
    · rcases h' with ⟨-, rfl⟩ | ⟨hn', -⟩
      · rfl
      · exact absurd hf hn'
    · rcases h' with ⟨hf', -⟩ | ⟨-, hrest'⟩
      · exact absurd hf' hn
      · exact ih m m' hrest hrest'

theorem chain1 (errors : Obj String) (f m1 : String) (c1 F1 : Prop) [Decidable c1]
    (h1 : c1 ↔ F1) (m : Option String) (hm : firstOf [(F1, m1)] m) :
    (if c1 then errors.set f m1 else errors.erase f) = record errors f m := by
  rcases hm with ⟨hF1, rfl⟩ | ⟨hn1, rfl⟩
  · rw [if_pos (h1.2 hF1)]; rfl
  · rw [if_neg (fun h => hn1 (h1.1 h))]; rfl

theorem chain2 (errors : Obj String) (f m1 m2 : String) (c1 c2 F1 F2 : Prop) [Decidable c1]
    [Decidable c2] (h1 : c1 ↔ F1) (h2 : ¬ F1 → (c2 ↔ F2)) (m : Option String)
    (hm : firstOf [(F1, m1), (F2, m2)] m) :
    (if c1 then errors.set f m1 else if c2 then errors.set f m2 else errors.erase f)
      = record errors f m := by
  rcases hm with ⟨hF1, rfl⟩ | ⟨hn1, hrest⟩
  · rw [if_pos (h1.2 hF1)]; rfl
  · rw [if_neg (fun h => hn1 (h1.1 h))]
    exact chain1 errors f m2 c2 F2 (h2 hn1) m hrest

theorem chain3 (errors : Obj String) (f m1 m2 m3 : String) (c1 c2 c3 F1 F2 F3 : Prop)
    [Decidable c1] [Decidable c2] [Decidable c3] (h1 : c1 ↔ F1) (h2 : ¬ F1 → (c2 ↔ F2))
    (h3 : ¬ F1 → ¬ F2 → (c3 ↔ F3)) (m : Option String)
    (hm : firstOf [(F1, m1), (F2, m2), (F3, m3)] m) :
    (if c1 then errors.set f m1 else if c2 then errors.set f m2
      else if c3 then errors.set f m3 else errors.erase f) = record errors f m := by
  rcases hm with ⟨hF1, rfl⟩ | ⟨hn1, hrest⟩
  · rw [if_pos (h1.2 hF1)]; rfl
  · rw [if_neg (fun h => hn1 (h1.1 h))]
    exact chain2 errors f m2 m3 c2 c3 F2 F3 (h2 hn1) (h3 hn1) m hrest

theorem chain4 (errors : Obj String) (f m1 m2 m3 m4 : String)
    (c1 c2 c3 c4 F1 F2 F3 F4 : Prop) [Decidable c1] [Decidable c2] [Decidable c3]
    [Decidable c4] (h1 : c1 ↔ F1) (h2 : ¬ F1 → (c2 ↔ F2)) (h3 : ¬ F1 → ¬ F2 → (c3 ↔ F3))
    (h4 : ¬ F1 → ¬ F2 → ¬ F3 → (c4 ↔ F4)) (m : Option String)
    (hm : firstOf [(F1, m1), (F2, m2), (F3, m3), (F4, m4)] m) :
    (if c1 then errors.set f m1 else if c2 then errors.set f m2
      else if c3 then errors.set f m3 else if c4 then errors.set f m4 else errors.erase f)
      = record errors f m := by
  rcases hm with ⟨hF1, rfl⟩ | ⟨hn1, hrest⟩
  · rw [if_pos (h1.2 hF1)]; rfl
  · rw [if_neg (fun h => hn1 (h1.1 h))]
    exact chain3 errors f m2 m3 m4 c2 c3 c4 F2 F3 F4 (h2 hn1) (h3 hn1) (h4 hn1) m hrest

theorem password_classes_rule (test : Bool) (p : Str)
    (ht : test = true ↔ 8 ≤ p.length ∧ Shape.passwordClasses p = true)
    (hlen : ¬ p.length < 8) : ((!test) = true ↔ Shape.passwordClasses p = false) := by
  cases hc : Shape.passwordClasses p with
  | false =>
    simp only [iff_true]
    cases hx : test with
    | false => rfl
    | true =>
      have := (ht.1 hx).2
      rw [hc] at this
      exact absurd this (by decide)
  | true =>
    have : test = true := ht.2 ⟨by omega, hc⟩
    simp [this]

theorem blank_iff (v : Str) : trim v = [] ↔ Shape.Blank v := trim_eq_nil_iff v

theorem login_validate_record (errors : Obj String) (f : String) (v : Str)
    (m : Option String) (hf : f ∈ Login.fields) (hm : firstOf (Login.rules f v) m) :
    (Login.validateField errors f v).1 = record errors f m := by
  simp only [Login.fields, List.mem_cons, List.mem_singleton, List.not_mem_nil, or_false] at hf
  rcases hf with rfl | rfl
  · exact chain2 errors "email" _ _ (trim v = []) ((!Login.emailRegex.test v) = true) _ _
      (blank_iff v) (fun _ => test_eq_false_iff (login_emailRegex_test v)) m hm
  · exact chain2 errors "password" _ _ (v = []) (v.length < 6) _ _ Iff.rfl (fun _ => Iff.rfl)
      m hm

theorem register_validate_record (errors : Obj String) (f : String) (v : Str)
    (m : Option String) (hf : f ∈ Register.fields) (hm : firstOf (Register.rules f v) m) :
    (Register.validateField errors f v).1 = record errors f m := by
  simp only [Register.fields, List.mem_cons, List.mem_singleton, List.not_mem_nil,
    or_false] at hf
  rcases hf with rfl | rfl | rfl | rfl
  · exact chain3 errors "name" _ _ _ (trim v = []) ((trim v).length < 2)
      ((!Register.nameRegex.test (trim v)) = true) _ _ _ (blank_iff v) (fun _ => Iff.rfl)
      (fun _ _ => test_eq_false_iff (register_nameRegex_test (trim v))) m hm
  · exact chain2 errors "email" _ _ (trim v = []) ((!Register.emailRegex.test v) = true) _ _
      (blank_iff v) (fun _ => test_eq_false_iff (register_emailRegex_test v)) m hm
  · exact chain2 errors "phone" _ _ (trim v = [])
      ((!Register.phoneRegex.test (stripSpaces v)) = true) _ _
      (blank_iff v) (fun _ => test_eq_false_iff (register_phoneRegex_test (stripSpaces v))) m hm
  · exact chain3 errors "password" _ _ _ (v = []) (v.length < 8)
      ((!Register.passwordRegex.test v) = true) _ _ _ Iff.rfl (fun _ => Iff.rfl)
      (fun _ h => password_classes_rule _ v (register_passwordRegex_test v) h) m hm

theorem checkout_validate_record (errors : Obj String) (f : String) (v : Str)
    (m : Option String) (hf : f ∈ Checkout.fields) (hm : firstOf (Checkout.rules f v) m) :
    (Checkout.validateField errors f v).1 = record errors f m := by
  simp only [Checkout.fields, List.mem_cons, List.mem_singleton, List.not_mem_nil,
    or_false] at hf
  rcases hf with rfl | rfl | rfl | rfl | rfl | rfl | rfl
  · exact chain2 errors "name" _ _ (trim v = []) ((!Checkout.nameRegex.test (trim v)) = true)
      _ _ (blank_iff v) (fun _ => test_eq_false_iff (checkout_nameRegex_test (trim v))) m hm
  · exact chain2 errors "street" _ _ (trim v = []) ((trim v).length < 5) _ _ (blank_iff v)
      (fun _ => Iff.rfl) m hm
  · exact chain2 errors "city" _ _ (trim v = []) ((trim v).length < 2) _ _ (blank_iff v)
      (fun _ => Iff.rfl) m hm
  · exact chain2 errors "state" _ _ (trim v = []) ((trim v).length < 2) _ _ (blank_iff v)
      (fun _ => Iff.rfl) m hm
  · exact chain2 errors "zipCode" _ _ (trim v = []) ((!Checkout.zipRegex.test (trim v)) = true)
      _ _ (blank_iff v) (fun _ => test_eq_false_iff (checkout_zipRegex_test (trim v))) m hm
  · exact chain1 errors "country" _ (v = []) _ Iff.rfl m hm
  · exact chain2 errors "phone" _ _ (trim v = [])
      ((!Checkout.phoneRegex.test (stripSpaces v)) = true) _ _
      (blank_iff v) (fun _ => test_eq_false_iff (checkout_phoneRegex_test (stripSpaces v))) m hm

theorem account_validate_record (passwordData : Obj Str) (errors : Obj String) (f : String)
    (v : Str) (m : Option String) (hf : f ∈ Account.fields)
    (hm : firstOf (Account.rules passwordData f v) m) :
    (Account.validatePasswordField passwordData errors f v).1 = record errors f m := by
  simp only [Account.fields, List.mem_cons, List.mem_singleton, List.not_mem_nil,
    or_false] at hf
  rcases hf with rfl | rfl | rfl
  · exact chain1 errors "currentPassword" _ (v = []) _ Iff.rfl m hm
  · exact chain4 errors "newPassword" _ _ _ _ (v = []) (v.length < 8)
      ((!Account.passwordRegex.test v) = true) (passwordData.get "currentPassword" = some v)
      _ _ _ _ Iff.rfl (fun _ => Iff.rfl)
      (fun _ h => password_classes_rule _ v (account_passwordRegex_test v) h)
      (fun _ _ _ => Iff.rfl) m hm
  · exact chain2 errors "confirmPassword" _ _ (v = []) (passwordData.get "newPassword" ≠ some v)
      _ _ Iff.rfl (fun _ => Iff.rfl) m hm

theorem record_get_self (errors : Obj String) (f : String) (m : Option String) :
    (record errors f m).get f = m := by
  cases m with
  | none => exact Obj.get_erase_self _ _
  | some msg => exact Obj.get_set_self _ _ _

/-- What the contract of a validator says of the map `produced` and the flag
`flag` it returns for the field `f`, given the rendered map and the chain of the
field. -/
theorem contract_of_record (errors produced : Obj String) (flag : Bool) (f : String)
    (chain : List (Prop × String)) (known : Prop)
    (hflag : flag = ((Obj.keys produced).length == 0))
    (hother : ∀ g, f ≠ g → produced.get g = errors.get g)
    (hrecord : ∀ m, known → firstOf chain m → produced = record errors f m)
    (hunknown : ¬ known → produced = errors) :
    (∀ g, f ≠ g → produced.get g = errors.get g) ∧
    (∃ m, firstOf chain m ∧ (∀ m', firstOf chain m' → m' = m) ∧
      (known → produced = record errors f m ∧
        (flag = true ↔ m = none ∧ ∀ g, f ≠ g → errors.get g = none))) ∧
    (flag = true ↔ produced = []) ∧
    (¬ known → produced = errors ∧ (flag = true ↔ errors = [])) := by
  refine ⟨hother, ?_, ?_, ?_⟩
  · obtain ⟨m, hm⟩ := firstOf_exists chain
    refine ⟨m, hm, fun m' hm' => firstOf_unique chain m m' hm hm', ?_⟩
    intro hk
    have hp := hrecord m hk hm
    refine ⟨hp, ?_⟩
    rw [hflag, validate_flag_iff errors produced f hother, hp, record_get_self]
  · rw [hflag]
    exact (obj_eq_nil_iff _).symm
  · intro hk
    have h1 := hunknown hk
    refine ⟨h1, ?_⟩
    rw [hflag, h1]
    exact (obj_eq_nil_iff _).symm

/-- C26: each of the validators of Login, Register, Checkout and Account hands
on the rendered error map with only the key of the validated field changed: the
message of the first failing rule of the field's chain is stored under it, or the
key is removed when no rule fails.  The value returned is true exactly when the
map produced is empty, that is when no rule of the field fails and the rendered
map holds no entry under any other key; for a name that matches no case the map
is the rendered one and the value returned tells whether that one is empty. -/
theorem validator_contract (errors : Obj String) (passwordData : Obj Str) (f : String)
    (v : Str) :
    ((∀ g, f ≠ g → (Login.validateField errors f v).1.get g = errors.get g) ∧
      (∃ m, firstOf (Login.rules f v) m ∧ (∀ m', firstOf (Login.rules f v) m' → m' = m) ∧
        (f ∈ Login.fields →
          (Login.validateField errors f v).1 = record errors f m ∧
          ((Login.validateField errors f v).2 = true ↔
            m = none ∧ ∀ g, f ≠ g → errors.get g = none))) ∧
      ((Login.validateField errors f v).2 = true ↔ (Login.validateField errors f v).1 = []) ∧
      (f ∉ Login.fields →
        (Login.validateField errors f v).1 = errors ∧
        ((Login.validateField errors f v).2 = true ↔ errors = []))) ∧
    ((∀ g, f ≠ g → (Register.validateField errors f v).1.get g = errors.get g) ∧
      (∃ m, firstOf (Register.rules f v) m ∧
        (∀ m', firstOf (Register.rules f v) m' → m' = m) ∧
        (f ∈ Register.fields →
          (Register.validateField errors f v).1 = record errors f m ∧
          ((Register.validateField errors f v).2 = true ↔
            m = none ∧ ∀ g, f ≠ g → errors.get g = none))) ∧
      ((Register.validateField errors f v).2 = true ↔
        (Register.validateField errors f v).1 = []) ∧
      (f ∉ Register.fields →
        (Register.validateField errors f v).1 = errors ∧
        ((Register.validateField errors f v).2 = true ↔ errors = []))) ∧
    ((∀ g, f ≠ g → (Checkout.validateField errors f v).1.get g = errors.get g) ∧
      (∃ m, firstOf (Checkout.rules f v) m ∧
        (∀ m', firstOf (Checkout.rules f v) m' → m' = m) ∧
        (f ∈ Checkout.fields →
          (Checkout.validateField errors f v).1 = record errors f m ∧
          ((Checkout.validateField errors f v).2 = true ↔
            m = none ∧ ∀ g, f ≠ g → errors.get g = none))) ∧
      ((Checkout.validateField errors f v).2 = true ↔
        (Checkout.validateField errors f v).1 = []) ∧
      (f ∉ Checkout.fields →
        (Checkout.validateField errors f v).1 = errors ∧
        ((Checkout.validateField errors f v).2 = true ↔ errors = []))) ∧
    ((∀ g, f ≠ g →
        (Account.validatePasswordField passwordData errors f v).1.get g = errors.get g) ∧
      (∃ m, firstOf (Account.rules passwordData f v) m ∧
        (∀ m', firstOf (Account.rules passwordData f v) m' → m' = m) ∧
        (f ∈ Account.fields →
          (Account.validatePasswordField passwordData errors f v).1 = record errors f m ∧
          ((Account.validatePasswordField passwordData errors f v).2 = true ↔
            m = none ∧ ∀ g, f ≠ g → errors.get g = none))) ∧
      ((Account.validatePasswordField passwordData errors f v).2 = true ↔
        (Account.validatePasswordField passwordData errors f v).1 = []) ∧
      (f ∉ Account.fields →
        (Account.validatePasswordField passwordData errors f v).1 = errors ∧
        ((Account.validatePasswordField passwordData errors f v).2 = true ↔
          errors = []))) :=
  ⟨contract_of_record errors _ _ f _ (f ∈ Login.fields) rfl
      (fun _ hg => login_validate_get_other _ _ _ _ hg)
      (fun m hk hm => login_validate_record errors f v m hk hm)
      (fun hk => login_validate_unknown errors f v hk),
    contract_of_record errors _ _ f _ (f ∈ Register.fields) rfl
      (fun _ hg => register_validate_get_other _ _ _ _ hg)
      (fun m hk hm => register_validate_record errors f v m hk hm)
      (fun hk => register_validate_unknown errors f v hk),
    contract_of_record errors _ _ f _ (f ∈ Checkout.fields) rfl
      (fun _ hg => checkout_validate_get_other _ _ _ _ hg)
      (fun m hk hm => checkout_validate_record errors f v m hk hm)
      (fun hk => checkout_validate_unknown errors f v hk),
    contract_of_record errors _ _ f _ (f ∈ Account.fields) rfl
      (fun _ hg => account_validate_get_other _ _ _ _ _ hg)
      (fun m hk hm => account_validate_record passwordData errors f v m hk hm)
      (fun hk => account_validate_unknown passwordData errors f v hk)⟩

/-! ## The submit error of Login -/

theorem login_validate_keeps_submit (errors : Obj String) (f : String) (v : Str) :
    (Login.validateField errors f v).1.get "submit" = errors.get "submit" := by
  by_cases hf : f = "submit"
  · rw [login_validate_unknown errors f v (by rw [hf]; decide)]
  · exact login_validate_get_other _ _ _ _ hf

theorem login_validate_false (errors : Obj String) (f : String) (v : Str)
    (h : errors.get "submit" ≠ none) : (Login.validateField errors f v).2 = false := by
  cases hr : (Login.validateField errors f v).2 with
  | false => rfl
  | true =>
    have h0 : ((Obj.keys (Login.validateField errors f v).1).length == 0) = true := hr
    have h1 := (keys_length_zero_iff _).1 h0 "submit"
    rw [login_validate_keeps_submit] at h1
    exact absurd h1 h

theorem login_validateAll_snd (s : Login.State) :
    (Login.validateAll s).2
      = (Obj.keys s.formData).all
          (fun key => (Login.validateField s.errors key ((s.formData.get key).getD [])).2) := by
  unfold Login.validateAll
  rw [foldl_validate_snd (fun key => Login.validateField s.errors key ((s.formData.get key).getD []))]
  simp

theorem login_validateAll_keeps_submit (s : Login.State) :
    (Login.validateAll s).1.get "submit" = s.errors.get "submit" :=
  foldl_validate_fst
    (fun key => Login.validateField s.errors key ((s.formData.get key).getD []))
    (fun m => m.get "submit" = s.errors.get "submit")
    (fun _ => login_validate_keeps_submit _ _ _) _ _ rfl

theorem login_submit_blocked (s : Login.State) (hsub : s.errors.get "submit" ≠ none)
    (hform : s.formData ≠ []) : (Login.handleSubmit s).request = none := by
  have hv : (Login.validateAll s).2 = false := by
    rw [login_validateAll_snd, List.all_eq_false]
    cases hd : s.formData with
    | nil => exact absurd hd hform
    | cons e t =>
      exact ⟨e.1, by simp [Obj.keys], by rw [login_validate_false _ _ _ hsub]; simp⟩
  unfold Login.handleSubmit
  simp [hv]

theorem login_step_keeps_submit (s : Login.State) (ev : Login.Event)
    (hsub : s.errors.get "submit" ≠ none) (hform : s.formData ≠ []) :
    (Login.step s ev).errors.get "submit" ≠ none ∧ (Login.step s ev).formData ≠ [] := by
  cases ev with
  | change name value =>
    refine ⟨?_, Obj.set_ne_nil _ _ _⟩
    simp only [Login.step, Login.handleChange]
    split_ifs
    · rw [login_validate_keeps_submit]; exact hsub
    · exact hsub
  | blur name =>
    refine ⟨?_, hform⟩
    simp only [Login.step, Login.handleBlur]
    rw [login_validate_keeps_submit]; exact hsub
  | submit =>
    have h1 : (Login.step s .submit).formData = s.formData := login_submit_keeps_formData s
    have h2 : (Login.step s .submit).errors = (Login.validateAll s).1 := by
      simp only [Login.step, Login.handleSubmit]
      split_ifs <;> rfl
    rw [h1, h2, login_validateAll_keeps_submit]
    exact ⟨hsub, hform⟩
  | resolved => exact ⟨hsub, hform⟩
  | rejected message =>
    refine ⟨?_, hform⟩
    simp [Login.step, Login.submitRejected, Obj.get_cons]

theorem login_run_keeps_submit (evs : List Login.Event) :
    ∀ s : Login.State, s.errors.get "submit" ≠ none → s.formData ≠ [] →
      (Login.runEvents s evs).errors.get "submit" ≠ none ∧
        (Login.runEvents s evs).formData ≠ [] := by
  induction evs with
  | nil => intro s h1 h2; exact ⟨h1, h2⟩
  | cons ev evs ih =>
    intro s h1 h2
    have h := login_step_keeps_submit s ev h1 h2
    exact ih _ h.1 h.2

/-- C25: once the error map of Login holds the key `submit`, it holds it after
every sequence of events; `validateField` copies it and returns false for every
field and value, and every later `handleSubmit` returns without a `loginUser`
call. -/
theorem login_submit_error_sticks (s : Login.State) (evs : List Login.Event) (name : String)
    (value : Str) (hsub : s.errors.get "submit" ≠ none) (hform : s.formData ≠ []) :
    (Login.runEvents s evs).errors.get "submit" ≠ none ∧
    (Login.validateField (Login.runEvents s evs).errors name value).2 = false ∧
    (Login.validateField (Login.runEvents s evs).errors name value).1.get "submit"
      = (Login.runEvents s evs).errors.get "submit" ∧
    (Login.handleSubmit (Login.runEvents s evs)).request = none ∧
    (Login.handleSubmit (Login.runEvents s evs)).state.isLoading
      = (Login.runEvents s evs).isLoading := by
  have h := login_run_keeps_submit evs s hsub hform
  have hreq := login_submit_blocked _ h.1 h.2
  refine ⟨h.1, login_validate_false _ _ _ h.1, login_validate_keeps_submit _ _ _, hreq, ?_⟩
  have hv : (Login.validateAll (Login.runEvents s evs)).2 = false := by
    by_contra hne
    have ht : (Login.validateAll (Login.runEvents s evs)).2 = true := by
      simpa using hne
    simp [Login.handleSubmit, ht] at hreq
  simp [Login.handleSubmit, hv]

/-- C25, at the form after a rejected login, with new credentials typed in and
the form submitted again. -/
theorem login_submit_error_sticks_witness :
    (Login.runEvents
      { formData := [("email", lit "a@b.com"), ("password", lit "wrong-1")],
        errors := [("submit", "Invalid email or password")],
        touched := [("email", true), ("password", true)], isLoading := false }
      [.change "password" (lit "right-1"), .blur "password", .submit]).errors.get "submit"
      ≠ none ∧
    (Login.handleSubmit
      (Login.runEvents
        { formData := [("email", lit "a@b.com"), ("password", lit "wrong-1")],
          errors := [("submit", "Invalid email or password")],
          touched := [("email", true), ("password", true)], isLoading := false }
        [.change "password" (lit "right-1"), .blur "password", .submit])).request = none :=
  ⟨(login_submit_error_sticks
      { formData := [("email", lit "a@b.com"), ("password", lit "wrong-1")],
        errors := [("submit", "Invalid email or password")],
        touched := [("email", true), ("password", true)], isLoading := false }
      [.change "password" (lit "right-1"), .blur "password", .submit] "email" (lit "a@b.com")
      (by decide) (by decide)).1,
    (login_submit_error_sticks
      { formData := [("email", lit "a@b.com"), ("password", lit "wrong-1")],
        errors := [("submit", "Invalid email or password")],
        touched := [("email", true), ("password", true)], isLoading := false }
      [.change "password" (lit "right-1"), .blur "password", .submit] "email" (lit "a@b.com")
      (by decide) (by decide)).2.2.2.1⟩

/-! ## Phone values with punctuation -/

theorem genericPhone_chars (w : Str) (h : Shape.GenericPhone w) :
    ∀ c ∈ w, c = 43 ∨ isDigit c = true := by
  obtain ⟨pre, d, rest, hpre, hd, -, hall, rfl⟩ := h
  have hplus : lit "+" = [43] := by decide
  intro c hc
  simp only [List.mem_append, List.mem_cons] at hc
  rcases hc with hc | rfl | hc
  · rcases hpre with rfl | rfl
    · rw [hplus] at hc
      simp at hc
      exact Or.inl hc
    · simp at hc
  · right
    simp only [isDigit, Bool.and_eq_true, decide_eq_true_eq]
    omega
  · exact Or.inr (hall c hc)

theorem egyptPhone_chars (w : Str) (h : Shape.EgyptPhone w) :
    ∀ c ∈ w, c = 43 ∨ isDigit c = true := by
  obtain ⟨pre, d, rest, hpre, hd, -, hall, rfl⟩ := h
  intro c hc
  simp only [lit_01, List.mem_append, List.mem_cons, List.mem_singleton, List.not_mem_nil,
    or_false] at hc
  rcases hc with (hc | rfl | rfl) | rfl | hc
  · rcases hpre with rfl | rfl | rfl
    · simp at hc
    · rw [lit_plus20] at hc
      simp only [List.mem_cons, List.mem_singleton, List.not_mem_nil, or_false] at hc
      rcases hc with rfl | rfl | rfl
      · exact Or.inl rfl
      · exact Or.inr (by decide)
      · exact Or.inr (by decide)
    · rw [lit_20] at hc
      simp only [List.mem_cons, List.mem_singleton, List.not_mem_nil, or_false] at hc
      rcases hc with rfl | rfl
      · exact Or.inr (by decide)
      · exact Or.inr (by decide)
  · exact Or.inr (by decide)
  · exact Or.inr (by decide)
  · right
    rcases hd with rfl | rfl | rfl | rfl <;> decide
  · exact Or.inr (hall c hc)

theorem punctuation_facts (c : Nat) (h : c = 45 ∨ c = 40 ∨ c = 41) :
    isSpace c = false ∧ ¬ (c = 43 ∨ isDigit c = true) ∧
      (oneOf "+" c || isDigit c || isSpace c || oneOf "-()" c) = true := by
  rcases h with rfl | rfl | rfl <;> decide

theorem phone_with_punctuation (v : Str) (c : Nat) (hc : c ∈ v)
    (hsym : c = 45 ∨ c = 40 ∨ c = 41) :
    trim v ≠ [] ∧ c ∈ stripSpaces v ∧
      c ∈ removeAll (fun c => !(oneOf "+" c || isDigit c || isSpace c || oneOf "-()" c)) v := by
  obtain ⟨h1, -, h3⟩ := punctuation_facts c hsym
  refine ⟨?_, ?_, ?_⟩
  · intro h
    have := (trim_eq_nil_iff v).1 h c hc
    rw [h1] at this
    exact absurd this (by decide)
  · simp [stripSpaces, hc, h1]
  · simp only [removeAll, List.mem_filter, Bool.not_not]
    exact ⟨hc, h3⟩

/-- C27: a phone value that contains `-`, `(` or `)` is rejected with the
invalid-number message by the phone validators of Register, Checkout and Profile,
and the phone sanitizers keep that character; the placeholder
`+1 (555) 123-4567` of Register is left as it is by the sanitizer and fails
Register's phone validation. -/
theorem punctuated_phone_rejected (errors : Obj String) (v : Str) (c : Nat) (hc : c ∈ v)
    (hsym : c = 45 ∨ c = 40 ∨ c = 41) :
    (Register.validateField errors "phone" v).1
      = errors.set "phone" "Please enter a valid phone number" ∧
    (Checkout.validateField errors "phone" v).1
      = errors.set "phone" "Please enter a valid phone number" ∧
    (Profile.validateField errors "phone" v).1
      = errors.set "phone" "Please enter a valid phone number" ∧
    c ∈ Register.sanitize "phone" v ∧ c ∈ Checkout.sanitize "phone" v ∧
    c ∈ Profile.sanitize "phone" v ∧
    Register.sanitize "phone" (lit "+1 (555) 123-4567") = lit "+1 (555) 123-4567" ∧
    (Register.validateField errors "phone" (lit "+1 (555) 123-4567")).1
      = errors.set "phone" "Please enter a valid phone number" := by
  obtain ⟨hblank, hstrip, hkept⟩ := phone_with_punctuation v c hc hsym
  have hnot := (punctuation_facts c hsym).2.1
  have hR : Register.phoneRegex.test (stripSpaces v) = false := by
    cases ht : Register.phoneRegex.test (stripSpaces v) with
    | false => rfl
    | true =>
      exact absurd (genericPhone_chars _ ((register_phoneRegex_test _).1 ht) c hstrip) hnot
  have hC : Checkout.phoneRegex.test (stripSpaces v) = false := by
    cases ht : Checkout.phoneRegex.test (stripSpaces v) with
    | false => rfl
    | true =>
      exact absurd (egyptPhone_chars _ ((checkout_phoneRegex_test _).1 ht) c hstrip) hnot
  have hP : Profile.phoneRegex.test (stripSpaces v) = false := by
    cases ht : Profile.phoneRegex.test (stripSpaces v) with
    | false => rfl
    | true =>
      exact absurd (egyptPhone_chars _ ((profile_phoneRegex_test _).1 ht) c hstrip) hnot
  have h1 : trim (lit "+1 (555) 123-4567") ≠ [] := by decide
  have h2 : Register.phoneRegex.test (stripSpaces (lit "+1 (555) 123-4567")) = false := by
    decide
  refine ⟨?_, ?_, ?_, hkept, hkept, hkept, by decide, ?_⟩
  · simp [Register.validateField, hblank, hR]
  · simp [Checkout.validateField, hblank, hC]
  · simp [Profile.validateField, hblank, hP]
  · simp [Register.validateField, h1, h2]

/-- C27, at the placeholder of Register's phone input and its `(`. -/
theorem punctuated_phone_rejected_witness :
    (Register.validateField [] "phone" (lit "+1 (555) 123-4567")).1
      = Obj.set ([] : Obj String) "phone" "Please enter a valid phone number" ∧
    (Checkout.validateField [] "phone" (lit "+1 (555) 123-4567")).1
      = Obj.set ([] : Obj String) "phone" "Please enter a valid phone number" ∧
    40 ∈ Register.sanitize "phone" (lit "+1 (555) 123-4567") :=
  ⟨(punctuated_phone_rejected [] (lit "+1 (555) 123-4567") 40 (by decide)
      (Or.inr (Or.inl rfl))).1,
    (punctuated_phone_rejected [] (lit "+1 (555) 123-4567") 40 (by decide)
      (Or.inr (Or.inl rfl))).2.1,
    (punctuated_phone_rejected [] (lit "+1 (555) 123-4567") 40 (by decide)
      (Or.inr (Or.inl rfl))).2.2.2.1⟩

/-! ## Password strength against the password rules -/

theorem register_password_accept_iff (errors : Obj String) (p : Str) :
    (Register.validateField errors "password" p).1.get "password" = none ↔
      8 ≤ p.length ∧ Shape.passwordClasses p = true := by
  have hR : (Register.validateField errors "password" p).1
      = (if p = [] then errors.set "password" "Password is required"
         else if p.length < 8 then errors.set "password" "Password must be at least 8 characters"
         else if (!Register.passwordRegex.test p) = true then
           errors.set "password" "Password must contain uppercase, lowercase, and number"
         else errors.erase "password") := rfl
  have ht := test_eq_false_iff (register_passwordRegex_test p)
  rw [hR]
  by_cases h1 : p = []
  · subst h1
    simp [Obj.get_set_self]
  · by_cases h2 : p.length < 8
    · rw [if_neg h1, if_pos h2, Obj.get_set_self]
      constructor
      · intro h; exact absurd h (by simp)
      · rintro ⟨h, -⟩; omega
    · by_cases h3 : (!Register.passwordRegex.test p) = true
      · rw [if_neg h1, if_neg h2, if_pos h3, Obj.get_set_self]
        constructor
        · intro h; exact absurd h (by simp)
        · intro h; exact absurd h (ht.1 h3)
      · rw [if_neg h1, if_neg h2, if_neg h3, Obj.get_erase_self]
        simp only [true_iff]
        by_contra hne
        exact h3 (ht.2 hne)

theorem passwordChar_symbol (c : Nat) (h : oneOf "@$!%*?&" c = true) :
    Shape.passwordChar c = true := by
  rw [← passwordChar_eq, h]
  simp

theorem register_strength_accepted (p : Str) (h8 : 8 ≤ p.length)
    (hl : p.any isLower = true) (hu : p.any isUpper = true) (hd : p.any isDigit = true) :
    Register.getPasswordStrength p = 4 + (if p.any (oneOf "@$!%*?&") = true then 1 else 0) := by
  rw [register_strength_formula, if_pos h8, if_pos hl, if_pos hu, if_pos hd]

/-- C28: a password that Register's validator accepts scores at least 4, so it
is labelled `Good` or `Strong`, and it scores 5 exactly when it contains one of
`@$!%*?&`. -/
theorem accepted_password_is_good (errors : Obj String) (p : Str)
    (hacc : (Register.validateField errors "password" p).1.get "password" = none) :
    4 ≤ Register.getPasswordStrength p ∧
    (Register.getPasswordStrength p = 5 ↔ p.any (oneOf "@$!%*?&") = true) ∧
    (Register.strengthLabel (Register.getPasswordStrength p) = "Good" ∨
      Register.strengthLabel (Register.getPasswordStrength p) = "Strong") := by
  obtain ⟨h8, hcls⟩ := (register_password_accept_iff errors p).1 hacc
  simp only [Shape.passwordClasses, Bool.and_eq_true] at hcls
  obtain ⟨⟨⟨hl, hu⟩, hd⟩, -⟩ := hcls
  have hs := register_strength_accepted p h8 hl hu hd
  by_cases hsym : p.any (oneOf "@$!%*?&") = true
  · rw [if_pos hsym] at hs
    rw [hs]
    exact ⟨by omega, by simp [hsym], Or.inr (by decide)⟩
  · rw [if_neg hsym] at hs
    rw [hs]
    exact ⟨by omega, by simp [hsym], Or.inl (by decide)⟩

/-- C28, at the accepted passwords `Password1` and `Password1!`. -/
theorem accepted_password_is_good_witness :
    Register.getPasswordStrength (lit "Password1") = 4 ∧
    Register.getPasswordStrength (lit "Password1!") = 5 ∧
    4 ≤ Register.getPasswordStrength (lit "Password1") ∧
    (Register.getPasswordStrength (lit "Password1!") = 5 ↔
      (lit "Password1!").any (oneOf "@$!%*?&") = true) :=
  ⟨by decide, by decide,
    (accepted_password_is_good [] (lit "Password1") (by decide)).1,
    (accepted_password_is_good [] (lit "Password1!") (by decide)).2.1⟩

/-- C29: a password of length at least 8 with a lowercase letter, an uppercase
letter, a digit and one of `@$!%*?&` that also contains a code unit outside
`[a-zA-Z0-9@$!%*?&]` scores 5, is labelled `Strong`, and is rejected by Register
with the character-class message; `Password1!#` is one. -/
theorem strong_password_rejected (errors : Obj String) (p : Str) (c : Nat)
    (h8 : 8 ≤ p.length) (hl : p.any isLower = true) (hu : p.any isUpper = true)
    (hd : p.any isDigit = true) (hs : p.any (oneOf "@$!%*?&") = true)
    (hc : c ∈ p) (hout : Shape.passwordChar c = false) :
    Register.getPasswordStrength p = 5 ∧
    Register.strengthLabel (Register.getPasswordStrength p) = "Strong" ∧
    (Register.validateField errors "password" p).1
      = errors.set "password" "Password must contain uppercase, lowercase, and number" ∧
    (Register.validateField errors "password" p).2 = false := by
  have hscore : Register.getPasswordStrength p = 5 := by
    rw [register_strength_accepted p h8 hl hu hd, if_pos hs]
  have hcls : ¬ (8 ≤ p.length ∧ Shape.passwordClasses p = true) := by
    rintro ⟨-, h⟩
    simp only [Shape.passwordClasses, Bool.and_eq_true, List.all_eq_true] at h
    have := h.2 c hc
    rw [hout] at this
    exact absurd this (by decide)
  have ht : Register.passwordRegex.test p = false := by
    cases hx : Register.passwordRegex.test p with
    | false => rfl
    | true => exact absurd ((register_passwordRegex_test p).1 hx) hcls
  have h1 : p ≠ [] := by
    intro h
    rw [h] at h8
    simp at h8
  have h2 : ¬ p.length < 8 := by omega
  have hmap : (Register.validateField errors "password" p).1
      = errors.set "password" "Password must contain uppercase, lowercase, and number" := by
    simp [Register.validateField, h1, h2, ht]
  refine ⟨hscore, by rw [hscore]; decide, hmap, ?_⟩
  have hflag : (Register.validateField errors "password" p).2
      = ((Obj.keys (Register.validateField errors "password" p).1).length == 0) := rfl
  rw [hflag, hmap]
  exact Obj.keys_set_length _ _ _

/-- C29, at the password `Password1!#` and its `#`. -/
theorem strong_password_rejected_witness :
    Register.getPasswordStrength (lit "Password1!#") = 5 ∧
    Register.strengthLabel (Register.getPasswordStrength (lit "Password1!#")) = "Strong" ∧
    (Register.validateField [] "password" (lit "Password1!#")).1
      = Obj.set ([] : Obj String) "password"
          "Password must contain uppercase, lowercase, and number" ∧
    (Register.validateField [] "password" (lit "Password1!#")).2 = false :=
  strong_password_rejected [] (lit "Password1!#") 35 (by decide) (by decide) (by decide)
    (by decide) (by decide) (by decide) (by decide)
